import Mathlib

/-!
# droidcam-obs-plugin: frame codec, packet pool and ingest loops

A shallow embedding of `src/source.cc`.  A socket is identified with the
bytes still to arrive on it (`List Nat`, one element per byte); an invalid
socket is `none`.  Calls into collaborators that are not part of
`source.cc` (decoder initialisation, decoding, the host sink) take their
results from explicit arguments and are recorded in a ghost trace.
-/

namespace DroidCam

/-! ## Constants -/

/-- Modelled from the spec: `HEADER_SIZE` is defined in a header that is not
part of the sources at hand; the spec fixes the header at 12 bytes
(8-byte timestamp followed by a 4-byte length). -/
def HEADER_SIZE : Nat := 12

/-- The macro `#define MAXCONFIG 1024`. -/
def MAXCONFIG : Nat := 1024

/-- The macro `#define MAXPACKET 1024 * 1024 * 16`. -/
def MAXPACKET : Nat := 1024 * 1024 * 16

/-! ## Byte helpers -/

/-- Big-endian value of a byte string. -/
def be_value (bytes : List Nat) : Nat :=
  bytes.foldl (fun acc b => acc * 256 + b) 0

/-- Modelled from the spec: `buffer_read64be` lives in `buffer_util.h`, which is
not part of the sources at hand; the spec says the timestamp is 8 bytes,
big-endian. -/
def buffer_read64be (buf : List Nat) : Nat := be_value (buf.take 8)

/-- Modelled from the spec: `buffer_read32be` lives in `buffer_util.h`, which is
not part of the sources at hand; the spec says the length is 4 bytes,
big-endian. -/
def buffer_read32be (buf : List Nat) : Nat := be_value (buf.take 4)

/-- Big-endian encoding of `v` on `n` bytes (the peer's side of the wire). -/
def be_bytes : Nat → Nat → List Nat
  | 0, _ => []
  | n + 1, v => be_bytes n (v / 256) ++ [v % 256]

/-- The 12-byte frame header the peer sends: timestamp, then length. -/
def header (pts len : Nat) : List Nat := be_bytes 8 pts ++ be_bytes 4 len

/-- Modelled from the spec: `net_recv_all` lives in `net.h`, which is not part
of the sources at hand.  It receives until `len` bytes have arrived or the
stream ends (peer half-closed, timeout); the result is the bytes received
and the bytes still to arrive. -/
def net_recv_all (sock : List Nat) (len : Nat) : List Nat × List Nat :=
  (sock.take len, sock.drop len)

/-- The effect of `memcpy(buf + off, src, |src|)` / receiving `src` at `buf + off`. -/
def write_at (buf : List Nat) (off : Nat) (src : List Nat) : List Nat :=
  buf.take off ++ src ++ buf.drop (off + src.length)

/-! ## Packets and the per-decoder pool -/

/-- A `DataPacket`: the buffer (its capacity is `data.length`), the used
length and the timestamp. -/
structure DataPacket where
  data : List Nat
  used : Nat
  pts : Nat
deriving DecidableEq, Repr

/-- Ghost record of a call on the pool. -/
inductive PoolOp where
  | pull_empty (size : Nat)
  | push_empty
  | pull_ready (got : Bool)
  | push_ready
deriving DecidableEq, Repr

/-- Modelled from the spec: the `Decoder` class is declared in a header that is
not part of the sources at hand.  `source.cc` uses its fields
`recieveQueue` (the empty FIFO), `alloc_count`, `ready`, `failed` and its
four pool methods; `decodeQueue` is the ready FIFO.  `log` is a ghost
field recording the pool calls in order. -/
structure Decoder where
  recieveQueue : List DataPacket
  decodeQueue : List DataPacket
  alloc_count : Nat
  ready : Bool
  failed : Bool
  log : List PoolOp
deriving DecidableEq, Repr

/-- Modelled from the spec: the resizing `pullEmpty` does on a reused buffer that
is too small; the buffer is grown to `size`. -/
def DataPacket.resize (p : DataPacket) (size : Nat) : DataPacket :=
  if p.data.length < size then
    { p with data := p.data ++ List.replicate (size - p.data.length) 0 }
  else p

/-- Modelled from the spec: `pullEmpty(size)` returns a buffer with capacity at
least `size`, resizing or allocating as needed; it never fails (it grows
instead).  The total allocated count only grows. -/
def Decoder.pull_empty_packet (d : Decoder) (size : Nat) : DataPacket × Decoder :=
  match d.recieveQueue with
  | [] =>
    (⟨List.replicate size 0, 0, 0⟩,
     { d with alloc_count := d.alloc_count + 1, log := d.log ++ [PoolOp.pull_empty size] })
  | p :: rest =>
    (p.resize size,
     { d with recieveQueue := rest, log := d.log ++ [PoolOp.pull_empty size] })

/-- Modelled from the spec: `pushEmpty` is a FIFO append to the empty queue. -/
def Decoder.push_empty_packet (d : Decoder) (p : DataPacket) : Decoder :=
  { d with recieveQueue := d.recieveQueue ++ [p], log := d.log ++ [PoolOp.push_empty] }

/-- Modelled from the spec: `pushReady` is a FIFO append to the ready queue. -/
def Decoder.push_ready_packet (d : Decoder) (p : DataPacket) : Decoder :=
  { d with decodeQueue := d.decodeQueue ++ [p], log := d.log ++ [PoolOp.push_ready] }

/-- Modelled from the spec: `pullReady` is non-blocking and returns "none"
immediately when the ready queue is empty. -/
def Decoder.pull_ready_packet (d : Decoder) : Option DataPacket × Decoder :=
  match d.decodeQueue with
  | [] => (none, { d with log := d.log ++ [PoolOp.pull_ready false] })
  | p :: rest =>
    (some p, { d with decodeQueue := rest, log := d.log ++ [PoolOp.pull_ready true] })

/-- Modelled from the spec: the decoder constructors are not part of the sources
at hand; a freshly constructed decoder (`new FFMpegDecoder()`,
`new MJpegDecoder()`) has an empty pool and is neither ready nor failed. -/
def Decoder.fresh : Decoder :=
  { recieveQueue := [], decodeQueue := [], alloc_count := 0,
    ready := false, failed := false, log := [] }

/-! ## `read_frame` -/

/-- What `read_frame` leaves behind: the returned packet (`none` for `NULL`),
the decoder, the bytes still to arrive on the socket and `*has_config`.
`recvs` is a ghost field: for each `net_recv_all` call made, in order, the
number of bytes requested and the number delivered. -/
structure ReadResult where
  packet : Option DataPacket
  decoder : Decoder
  sock : List Nat
  has_config : Int
  recvs : List (Nat × Nat)
deriving DecidableEq, Repr

/-- The body of `read_frame` from the label `AGAIN`, with the locals `config`
and `config_len` as arguments.  `NO_PTS` is the sentinel timestamp, whose
definition is not part of the sources at hand. -/
def read_frame_AGAIN (NO_PTS : Nat) (decoder : Decoder) (sock : List Nat)
    (config : List Nat) (config_len : Nat) (has_config : Int) : ReadResult :=
  let header := (net_recv_all sock HEADER_SIZE).1
  let sock1 := (net_recv_all sock HEADER_SIZE).2
  let recvs1 := [(HEADER_SIZE, header.length)]
  if hr : header.length ≠ HEADER_SIZE then
    ⟨none, decoder, sock1, has_config, recvs1⟩
  else
    let pts := buffer_read64be header
    let len := buffer_read32be (header.drop 8)
    if pts = NO_PTS then
      if config_len ≠ 0 then
        ⟨none, decoder, sock1, has_config, recvs1⟩
      else if len % 2 ^ 32 = 2 ^ 32 - 1 then
        ⟨none, decoder, sock1, has_config, recvs1⟩
      else if len = 0 ∨ len > MAXCONFIG then
        ⟨none, decoder, sock1, has_config, recvs1⟩
      else
        let config1 := (net_recv_all sock1 len).1
        let sock2 := (net_recv_all sock1 len).2
        let recvs2 := recvs1 ++ [(len, config1.length)]
        if config1.length ≠ len then
          ⟨none, decoder, sock2, has_config, recvs2⟩
        else
          let r := read_frame_AGAIN NO_PTS decoder sock2 config1 len 1
          { r with recvs := recvs2 ++ r.recvs }
    else if len = 0 ∨ len > MAXPACKET then
      ⟨none, decoder, sock1, has_config, recvs1⟩
    else
      let data_packet := (decoder.pull_empty_packet (config_len + len)).1
      let decoder1 := (decoder.pull_empty_packet (config_len + len)).2
      let data1 :=
        if config_len ≠ 0 then write_at data_packet.data 0 (config.take config_len)
        else data_packet.data
      let sample := (net_recv_all sock1 len).1
      let sock2 := (net_recv_all sock1 len).2
      let recvs2 := recvs1 ++ [(len, sample.length)]
      let data2 := write_at data1 config_len sample
      if sample.length ≠ len then
        ⟨none, decoder1.push_empty_packet { data_packet with data := data2 }, sock2, has_config,
          recvs2⟩
      else
        ⟨some { data := data2, used := config_len + len, pts := pts }, decoder1, sock2,
          has_config, recvs2⟩
termination_by sock.length
decreasing_by
  have h12 : (sock.take 12).length = 12 := not_not.mp hr
  simp only [net_recv_all, HEADER_SIZE, List.length_take, List.length_drop] at h12 ⊢
  omega

/-- The function `read_frame(decoder, sock, &has_config)`: `config_len` starts at 0 and the
`config` array is not yet written. -/
def read_frame (NO_PTS : Nat) (decoder : Decoder) (sock : List Nat) (has_config : Int) :
    ReadResult :=
  read_frame_AGAIN NO_PTS decoder sock [] 0 has_config

/-! ## Session state, collaborators and the ghost trace -/

/-- The type `enum VideoFormat`: the two formats `source.cc` names, and any other value
the persisted integer setting may hold. -/
inductive VideoFormat where
  | FORMAT_AVC
  | FORMAT_MJPG
  | unexpected (value : Int)
deriving DecidableEq, Repr

/-- The type `enum class DeviceType`, and any other value the persisted integer may hold. -/
inductive DeviceType where
  | NONE
  | WIFI
  | ADB
  | IOS
  | MDNS
  | other (value : Int)
deriving DecidableEq, Repr

/-- The type `struct active_device_info`. -/
structure active_device_info where
  id : String
  ip : String
  port : Int
  type : DeviceType
deriving DecidableEq, Repr

/-- A `Device` as returned by a device manager's `GetDevice`. -/
structure Device where
  address : String
deriving DecidableEq, Repr

/-- The type `struct Tally_t`. -/
structure Tally_t where
  on_preview : Bool
  on_program : Bool
deriving DecidableEq, Repr

/-- The type `enum class CommsTask`. -/
inductive CommsTask where
  | NONE
  | TALLY
deriving DecidableEq, Repr

/-- Ghost trace: the calls a thread makes to the outside, in order. -/
inductive Event where
  | os_sleep_ms (ms : Nat)
  | net_close
  | net_connect (ip : String) (port : Int)
  | net_send_video_req (format : VideoFormat) (resolution usb_port : Int)
  | net_send_audio_req
  | set_recv_buf_len
  | set_remote_url (port : Int)
  | mdns_reload
  | adb_reload
  | ios_reload
  | adb_clear_forwards
  | adb_add_forward (local_port remote_port : Int)
  | ios_connect (port : Int)
  | video_init
  | audio_init
  | decode_video
  | decode_audio
  | output_video (timestamp : Option Nat)
  | output_audio (timestamp : Option Nat)
  | signal_connect
  | signal_disconnect
  | delete_video_decoder
  | use_deleted_video_decoder
  | delete_audio_decoder
  | connect_device
  | comms_task (t : CommsTask)
  | set_recv_timeout
  | http_battery
  | http_tally (tally : String)
  | signal_source_update (level : Option Int) (alert : Bool)
deriving DecidableEq, Repr

/-- The fields of `struct droidcam_obs_source` that the loops read or write.
A signalled manual-reset event is `true`.  `trace` is a ghost field. -/
structure Plugin where
  tally : Tally_t
  video_decoder : Option Decoder
  audio_decoder : Option Decoder
  stop_signal : Bool
  reset_signal : Bool
  comms_signal : Bool
  is_showing : Bool
  activated : Bool
  deactivateWNS : Bool
  enable_audio : Bool
  use_hw : Bool
  audio_running : Bool
  video_running : Bool
  video_resolution : Int
  usb_port : Int
  video_format : VideoFormat
  device_info : active_device_info
  comms_queue : List CommsTask
  trace : List Event
deriving DecidableEq, Repr

/-- The results of the calls into collaborators during one loop iteration:
what the call returns if it is made. -/
structure Env where
  init_ok : Bool
  decode_ok : Bool
  got_output : Bool
  gettime_ns : Nat
  send_ok : Bool
  net_connect : Option (List Nat)
  mdns_device : Option Device
  adb_device : Option Device
  adb_offline : Bool
  adb_iter : Int
  adb_forward_ok : Bool
  ios_device : Option Device
  ios_connect : Option (List Nat) × Int
deriving DecidableEq, Repr

/-- The macro `#define FPS 25`. -/
def FPS : Nat := 25

/-- The macro `#define MILLI_SEC 1000`. -/
def MILLI_SEC : Nat := 1000

/-- The macro `SOURCE_EXISTS()`: the stop signal has not been raised. -/
def SOURCE_EXISTS (plugin : Plugin) : Bool := !plugin.stop_signal

/-- Appends events to the ghost trace. -/
def Plugin.emit (plugin : Plugin) (events : List Event) : Plugin :=
  { plugin with trace := plugin.trace ++ events }

/-- The macro `comms_task(t)`: enqueue, then raise the wake signal.  The call is
also recorded in the ghost trace.  Modelled from the spec: the `Queue`
template is not part of the sources at hand; `add_item` appends to the
queue. -/
def comms_task (plugin : Plugin) (t : CommsTask) : Plugin :=
  { plugin with
    comms_queue := plugin.comms_queue ++ [t], comms_signal := true,
    trace := plugin.trace ++ [Event.comms_task t] }

/-- Modelled from the spec: the decoder classes' `init` is not part of the
sources at hand; a successful initialisation leaves the decoder `ready`. -/
def Decoder.init (d : Decoder) (ok : Bool) : Decoder :=
  if ok then { d with ready := true } else d

/-! ## `recv_video_frame` and the video decode worker -/

/-- The decoder `recv_video_frame` constructs when none exists (lines 306-319). -/
def new_video_decoder (video_format : VideoFormat) : Decoder :=
  match video_format with
  | VideoFormat.FORMAT_AVC => Decoder.fresh
  | VideoFormat.FORMAT_MJPG => Decoder.fresh
  | VideoFormat.unexpected _ => { Decoder.fresh with failed := true }

/-- The function `recv_video_frame(plugin, sock)`: the result, the session state and the
bytes still to arrive.  The writes to `obs_video_frame.format` and `.range`
are not modelled. -/
def recv_video_frame (NO_PTS : Nat) (env : Env) (plugin : Plugin) (sock : List Nat) :
    Bool × Plugin × List Nat :=
  let decoder0 :=
    match plugin.video_decoder with
    | some d => d
    | none => new_video_decoder plugin.video_format
  let r := read_frame NO_PTS decoder0 sock 0
  match r.packet with
  | none => (false, { plugin with video_decoder := some r.decoder }, r.sock)
  | some data_packet =>
    let decoder := r.decoder
    if decoder.failed then
      (true, { plugin with video_decoder := some (decoder.push_empty_packet data_packet) }, r.sock)
    else if !decoder.ready then
      match plugin.video_format with
      | VideoFormat.unexpected _ =>
        (true,
         { plugin with
           video_decoder := some ({ decoder with failed := true }.push_empty_packet data_packet) },
         r.sock)
      | _ =>
        if env.init_ok then
          let plugin1 := (comms_task (plugin.emit [Event.video_init]) CommsTask.TALLY).emit
            [Event.signal_connect]
          (true,
           { plugin1 with
             video_decoder := some ((decoder.init true).push_ready_packet data_packet) },
           r.sock)
        else
          (true,
           { plugin.emit [Event.video_init] with
             video_decoder :=
               some ({ decoder.init false with failed := true }.push_empty_packet data_packet) },
           r.sock)
    else
      (true, { plugin with video_decoder := some (decoder.push_ready_packet data_packet) }, r.sock)

/-- Lines 271-293 of `video_decode_thread`: what the worker does with a packet
it pulled, as the new decoder state and the calls made. -/
def video_decode_packet (env : Env) (decoder : Decoder) (data_packet : DataPacket) :
    Decoder × List Event :=
  if decoder.failed then
    (decoder.push_empty_packet data_packet, [])
  else if !env.decode_ok then
    ({ decoder with failed := true }.push_empty_packet data_packet, [Event.decode_video])
  else if env.got_output then
    (decoder.push_empty_packet data_packet,
     [Event.decode_video, Event.output_video (some (data_packet.pts * 1000 % 2 ^ 64))])
  else
    (decoder.push_empty_packet data_packet, [Event.decode_video])

/-- One iteration of the `while (SOURCE_EXISTS())` loop of `video_decode_thread`. -/
def video_decode_thread_iter (env : Env) (plugin : Plugin) : Plugin :=
  match plugin.video_decoder with
  | none => plugin.emit [Event.os_sleep_ms 5]
  | some decoder =>
    match decoder.pull_ready_packet with
    | (none, decoder1) =>
      { plugin with video_decoder := some decoder1 }.emit [Event.os_sleep_ms 5]
    | (some data_packet, decoder1) =>
      let r := video_decode_packet env decoder1 data_packet
      { plugin with video_decoder := some r.1 }.emit r.2

/-! ## `do_audio_frame` -/

/-- The function `do_audio_frame(plugin, sock)`: the result, the session state and the bytes
still to arrive.  The write to `obs_audio_frame.format` is not modelled. -/
def do_audio_frame (NO_PTS : Nat) (env : Env) (plugin : Plugin) (sock : List Nat) :
    Bool × Plugin × List Nat :=
  let decoder0 :=
    match plugin.audio_decoder with
    | some d => d
    | none => Decoder.fresh
  let r := read_frame NO_PTS decoder0 sock 0
  match r.packet with
  | none => (false, { plugin with audio_decoder := some r.decoder }, r.sock)
  | some data_packet =>
    let decoder := r.decoder
    if decoder.failed then
      (true, { plugin with audio_decoder := some (decoder.push_empty_packet data_packet) }, r.sock)
    else if r.has_config ≠ 0 ∨ decoder.ready = false then
      if decoder.ready then
        (true,
         { plugin with
           audio_decoder := some ({ decoder with failed := true }.push_empty_packet data_packet) },
         r.sock)
      else if !env.init_ok then
        (true,
         { plugin.emit [Event.audio_init] with
           audio_decoder :=
             some ({ decoder.init false with failed := true }.push_empty_packet data_packet) },
         r.sock)
      else
        (true,
         { plugin.emit [Event.audio_init] with
           audio_decoder := some ((decoder.init true).push_empty_packet data_packet) },
         r.sock)
    else if !env.decode_ok then
      (true,
       { plugin.emit [Event.decode_audio] with
         audio_decoder := some ({ decoder with failed := true }.push_empty_packet data_packet) },
       r.sock)
    else if env.got_output then
      (true,
       { plugin.emit [Event.decode_audio, Event.output_audio (some env.gettime_ns)] with
         audio_decoder := some (decoder.push_empty_packet data_packet) },
       r.sock)
    else
      (true,
       { plugin.emit [Event.decode_audio] with
         audio_decoder := some (decoder.push_empty_packet data_packet) },
       r.sock)

/-! ## `connect` -/

/-- The address `localhost_ip`. -/
def localhost_ip : String := "127.0.0.1"

/-- The function `connect(plugin)`: the socket (`none` for `INVALID_SOCKET`) and the session
state.  Device lookups, the forward request and the dial take their results
from `env`.  The entry into the function (its `dlog("connect device: ...")`)
is recorded as `Event.connect_device`.  Ports are C `int`s; they are taken
here as integers, signed overflow being undefined in C. -/
def connect (env : Env) (plugin0 : Plugin) : Option (List Nat) × Plugin :=
  let plugin := plugin0.emit [Event.connect_device]
  let device_info := plugin.device_info
  match device_info.type with
  | DeviceType.WIFI =>
    (env.net_connect, plugin.emit [Event.net_connect device_info.ip device_info.port])
  | DeviceType.MDNS =>
    match env.mdns_device with
    | some dev => (env.net_connect, plugin.emit [Event.net_connect dev.address device_info.port])
    | none => (none, plugin.emit [Event.mdns_reload])
  | DeviceType.ADB =>
    match env.adb_device with
    | some _ =>
      if env.adb_offline then (none, plugin)
      else
        let port_start := device_info.port + env.adb_iter * 10
        let plugin1 :=
          if plugin.usb_port < port_start then
            { plugin with usb_port := port_start }
          else if plugin.usb_port > port_start + 8 then
            { plugin with usb_port := port_start }.emit [Event.adb_clear_forwards]
          else plugin
        let plugin2 := plugin1.emit [Event.adb_add_forward plugin1.usb_port device_info.port]
        if !env.adb_forward_ok then
          (none, { plugin2 with usb_port := plugin2.usb_port + 1 })
        else
          let plugin3 := plugin2.emit [Event.net_connect localhost_ip plugin2.usb_port]
          match env.net_connect with
          | some rc => (some rc, plugin3)
          | none => (none, plugin3.emit [Event.adb_clear_forwards])
    | none => (none, plugin.emit [Event.adb_reload])
  | DeviceType.IOS =>
    match env.ios_device with
    | some _ =>
      (env.ios_connect.1,
       { plugin.emit [Event.ios_connect device_info.port] with usb_port := env.ios_connect.2 })
    | none => (none, plugin.emit [Event.ios_reload])
  | _ => (none, plugin)

/-! ## The ingest loops -/

/-- The bytes a socket variable can deliver: none on `INVALID_SOCKET`. -/
def sock_bytes (sock : Option (List Nat)) : List Nat := sock.getD []

/-- Lines 414-476 of `video_thread` together with the `SLOW_LOOP` sleep: the
part of an iteration before the label `LOOP`.  The first component says
whether the iteration ended with `continue`; otherwise control is at `LOOP`. -/
def video_thread_head (NO_PTS : Nat) (env : Env) (plugin : Plugin) (sock : Option (List Nat)) :
    Bool × Plugin × Option (List Nat) :=
  if plugin.activated && plugin.is_showing then
    if plugin.video_running then
      let r := recv_video_frame NO_PTS env plugin (sock_bytes sock)
      if !plugin.reset_signal && r.1 then
        (true, r.2.1, sock.map (fun _ => r.2.2))
      else
        let plugin1 := if plugin.reset_signal then plugin else r.2.1
        (false,
         { plugin1 with video_running := false }.emit
           [Event.net_close, Event.os_sleep_ms (MILLI_SEC * 2)],
         none)
    else
      match connect env plugin with
      | (none, plugin1) => (false, plugin1.emit [Event.os_sleep_ms (MILLI_SEC * 2)], none)
      | (some s, plugin1) =>
        let plugin2 := plugin1.emit
          [Event.net_send_video_req plugin1.video_format plugin1.video_resolution plugin1.usb_port]
        if !env.send_ok then
          (false, plugin2.emit [Event.net_close, Event.os_sleep_ms (MILLI_SEC * 2)], none)
        else
          let plugin3 := { plugin2.emit [Event.set_recv_buf_len] with video_running := true }
          let port : Int :=
            if plugin3.device_info.type = DeviceType.ADB ∨ plugin3.device_info.type = DeviceType.IOS
            then plugin3.usb_port else plugin3.device_info.port
          let plugin4 := if port > 0 then plugin3.emit [Event.set_remote_url port] else plugin3
          (true, { plugin4 with reset_signal := false }, some s)
  else
    (false, plugin, sock)

/-- One step of `video_decode_thread`, whose local `data_packet` is `none` at the
top of the loop and holds the pulled packet from line 266 to line 293.  At
the top of the loop the step is lines 265-269 (the loop test and the pull);
with a packet in hand it is lines 271-293, made on the decoder the local
pointer `decoder` designates.  Once `video_thread` has deleted that
decoder the pointer dangles, and the step is recorded as
`Event.use_deleted_video_decoder`. -/
def video_decode_thread_step (env : Env) (plugin : Plugin) (data_packet : Option DataPacket) :
    Plugin × Option DataPacket :=
  match data_packet with
  | none =>
    if SOURCE_EXISTS plugin then
      match plugin.video_decoder with
      | none => (plugin.emit [Event.os_sleep_ms 5], none)
      | some decoder =>
        match decoder.pull_ready_packet with
        | (none, decoder1) =>
          ({ plugin with video_decoder := some decoder1 }.emit [Event.os_sleep_ms 5], none)
        | (some p, decoder1) => ({ plugin with video_decoder := some decoder1 }, some p)
    else (plugin, none)
  | some p =>
    match plugin.video_decoder with
    | some decoder =>
      let r := video_decode_packet env decoder p
      ({ plugin with video_decoder := some r.1 }.emit r.2, none)
    | none => (plugin.emit [Event.use_deleted_video_decoder], none)

/-- What happens while `video_thread` sleeps in its wait loop: the decode
worker makes some steps (each with the results of its collaborator calls),
after which the host may raise the stop signal. -/
structure EnvAct where
  worker : List Env
  stop : Bool
deriving DecidableEq, Repr

/-- The decode worker making as many steps as `envs` is long. -/
def video_decode_thread_run (plugin : Plugin) (data_packet : Option DataPacket) :
    List Env → Plugin × Option DataPacket
  | [] => (plugin, data_packet)
  | env :: envs =>
    video_decode_thread_run (video_decode_thread_step env plugin data_packet).1
      (video_decode_thread_step env plugin data_packet).2 envs

/-- The effect of one `EnvAct` on the session state and the worker's packet. -/
def EnvAct.apply (a : EnvAct) (plugin : Plugin) (data_packet : Option DataPacket) :
    Plugin × Option DataPacket :=
  let r := video_decode_thread_run plugin data_packet a.worker
  ({ r.1 with stop_signal := r.1.stop_signal || a.stop }, r.2)

/-- The condition of the wait loop at lines 493-494 of `video_thread`. -/
def video_thread_waiting (plugin : Plugin) : Bool :=
  match plugin.video_decoder with
  | none => false
  | some decoder => decoder.recieveQueue.length < decoder.alloc_count && SOURCE_EXISTS plugin

/-- Lines 493-500 of `video_thread`: the wait for the decode worker, whose
packet in hand is `data_packet`.  The list says what happens during each
sleep; `none` means the loop is still waiting when the list is used up. -/
def video_thread_wait (plugin : Plugin) (data_packet : Option DataPacket) :
    List EnvAct → Option (Plugin × Option DataPacket)
  | [] => if video_thread_waiting plugin then none else some (plugin, data_packet)
  | a :: rest =>
    if video_thread_waiting plugin then
      video_thread_wait
        (a.apply (plugin.emit [Event.os_sleep_ms (MILLI_SEC / FPS)]) data_packet).1
        (a.apply (plugin.emit [Event.os_sleep_ms (MILLI_SEC / FPS)]) data_packet).2 rest
    else some (plugin, data_packet)

/-- Lines 478-508 of `video_thread`: the part of an iteration from the label
`LOOP`.  `data_packet` is the packet the decode worker has in hand. -/
def video_thread_LOOP (sched : List EnvAct) (plugin : Plugin) (sock : Option (List Nat))
    (data_packet : Option DataPacket) :
    Option (Plugin × Option (List Nat) × Option DataPacket) :=
  let plugin1 := if plugin.video_running then { plugin with video_running := false } else plugin
  let plugin2 := if sock.isSome then plugin1.emit [Event.net_close] else plugin1
  let waited :=
    match plugin2.video_decoder with
    | some decoder =>
      let plugin3 := if decoder.ready then plugin2.emit [Event.signal_disconnect] else plugin2
      (video_thread_wait plugin3 data_packet sched).map
        (fun (r : Plugin × Option DataPacket) =>
          ({ r.1.emit [Event.delete_video_decoder] with video_decoder := none }, r.2))
    | none => some (plugin2, data_packet)
  waited.map
    (fun (r : Plugin × Option DataPacket) =>
      (r.1.emit [Event.output_video none, Event.os_sleep_ms (MILLI_SEC / FPS)], none, r.2))

/-- One iteration of the `while (SOURCE_EXISTS())` loop of `video_thread`. -/
def video_thread_iter (NO_PTS : Nat) (env : Env) (sched : List EnvAct) (plugin : Plugin)
    (sock : Option (List Nat)) (data_packet : Option DataPacket) :
    Option (Plugin × Option (List Nat) × Option DataPacket) :=
  match video_thread_head NO_PTS env plugin sock with
  | (true, plugin1, sock1) => some (plugin1, sock1, data_packet)
  | (false, plugin1, sock1) => video_thread_LOOP sched plugin1 sock1 data_packet

/-- One iteration of the `while (SOURCE_EXISTS())` loop of `audio_thread`. -/
def audio_thread_iter (NO_PTS : Nat) (env : Env) (plugin : Plugin) (sock : Option (List Nat)) :
    Plugin × Option (List Nat) :=
  let LOOP := fun (plugin : Plugin) (sock : Option (List Nat)) =>
    let plugin1 := if sock.isSome then plugin.emit [Event.net_close] else plugin
    let plugin2 :=
      if plugin1.audio_decoder.isSome then
        { plugin1.emit [Event.delete_audio_decoder] with audio_decoder := none }
      else plugin1
    let plugin3 := if plugin2.enable_audio then plugin2.emit [Event.output_audio none] else plugin2
    (plugin3.emit [Event.os_sleep_ms (MILLI_SEC / FPS)], (none : Option (List Nat)))
  if plugin.activated && plugin.is_showing && plugin.enable_audio then
    if plugin.audio_running then
      let r := do_audio_frame NO_PTS env plugin (sock_bytes sock)
      if r.1 then
        (r.2.1, sock.map (fun _ => r.2.2))
      else
        LOOP ({ r.2.1 with audio_running := false }.emit
          [Event.net_close, Event.os_sleep_ms (MILLI_SEC * 2)]) none
    else if !plugin.video_running then
      LOOP plugin sock
    else
      match connect env (plugin.emit [Event.os_sleep_ms MILLI_SEC]) with
      | (none, plugin1) => LOOP (plugin1.emit [Event.os_sleep_ms (MILLI_SEC * 2)]) none
      | (some s, plugin1) =>
        let plugin2 := plugin1.emit [Event.net_send_audio_req]
        if !env.send_ok then
          LOOP (plugin2.emit [Event.net_close, Event.os_sleep_ms (MILLI_SEC * 2)]) none
        else
          ({ plugin2 with audio_running := true }, some s)
  else
    LOOP (if plugin.audio_running then { plugin with audio_running := false } else plugin) sock

/-- Some receive that `read_frame` makes on this stream delivers fewer bytes
than requested. -/
def short_read (NO_PTS : Nat) (sock : List Nat) : Bool :=
  (read_frame NO_PTS Decoder.fresh sock 0).recvs.any (fun q => decide (q.2 < q.1))

/-- Buffer accounting for a decoder's pool: the packets in the empty queue, in
the ready queue and the `held` ones in the hands of threads add up to the
number allocated. -/
def accounted (d : Decoder) (held : Nat) : Prop :=
  d.recieveQueue.length + d.decodeQueue.length + held = d.alloc_count

/-- The pool calls made between decoder state `d` and a later state `d'`. -/
def pool_calls (d d' : Decoder) : List PoolOp := d'.log.drop d.log.length

/-- The pool calls a thread may make in one step without keeping a packet:
none, or one pull (which may come back empty-handed from the ready queue)
followed by exactly one push of the packet obtained. -/
def balanced_calls : List PoolOp → Bool
  | [] => true
  | [PoolOp.pull_empty _, PoolOp.push_empty] => true
  | [PoolOp.pull_empty _, PoolOp.push_ready] => true
  | [PoolOp.pull_ready false] => true
  | [PoolOp.pull_ready true, PoolOp.push_empty] => true
  | _ => false

/-- A decoder that exists and is failed before a step is, after the step,
either destroyed or still failed. -/
def stays_failed (before after : Option Decoder) : Prop :=
  ∀ d, before = some d → d.failed = true → after = none ∨ ∃ d', after = some d' ∧ d'.failed = true

/-- Successive calls of `recv_video_frame`, each with the results of its
collaborator calls and the bytes on the socket at that call. -/
def recv_video_frames (NO_PTS : Nat) (plugin : Plugin) : List (Env × List Nat) → Plugin
  | [] => plugin
  | (env, sock) :: calls =>
    recv_video_frames NO_PTS (recv_video_frame NO_PTS env plugin sock).2.1 calls

/-- The session state `source_create` starts the threads with, for settings in
which every option is off (lines 852-864). -/
def Plugin.created : Plugin :=
  { tally := ⟨false, false⟩, video_decoder := none, audio_decoder := none,
    stop_signal := false, reset_signal := false, comms_signal := false,
    is_showing := false, activated := false, deactivateWNS := false, enable_audio := false,
    use_hw := false, audio_running := false, video_running := false, video_resolution := 0,
    usb_port := 0, video_format := VideoFormat.FORMAT_AVC,
    device_info := ⟨"", "", 0, DeviceType.NONE⟩, comms_queue := [], trace := [] }

/-- Collaborators that succeed at everything and a dial that fails. -/
def Env.all_ok : Env :=
  { init_ok := true, decode_ok := true, got_output := true, gettime_ns := 0, send_ok := true,
    net_connect := none, mdns_device := none, adb_device := none, adb_offline := false,
    adb_iter := 0, adb_forward_ok := true, ios_device := none, ios_connect := (none, 0) }

/-- The three ways `read_frame` can end, seen from the pool: abort before any
buffer is acquired; a buffer acquired and pushed back after a short read;
a buffer acquired and returned to the caller. -/
def ReadOutcome (d : Decoder) (r : ReadResult) : Prop :=
  (r.packet = none ∧ r.decoder = d) ∨
  (r.packet = none ∧ ∃ n p, r.decoder = (d.pull_empty_packet n).2.push_empty_packet p) ∨
  (∃ n p, r.packet = some p ∧ r.decoder = (d.pull_empty_packet n).2)

/-! ## The external triggers -/

/-- The callback `source_show` (the scene-item logging under `ENABLE_GUI` is not
modelled). -/
def source_show (plugin : Plugin) : Plugin :=
  comms_task { plugin with is_showing := true, tally := { plugin.tally with on_preview := true } }
    CommsTask.TALLY

/-- The callback `source_hide`. -/
def source_hide (plugin : Plugin) : Plugin :=
  let plugin1 :=
    if plugin.deactivateWNS && plugin.activated then { plugin with is_showing := false }
    else plugin
  comms_task { plugin1 with tally := { plugin1.tally with on_preview := false } } CommsTask.TALLY

/-- The callback `source_show_main`. -/
def source_show_main (plugin : Plugin) : Plugin :=
  comms_task { plugin with tally := { plugin.tally with on_program := true } } CommsTask.TALLY

/-- The callback `source_hide_main`. -/
def source_hide_main (plugin : Plugin) : Plugin :=
  comms_task { plugin with tally := { plugin.tally with on_program := false } } CommsTask.TALLY

/-- The callback `video_parms_changed`, with the resolution and format read from
the settings. -/
def video_parms_changed (video_resolution : Int) (video_format : VideoFormat)
    (plugin : Plugin) : Plugin :=
  if video_resolution = plugin.video_resolution ∧ video_format = plugin.video_format then plugin
  else
    { plugin with
      video_resolution := video_resolution, video_format := video_format, reset_signal := true }

/-! ## `comms_thread` -/

/-- The results of the calls `comms_thread` makes during one wake: whether the
wait timed out (`event == ETIMEDOUT`), the results for `connect`, the
return value of `basic_http` for the battery request and the number parsed
from its response (if digits follow the response header), the return value of
`basic_http` for the tally request and `errno` after it. -/
structure CommsEnv where
  timed_out : Bool
  connect : Env
  batt_http : Int
  batt_level : Option Int
  tally_http : Int
  errno : Int
deriving DecidableEq, Repr

/-- The tally value `comms_thread` sends (lines 775-783). -/
def tally_string (tally : Tally_t) : String :=
  if tally.on_program then "program"
  else if tally.on_preview then "preview"
  else "idle"

/-- Lines 772-786 of `comms_thread`: the drain of the command queue, as the value
of the local `tally` and the queue left.  Modelled from the spec: the
`Queue` template is not part of the sources at hand; `next_item()` takes
the oldest command and returns `CommsTask::NONE` on an empty queue. -/
def comms_drain (plugin : Plugin) (tally : Option String) :
    List CommsTask → Option String × List CommsTask
  | [] => (tally, [])
  | CommsTask.NONE :: queue => (tally, queue)
  | CommsTask.TALLY :: queue => comms_drain plugin (some (tally_string plugin.tally)) queue

/-- Lines 769-803 of `comms_thread`: the drain and the tally request, reached
with the connection `sock` open.  The result is the session state, the
local `sock` and the local `prevBattery`. -/
def comms_thread_tally (env : CommsEnv) (plugin : Plugin) (sock : List Nat) (prevBattery : Int) :
    Plugin × Option (List Nat) × Int :=
  let r := comms_drain plugin none plugin.comms_queue
  let plugin1 := { plugin with comms_queue := r.2 }
  match r.1 with
  | none => (plugin1, some sock, prevBattery)
  | some tally =>
    let plugin2 := plugin1.emit [Event.http_tally tally]
    if env.tally_http > 0 then (plugin2, some sock, prevBattery)
    else
      let plugin3 :=
        if env.errno ≠ 0 then
          comms_task (plugin2.emit [Event.os_sleep_ms (MILLI_SEC * 5)]) CommsTask.TALLY
        else plugin2
      (plugin3.emit [Event.net_close], none, prevBattery)

/-- Lines 745-803 of `comms_thread`: the status poll, which exists only in a
build with `DROIDCAM_OVERRIDE`, followed by the drain and the tally request. -/
def comms_thread_poll (DROIDCAM_OVERRIDE : Bool) (env : CommsEnv) (plugin : Plugin)
    (sock : List Nat) (prevBattery : Int) : Plugin × Option (List Nat) × Int :=
  if env.timed_out && DROIDCAM_OVERRIDE then
    let plugin1 := plugin.emit [Event.http_battery]
    if env.batt_http > 0 then
      match env.batt_level with
      | some level =>
        comms_thread_tally env
          (plugin1.emit
            [Event.signal_source_update (some level) (decide (prevBattery > 15 ∧ level ≤ 15))])
          sock level
      | none => comms_thread_tally env plugin1 sock prevBattery
    else (plugin1.emit [Event.net_close], none, prevBattery)
  else comms_thread_tally env plugin sock prevBattery

/-- One wake of `comms_thread` (the body of its loop, lines 717-803), on the
locals `sock` and `prevBattery`. -/
def comms_thread_iter (DROIDCAM_OVERRIDE : Bool) (env : CommsEnv) (plugin0 : Plugin)
    (sock : Option (List Nat)) (prevBattery : Int) : Plugin × Option (List Nat) × Int :=
  let plugin := { plugin0 with comms_signal := false }
  if plugin.activated && plugin.video_running then
    match sock with
    | none =>
      match connect env.connect plugin with
      | (none, plugin1) => (plugin1, none, prevBattery)
      | (some s, plugin1) =>
        comms_thread_poll DROIDCAM_OVERRIDE env (plugin1.emit [Event.set_recv_timeout]) s
          prevBattery
    | some s => comms_thread_poll DROIDCAM_OVERRIDE env plugin s prevBattery
  else
    match sock with
    | some _ =>
      if DROIDCAM_OVERRIDE then
        (plugin.emit [Event.signal_source_update none false, Event.net_close], none, 100)
      else (plugin.emit [Event.net_close], none, prevBattery)
    | none => (plugin, none, prevBattery)

/-- The tally requests in a trace, oldest first. -/
def tally_requests (trace : List Event) : List String :=
  trace.filterMap (fun e =>
    match e with
    | Event.http_tally tally => some tally
    | _ => none)

/-- The collaborator results of a wake in which everything succeeds. -/
def CommsEnv.all_ok : CommsEnv :=
  { timed_out := false, connect := { Env.all_ok with net_connect := some [] }, batt_http := 1,
    batt_level := none, tally_http := 1, errno := 0 }

/-- Lines 636-650 of `audio_thread`: the part of an iteration from the label
`LOOP` (the local function `LOOP` of `audio_thread_iter`). -/
def audio_thread_LOOP (plugin : Plugin) (sock : Option (List Nat)) :
    Plugin × Option (List Nat) :=
  let plugin1 := if sock.isSome then plugin.emit [Event.net_close] else plugin
  let plugin2 :=
    if plugin1.audio_decoder.isSome then
      { plugin1.emit [Event.delete_audio_decoder] with audio_decoder := none }
    else plugin1
  let plugin3 := if plugin2.enable_audio then plugin2.emit [Event.output_audio none] else plugin2
  (plugin3.emit [Event.os_sleep_ms (MILLI_SEC / FPS)], (none : Option (List Nat)))

/-- The number of entries into `connect` recorded in a trace. -/
def connect_attempts (trace : List Event) : Nat := trace.count Event.connect_device

/-- Successive wakes of `comms_thread` (the iterations of its `while` loop while
the loop condition holds), one per entry of `envs`, with no trigger from
outside in between.  The state is the session state and the locals `sock`
and `prevBattery`. -/
def comms_thread_wakes (DROIDCAM_OVERRIDE : Bool) :
    List CommsEnv → Plugin × Option (List Nat) × Int → Plugin × Option (List Nat) × Int
  | [], st => st
  | env :: envs, st =>
    comms_thread_wakes DROIDCAM_OVERRIDE envs
      (comms_thread_iter DROIDCAM_OVERRIDE env st.1 st.2.1 st.2.2)

/-! ## Settings, `source_create`, `source_update` and `connect_clicked` -/

/-- The entries of the source's settings (`obs_data_t`) that `source_create`,
`source_update` and `connect_clicked` read or write, named by their keys, as
the getters return them; a string entry is `none` when `obs_data_get_string`
returns a null pointer.  Modelled from the spec: the keys and the numeric
values of the enumerators are defined in headers that are not part of the
sources at hand, so the format and device type entries hold the value the
cast of the stored integer yields. -/
structure Settings where
  OPT_USE_HW_ACCEL : Bool
  OPT_VIDEO_FORMAT : VideoFormat
  OPT_RESOLUTION : Int
  OPT_ENABLE_AUDIO : Bool
  OPT_DEACTIVATE_WNS : Bool
  OPT_IS_ACTIVATED : Bool
  OPT_DUMMY_SOURCE : Bool
  OPT_ACTIVE_DEV_ID : Option String
  OPT_ACTIVE_DEV_IP : Option String
  OPT_ACTIVE_DEV_TYPE : DeviceType
  OPT_APP_PORT : Int
  OPT_DEVICE_LIST : Option String
  OPT_WIFI_IP : Option String
  OPT_UHD_UNLOCK : Bool
  remote_url : String
deriving DecidableEq, Repr

/-- The conversion of a `long long` to `int` (the cast `(int)` and the
initialisation of an `int` from `obs_data_get_int`): the value modulo `2 ^ 32`
in the range of a 32-bit `int`. -/
def to_int (v : Int) : Int := (v + 2 ^ 31) % 2 ^ 32 - 2 ^ 31

/-- A `const char *` as the string kept in the descriptor: the null pointer and
the empty string are both kept as the empty string, every test of
`source.cc` on these pointers being `!p || p[0] == 0`. -/
def c_str (p : Option String) : String := p.getD ""

/-- Lines 903-906 of `source_create`: the descriptor read from the settings. -/
def active_device (settings : Settings) : active_device_info :=
  { id := c_str settings.OPT_ACTIVE_DEV_ID, ip := c_str settings.OPT_ACTIVE_DEV_IP,
    port := to_int settings.OPT_APP_PORT, type := settings.OPT_ACTIVE_DEV_TYPE }

/-- The function `source_create(settings, source)`: the session (`none` for the `NULL` returned
when a signal or a thread cannot be created, `threads_ok` false) and the
settings.  The fields the constructor zero-initialises are those of
`Plugin.created`. -/
def source_create (DROIDCAM_OVERRIDE : Bool) (settings : Settings) (threads_ok : Bool) :
    Option Plugin × Settings :=
  let plugin : Plugin :=
    { Plugin.created with
      audio_running := false, video_running := false, audio_decoder := none,
      video_decoder := none, usb_port := 0, use_hw := settings.OPT_USE_HW_ACCEL,
      video_format := settings.OPT_VIDEO_FORMAT,
      video_resolution := to_int settings.OPT_RESOLUTION,
      enable_audio := settings.OPT_ENABLE_AUDIO,
      deactivateWNS := if DROIDCAM_OVERRIDE then true else settings.OPT_DEACTIVATE_WNS,
      activated := settings.OPT_IS_ACTIVATED }
  let settings1 := { settings with remote_url := "" }
  if settings1.OPT_DUMMY_SOURCE then (some plugin, settings1)
  else
    let plugin3 :=
      if plugin.activated then
        let plugin1 := { plugin with device_info := active_device settings }
        let plugin2 :=
          if plugin1.device_info.type = DeviceType.NONE
              ∨ plugin1.device_info.port ≤ 0 ∨ plugin1.device_info.port > 65535
              ∨ plugin1.device_info.id = "" then
            { plugin1 with activated := false }
          else plugin1
        if plugin2.device_info.type = DeviceType.WIFI ∧ plugin2.device_info.ip = "" then
          { plugin2 with activated := false }
        else plugin2
      else plugin
    if threads_ok then (some plugin3, settings1) else (none, settings1)

/-- The function `source_update(data, settings)`. -/
def source_update (settings : Settings) (plugin : Plugin) : Plugin :=
  let plugin1 :=
    { plugin with
      deactivateWNS := settings.OPT_DEACTIVATE_WNS, enable_audio := settings.OPT_ENABLE_AUDIO,
      use_hw := settings.OPT_USE_HW_ACCEL }
  if settings.OPT_IS_ACTIVATED ≠ plugin1.activated then
    { plugin1 with activated := settings.OPT_IS_ACTIVATED }
  else plugin1

/-- The function `resolve_device_type(device_info, data)`, the device lookups taking their
results from `env`. -/
def resolve_device_type (env : Env) (device_info : active_device_info) : active_device_info :=
  match env.mdns_device with
  | some dev => { device_info with ip := dev.address, type := DeviceType.MDNS }
  | none =>
    match env.adb_device with
    | some _ =>
      if env.adb_offline then { device_info with type := DeviceType.NONE }
      else { device_info with ip := localhost_ip, type := DeviceType.ADB }
    | none =>
      match env.ios_device with
      | some _ => { device_info with ip := localhost_ip, type := DeviceType.IOS }
      | none => { device_info with type := DeviceType.NONE }

/-- Lines 1181-1195 of `connect_clicked`: the last test and the activation, on
the descriptor `device_info` built so far. -/
def connect_clicked_activate (settings : Settings) (plugin : Plugin)
    (device_info : active_device_info) : Plugin × Settings :=
  if device_info.type = DeviceType.NONE then
    ({ plugin with device_info := device_info }, settings)
  else
    ({ plugin with
       device_info := device_info, video_format := settings.OPT_VIDEO_FORMAT,
       video_resolution := to_int settings.OPT_RESOLUTION, activated := true },
     { settings with
       OPT_ACTIVE_DEV_ID := some device_info.id, OPT_ACTIVE_DEV_IP := some device_info.ip,
       OPT_ACTIVE_DEV_TYPE := device_info.type, OPT_IS_ACTIVATED := true })

/-- The function `connect_clicked(ppts, p, data)`: the session state and the settings
after the click.  The property sheet and the message boxes are not modelled.
`ENABLE_GUI`, `RESOLUTION_1080` and `opt_use_wifi` are defined outside
`source.cc` and are parameters; `DROIDCAM_OVERRIDE` defines `ENABLE_GUI`. -/
def connect_clicked (DROIDCAM_OVERRIDE ENABLE_GUI : Bool) (RESOLUTION_1080 : Int)
    (opt_use_wifi : String) (env : Env) (settings : Settings) (plugin : Plugin) :
    Plugin × Settings :=
  let activated := settings.OPT_IS_ACTIVATED
  let video_resolution := to_int settings.OPT_RESOLUTION
  let video_format := settings.OPT_VIDEO_FORMAT
  if activated then
    ({ plugin with usb_port := 0, activated := false },
     { settings with OPT_IS_ACTIVATED := false })
  else if (ENABLE_GUI || DROIDCAM_OVERRIDE) ∧ video_format = VideoFormat.FORMAT_MJPG
      ∧ video_resolution > RESOLUTION_1080 then
    (plugin, settings)
  else
    let info1 : active_device_info :=
      { plugin.device_info with type := DeviceType.NONE, id := c_str settings.OPT_DEVICE_LIST }
    if info1.id = "" then ({ plugin with device_info := info1 }, settings)
    else
      let info2 := { info1 with port := to_int settings.OPT_APP_PORT }
      if info2.port ≤ 0 ∨ info2.port > 65535 then ({ plugin with device_info := info2 }, settings)
      else if opt_use_wifi.toList.isPrefixOf info2.id.toList then
        let info3 := { info2 with ip := c_str settings.OPT_WIFI_IP }
        if info3.ip = "" then ({ plugin with device_info := info3 }, settings)
        else
          let info4 := { info3 with type := DeviceType.WIFI }
          if DROIDCAM_OVERRIDE = false ∧ (info4.ip = "4k" ∨ info4.ip = "4K") then
            ({ plugin with device_info := info4 },
             { settings with OPT_UHD_UNLOCK := true, OPT_WIFI_IP := some "" })
          else connect_clicked_activate settings plugin info4
      else connect_clicked_activate settings plugin (resolve_device_type env info2)

/-- Settings in which every option is off and nothing is selected. -/
def Settings.none_set : Settings :=
  { OPT_USE_HW_ACCEL := false, OPT_VIDEO_FORMAT := VideoFormat.FORMAT_AVC, OPT_RESOLUTION := 0,
    OPT_ENABLE_AUDIO := false, OPT_DEACTIVATE_WNS := false, OPT_IS_ACTIVATED := false,
    OPT_DUMMY_SOURCE := false, OPT_ACTIVE_DEV_ID := none, OPT_ACTIVE_DEV_IP := none,
    OPT_ACTIVE_DEV_TYPE := DeviceType.NONE, OPT_APP_PORT := 4747, OPT_DEVICE_LIST := none,
    OPT_WIFI_IP := none, OPT_UHD_UNLOCK := false, remote_url := "" }

/-! # Lemmas -/

/-! ## Wire-format lemmas -/

theorem be_bytes_length (n v : Nat) : (be_bytes n v).length = n := by
  induction n generalizing v with
  | zero => rfl
  | succ n ih => simp [be_bytes, ih]

theorem be_value_append (xs : List Nat) (b : Nat) :
    be_value (xs ++ [b]) = be_value xs * 256 + b := by
  simp [be_value, List.foldl_append]

theorem be_value_be_bytes (n v : Nat) : be_value (be_bytes n v) = v % 256 ^ n := by
  induction n generalizing v with
  | zero => simp [be_bytes, be_value, Nat.mod_one]
  | succ n ih =>
    rw [be_bytes, be_value_append, ih, pow_succ, Nat.mul_comm (256 ^ n) 256, Nat.mod_mul]
    omega

theorem header_length (pts len : Nat) : (header pts len).length = 12 := by
  simp [header, be_bytes_length]

theorem take_header (pts len : Nat) (rest : List Nat) :
    (header pts len ++ rest).take 12 = header pts len := by
  have h := header_length pts len
  simp [List.take_append_eq_append_take, h]

theorem drop_header (pts len : Nat) (rest : List Nat) :
    (header pts len ++ rest).drop 12 = rest := by
  have h := header_length pts len
  simp [List.drop_append_eq_append_drop, h]

theorem buffer_read64be_header (pts len : Nat) (h : pts < 2 ^ 64) :
    buffer_read64be (header pts len) = pts := by
  have h8 : (be_bytes 8 pts).length = 8 := be_bytes_length 8 pts
  rw [buffer_read64be, header, List.take_append_eq_append_take, h8]
  simp only [Nat.sub_self, List.take_zero, List.append_nil]
  rw [List.take_of_length_le (by omega), be_value_be_bytes]
  exact Nat.mod_eq_of_lt (by norm_num; omega)

theorem buffer_read32be_header (pts len : Nat) (h : len < 2 ^ 32) :
    buffer_read32be ((header pts len).drop 8) = len := by
  have h8 : (be_bytes 8 pts).length = 8 := be_bytes_length 8 pts
  have h4 : (be_bytes 4 len).length = 4 := be_bytes_length 4 len
  rw [buffer_read32be, header, List.drop_append_eq_append_drop, h8]
  simp only [Nat.sub_self, List.drop_zero]
  rw [List.drop_of_length_le (by omega), List.nil_append, List.take_of_length_le (by omega),
    be_value_be_bytes]
  exact Nat.mod_eq_of_lt (by norm_num; omega)

/-- The body of `read_frame` once a complete header has been received. -/
theorem read_frame_AGAIN_header (NO_PTS : Nat) (decoder : Decoder) (pts len : Nat)
    (rest config : List Nat) (config_len : Nat) (has_config : Int)
    (hpts : pts < 2 ^ 64) (hlen : len < 2 ^ 32) :
    read_frame_AGAIN NO_PTS decoder (header pts len ++ rest) config config_len has_config =
      if pts = NO_PTS then
        if config_len ≠ 0 then ⟨none, decoder, rest, has_config, [(12, 12)]⟩
        else if len = 2 ^ 32 - 1 then ⟨none, decoder, rest, has_config, [(12, 12)]⟩
        else if len = 0 ∨ len > MAXCONFIG then ⟨none, decoder, rest, has_config, [(12, 12)]⟩
        else if (rest.take len).length ≠ len then
          ⟨none, decoder, rest.drop len, has_config, [(12, 12), (len, (rest.take len).length)]⟩
        else
          { read_frame_AGAIN NO_PTS decoder (rest.drop len) (rest.take len) len 1 with
            recvs := [(12, 12), (len, (rest.take len).length)] ++
              (read_frame_AGAIN NO_PTS decoder (rest.drop len) (rest.take len) len 1).recvs }
      else if len = 0 ∨ len > MAXPACKET then ⟨none, decoder, rest, has_config, [(12, 12)]⟩
      else if (rest.take len).length ≠ len then
        ⟨none,
         (decoder.pull_empty_packet (config_len + len)).2.push_empty_packet
           { (decoder.pull_empty_packet (config_len + len)).1 with
             data := write_at
               (if config_len ≠ 0 then
                  write_at (decoder.pull_empty_packet (config_len + len)).1.data 0
                    (config.take config_len)
                else (decoder.pull_empty_packet (config_len + len)).1.data)
               config_len (rest.take len) },
         rest.drop len, has_config, [(12, 12), (len, (rest.take len).length)]⟩
      else
        ⟨some
          { data := write_at
              (if config_len ≠ 0 then
                 write_at (decoder.pull_empty_packet (config_len + len)).1.data 0
                   (config.take config_len)
               else (decoder.pull_empty_packet (config_len + len)).1.data)
              config_len (rest.take len),
            used := config_len + len, pts := pts },
         (decoder.pull_empty_packet (config_len + len)).2, rest.drop len, has_config,
         [(12, 12), (len, (rest.take len).length)]⟩ := by
  rw [read_frame_AGAIN]
  simp only [net_recv_all, HEADER_SIZE, take_header, drop_header, header_length, ne_eq,
    not_true_eq_false, dite_false, buffer_read64be_header pts len hpts,
    buffer_read32be_header pts len hlen, Nat.mod_eq_of_lt hlen, List.singleton_append,
    List.cons_append, List.nil_append]

/-! ## Buffer lemmas -/

theorem resize_length (p : DataPacket) (size : Nat) : size ≤ (p.resize size).data.length := by
  unfold DataPacket.resize
  split
  · simp; omega
  · omega

theorem pull_empty_packet_capacity (d : Decoder) (size : Nat) :
    size ≤ (d.pull_empty_packet size).1.data.length := by
  unfold Decoder.pull_empty_packet
  split
  · simp
  · exact resize_length _ _

theorem pull_empty_packet_log (d : Decoder) (size : Nat) :
    (d.pull_empty_packet size).2.log = d.log ++ [PoolOp.pull_empty size] := by
  unfold Decoder.pull_empty_packet
  split <;> rfl

theorem write_at_length (buf : List Nat) (off : Nat) (src : List Nat)
    (h : off + src.length ≤ buf.length) : (write_at buf off src).length = buf.length := by
  simp [write_at]
  omega

theorem write_at_take (buf : List Nat) (off : Nat) (src : List Nat) (h : off ≤ buf.length) :
    (write_at buf off src).take off = buf.take off := by
  have hl : (buf.take off).length = off := by simp; omega
  rw [write_at, List.append_assoc, List.take_append_eq_append_take, hl]
  simp

theorem write_at_drop_take (buf : List Nat) (off : Nat) (src : List Nat) (h : off ≤ buf.length) :
    ((write_at buf off src).drop off).take src.length = src := by
  have hl : (buf.take off).length = off := by simp; omega
  rw [write_at, List.append_assoc, List.drop_append_eq_append_drop, hl,
    List.drop_of_length_le (le_of_eq hl)]
  simp

theorem take_append_self (xs ys : List Nat) : (xs ++ ys).take xs.length = xs := by simp

theorem drop_append_self (xs ys : List Nat) : (xs ++ ys).drop xs.length = ys := by simp

/-- With a configuration already pending, `read_frame` does not write
`has_config` again. -/
theorem read_frame_AGAIN_pending_has_config (NO_PTS : Nat) (d : Decoder) (sock config : List Nat)
    (config_len : Nat) (hc : Int) (h : config_len ≠ 0) :
    (read_frame_AGAIN NO_PTS d sock config config_len hc).has_config = hc := by
  rw [read_frame_AGAIN]
  simp only [h, ne_eq, not_false_eq_true, if_true]
  split_ifs <;> rfl

/-! ## What `read_frame` can do to the pool -/

theorem read_frame_AGAIN_pending_outcome (NO_PTS : Nat) (d : Decoder) (sock config : List Nat)
    (config_len : Nat) (hc : Int) (h : config_len ≠ 0) :
    ReadOutcome d (read_frame_AGAIN NO_PTS d sock config config_len hc) := by
  rw [read_frame_AGAIN]
  simp only [h, ne_eq, not_false_eq_true, if_true]
  split_ifs
  all_goals first
    | exact Or.inl ⟨rfl, rfl⟩
    | exact Or.inr (Or.inl ⟨rfl, _, _, rfl⟩)
    | exact Or.inr (Or.inr ⟨_, _, rfl, rfl⟩)

theorem read_frame_AGAIN_outcome (NO_PTS : Nat) (d : Decoder) (sock config : List Nat)
    (config_len : Nat) (hc : Int) :
    ReadOutcome d (read_frame_AGAIN NO_PTS d sock config config_len hc) := by
  rw [read_frame_AGAIN]
  simp only []
  split_ifs with h1 h2 h3 h4 h5
  all_goals first
    | exact Or.inl ⟨rfl, rfl⟩
    | exact Or.inr (Or.inl ⟨rfl, _, _, rfl⟩)
    | exact Or.inr (Or.inr ⟨_, _, rfl, rfl⟩)
    | exact read_frame_AGAIN_pending_outcome NO_PTS d _ _ _ 1 (fun h => h5 (Or.inl h))

/-! ## Short reads -/

theorem read_frame_AGAIN_pending_short (NO_PTS : Nat) (d : Decoder) (sock config : List Nat)
    (config_len : Nat) (hc : Int) (h : config_len ≠ 0)
    (hs : ∃ q ∈ (read_frame_AGAIN NO_PTS d sock config config_len hc).recvs, q.2 ≠ q.1) :
    (read_frame_AGAIN NO_PTS d sock config config_len hc).packet = none := by
  rw [read_frame_AGAIN] at hs ⊢
  simp only [h, ne_eq, not_false_eq_true, if_true] at hs ⊢
  split_ifs at hs ⊢ with h1 h2 h3 h4
  all_goals first
    | rfl
    | (exfalso
       simp only [ne_eq, not_not] at h1 h4
       simp [h1, h4] at hs)

theorem read_frame_AGAIN_short (NO_PTS : Nat) (d : Decoder) (sock config : List Nat)
    (config_len : Nat) (hc : Int)
    (hs : ∃ q ∈ (read_frame_AGAIN NO_PTS d sock config config_len hc).recvs, q.2 ≠ q.1) :
    (read_frame_AGAIN NO_PTS d sock config config_len hc).packet = none := by
  rw [read_frame_AGAIN] at hs ⊢
  simp only [] at hs ⊢
  split_ifs at hs ⊢ with h1 h2 h3 h4 h5 h6 h7 h8
  all_goals first
    | rfl
    | (apply read_frame_AGAIN_pending_short NO_PTS d _ _ _ 1 (fun h => h5 (Or.inl h))
       simp only [ne_eq, not_not] at h1 h6
       simpa [h1, h6] using hs)
    | (exfalso
       simp only [ne_eq, not_not] at h1 h8
       simp [h1, h8] at hs)

theorem read_frame_AGAIN_pending_recvs (NO_PTS : Nat) (d d' : Decoder)
    (sock config config' : List Nat) (config_len : Nat) (hc hc' : Int) (h : config_len ≠ 0) :
    (read_frame_AGAIN NO_PTS d sock config config_len hc).recvs =
      (read_frame_AGAIN NO_PTS d' sock config' config_len hc').recvs := by
  rw [read_frame_AGAIN, read_frame_AGAIN]
  simp only [h, ne_eq, not_false_eq_true, if_true]
  split_ifs <;> rfl

/-- The receives `read_frame` makes depend on the stream only. -/
theorem read_frame_AGAIN_recvs (NO_PTS : Nat) (d d' : Decoder)
    (sock config config' : List Nat) (config_len : Nat) (hc hc' : Int) :
    (read_frame_AGAIN NO_PTS d sock config config_len hc).recvs =
      (read_frame_AGAIN NO_PTS d' sock config' config_len hc').recvs := by
  rw [read_frame_AGAIN, read_frame_AGAIN]
  simp only []
  split_ifs with h1 h2 h3 h4 h5 h6
  all_goals first
    | rfl
    | (show _ ++ _ = _ ++ _
       rw [read_frame_AGAIN_pending_recvs NO_PTS d d' _ _ _ _ 1 1 (fun h => h5 (Or.inl h))])

/-! ## Pool accounting -/

theorem accounted_pull_empty (d : Decoder) (h n : Nat) (ha : accounted d h) :
    accounted (d.pull_empty_packet n).2 (h + 1) := by
  unfold accounted Decoder.pull_empty_packet at *
  split
  · rename_i he
    simp only [he, List.length_nil] at ha ⊢
    omega
  · rename_i p rest he
    simp only [he, List.length_cons] at ha ⊢
    omega

theorem accounted_push_empty (d : Decoder) (h : Nat) (p : DataPacket) (ha : accounted d (h + 1)) :
    accounted (d.push_empty_packet p) h := by
  unfold accounted Decoder.push_empty_packet at *
  simp only [List.length_append, List.length_singleton]
  omega

theorem accounted_push_ready (d : Decoder) (h : Nat) (p : DataPacket) (ha : accounted d (h + 1)) :
    accounted (d.push_ready_packet p) h := by
  unfold accounted Decoder.push_ready_packet at *
  simp only [List.length_append, List.length_singleton]
  omega

theorem accounted_pull_ready (d : Decoder) (h : Nat) (ha : accounted d h) :
    accounted d.pull_ready_packet.2 (h + if d.pull_ready_packet.1.isSome then 1 else 0) := by
  unfold accounted Decoder.pull_ready_packet at *
  split
  · rename_i he
    simp only [he, List.length_nil] at ha ⊢
    simpa using ha
  · rename_i p rest he
    simp only [he, List.length_cons] at ha ⊢
    simp
    omega

theorem pool_calls_self (d : Decoder) : pool_calls d d = [] := by
  simp [pool_calls]

theorem pool_calls_of_log (d d' : Decoder) (ops : List PoolOp) (h : d'.log = d.log ++ ops) :
    pool_calls d d' = ops := by
  simp [pool_calls, h]

theorem push_empty_packet_log (d : Decoder) (p : DataPacket) :
    (d.push_empty_packet p).log = d.log ++ [PoolOp.push_empty] := rfl

theorem push_ready_packet_log (d : Decoder) (p : DataPacket) :
    (d.push_ready_packet p).log = d.log ++ [PoolOp.push_ready] := rfl

/-- Accounting and pool calls of each outcome of `read_frame`. -/
theorem read_frame_AGAIN_accounting (NO_PTS : Nat) (d : Decoder) (sock config : List Nat)
    (config_len : Nat) (hc : Int) (h : Nat) (ha : accounted d h) :
    accounted (read_frame_AGAIN NO_PTS d sock config config_len hc).decoder
      (h + if (read_frame_AGAIN NO_PTS d sock config config_len hc).packet.isSome then 1 else 0) ∧
    (((read_frame_AGAIN NO_PTS d sock config config_len hc).packet = none ∧
        (pool_calls d (read_frame_AGAIN NO_PTS d sock config config_len hc).decoder = [] ∨
         ∃ n, pool_calls d (read_frame_AGAIN NO_PTS d sock config config_len hc).decoder =
           [PoolOp.pull_empty n, PoolOp.push_empty])) ∨
     ((read_frame_AGAIN NO_PTS d sock config config_len hc).packet.isSome = true ∧
        ∃ n, pool_calls d (read_frame_AGAIN NO_PTS d sock config config_len hc).decoder =
          [PoolOp.pull_empty n])) := by
  rcases read_frame_AGAIN_outcome NO_PTS d sock config config_len hc with
    ⟨hp, hd⟩ | ⟨hp, n, p, hd⟩ | ⟨n, p, hp, hd⟩
  · rw [hp, hd]
    exact ⟨by simpa using ha, Or.inl ⟨rfl, Or.inl (pool_calls_self d)⟩⟩
  · rw [hp, hd]
    refine ⟨by simpa using accounted_push_empty _ _ p (accounted_pull_empty d h n ha),
      Or.inl ⟨rfl, Or.inr ⟨n, pool_calls_of_log _ _ _ ?_⟩⟩⟩
    rw [push_empty_packet_log, pull_empty_packet_log, List.append_assoc]
    rfl
  · rw [hp, hd]
    exact ⟨by simpa using accounted_pull_empty d h n ha,
      Or.inr ⟨rfl, n, pool_calls_of_log _ _ _ (pull_empty_packet_log d n)⟩⟩

theorem pull_empty_packet_fields (d : Decoder) (n : Nat) :
    (d.pull_empty_packet n).2.failed = d.failed ∧ (d.pull_empty_packet n).2.ready = d.ready ∧
    (d.pull_empty_packet n).2.decodeQueue = d.decodeQueue := by
  unfold Decoder.pull_empty_packet
  split <;> exact ⟨rfl, rfl, rfl⟩

/-- The fields of the decoder that `read_frame` never writes. -/
theorem read_frame_fields (NO_PTS : Nat) (d : Decoder) (sock : List Nat) (hc : Int) :
    (read_frame NO_PTS d sock hc).decoder.failed = d.failed ∧
    (read_frame NO_PTS d sock hc).decoder.ready = d.ready ∧
    (read_frame NO_PTS d sock hc).decoder.decodeQueue = d.decodeQueue := by
  unfold read_frame
  rcases read_frame_AGAIN_outcome NO_PTS d sock [] 0 hc with
    ⟨_, hd⟩ | ⟨_, n, q, hd⟩ | ⟨n, q, _, hd⟩
  · rw [hd]
    exact ⟨rfl, rfl, rfl⟩
  · rw [hd]
    exact pull_empty_packet_fields d n
  · rw [hd]
    exact pull_empty_packet_fields d n

/-- A packet-returning `read_frame` made exactly one pool call, a pull. -/
theorem read_frame_some_log (NO_PTS : Nat) (d : Decoder) (sock : List Nat) (hc : Int)
    (p : DataPacket) (hp : (read_frame NO_PTS d sock hc).packet = some p) :
    ∃ n, (read_frame NO_PTS d sock hc).decoder.log = d.log ++ [PoolOp.pull_empty n] := by
  unfold read_frame at hp ⊢
  rcases read_frame_AGAIN_outcome NO_PTS d sock [] 0 hc with
    ⟨hn, _⟩ | ⟨hn, _⟩ | ⟨n, q, _, hd⟩
  · rw [hn] at hp; cases hp
  · rw [hn] at hp; cases hp
  · rw [hd]
    exact ⟨n, pull_empty_packet_log d n⟩

theorem read_frame_some_accounted (NO_PTS : Nat) (d : Decoder) (sock : List Nat) (hc : Int)
    (h : Nat) (ha : accounted d h) (p : DataPacket)
    (hp : (read_frame NO_PTS d sock hc).packet = some p) :
    accounted (read_frame NO_PTS d sock hc).decoder (h + 1) := by
  have := (read_frame_AGAIN_accounting NO_PTS d sock [] 0 hc h ha).1
  unfold read_frame at hp ⊢
  rw [hp] at this
  simpa using this

theorem read_frame_none_accounted (NO_PTS : Nat) (d : Decoder) (sock : List Nat) (hc : Int)
    (h : Nat) (ha : accounted d h) (hp : (read_frame NO_PTS d sock hc).packet = none) :
    accounted (read_frame NO_PTS d sock hc).decoder h := by
  have := (read_frame_AGAIN_accounting NO_PTS d sock [] 0 hc h ha).1
  unfold read_frame at hp ⊢
  rw [hp] at this
  simpa using this

/-- A `read_frame` that returns no packet pushed back any buffer it acquired. -/
theorem read_frame_none_balanced (NO_PTS : Nat) (d : Decoder) (sock : List Nat) (hc : Int)
    (hp : (read_frame NO_PTS d sock hc).packet = none) :
    balanced_calls (pool_calls d (read_frame NO_PTS d sock hc).decoder) = true := by
  unfold read_frame at hp ⊢
  rcases read_frame_AGAIN_outcome NO_PTS d sock [] 0 hc with
    ⟨_, hd⟩ | ⟨_, n, q, hd⟩ | ⟨n, q, hs, _⟩
  · rw [hd, pool_calls_self]
    rfl
  · rw [hd, pool_calls_of_log d _ [PoolOp.pull_empty n, PoolOp.push_empty]]
    · rfl
    · rw [push_empty_packet_log, pull_empty_packet_log, List.append_assoc]
      rfl
  · rw [hs] at hp; cases hp

/-! ## `recv_video_frame` -/

theorem balanced_of_log_empty (d d' : Decoder) (n : Nat)
    (h : d'.log = d.log ++ [PoolOp.pull_empty n, PoolOp.push_empty]) :
    balanced_calls (pool_calls d d') = true := by
  rw [pool_calls_of_log d d' _ h]
  rfl

theorem balanced_of_log_ready (d d' : Decoder) (n : Nat)
    (h : d'.log = d.log ++ [PoolOp.pull_empty n, PoolOp.push_ready]) :
    balanced_calls (pool_calls d d') = true := by
  rw [pool_calls_of_log d d' _ h]
  rfl

theorem init_accounted (d : Decoder) (ok : Bool) (h : Nat) (ha : accounted d h) :
    accounted (d.init ok) h := by
  unfold Decoder.init
  split
  · exact ha
  · exact ha

theorem init_log (d : Decoder) (ok : Bool) : (d.init ok).log = d.log := by
  unfold Decoder.init
  split <;> rfl

/-- Constructing the decoder inside `recv_video_frame` is the same as finding
it already constructed. -/
theorem recv_video_frame_construct (NO_PTS : Nat) (env : Env) (plugin : Plugin) (sock : List Nat)
    (hn : plugin.video_decoder = none) :
    recv_video_frame NO_PTS env plugin sock =
      recv_video_frame NO_PTS env
        { plugin with video_decoder := some (new_video_decoder plugin.video_format) } sock := by
  unfold recv_video_frame
  simp only [hn]
  rfl

/-- The post-state of `recv_video_frame` on an existing decoder `d`. -/
theorem recv_video_frame_post (NO_PTS : Nat) (env : Env) (plugin : Plugin) (sock : List Nat)
    (d : Decoder) (hd : plugin.video_decoder = some d) :
    ∃ d', (recv_video_frame NO_PTS env plugin sock).2.1.video_decoder = some d' ∧
      (∀ h, accounted d h → accounted d' h) ∧ balanced_calls (pool_calls d d') = true ∧
      (d.failed = true → d'.failed = true ∧ d'.decodeQueue = d.decodeQueue ∧
        (recv_video_frame NO_PTS env plugin sock).2.1.trace = plugin.trace ∧
        (recv_video_frame NO_PTS env plugin sock).2.1.comms_queue = plugin.comms_queue ∧
        (recv_video_frame NO_PTS env plugin sock).2.1.comms_signal = plugin.comms_signal) ∧
      ((recv_video_frame NO_PTS env plugin sock).1 = false ↔
        (read_frame NO_PTS d sock 0).packet = none) := by
  obtain ⟨h3, h4, h5⟩ := read_frame_fields NO_PTS d sock 0
  unfold recv_video_frame
  simp only [hd]
  cases hp : (read_frame NO_PTS d sock 0).packet with
  | none =>
    exact ⟨_, rfl, fun h ha => read_frame_none_accounted NO_PTS d sock 0 h ha hp,
      read_frame_none_balanced NO_PTS d sock 0 hp,
      fun hf => ⟨by rw [h3, hf], h5, rfl, rfl, rfl⟩, by simp⟩
  | some p =>
    obtain ⟨n, h2⟩ := read_frame_some_log NO_PTS d sock 0 p hp
    have h1 := fun h ha => read_frame_some_accounted NO_PTS d sock 0 h ha p hp
    simp only []
    generalize (read_frame NO_PTS d sock 0).decoder = rd at *
    generalize (read_frame NO_PTS d sock 0).sock = rs at *
    have hlogE : ∀ x : Decoder, x.log = rd.log →
        (x.push_empty_packet p).log = d.log ++ [PoolOp.pull_empty n, PoolOp.push_empty] := by
      intro x hx
      rw [push_empty_packet_log, hx, h2, List.append_assoc]
      rfl
    have hlogR : ∀ x : Decoder, x.log = rd.log →
        (x.push_ready_packet p).log = d.log ++ [PoolOp.pull_empty n, PoolOp.push_ready] := by
      intro x hx
      rw [push_ready_packet_log, hx, h2, List.append_assoc]
      rfl
    by_cases hf : rd.failed = true
    · rw [if_pos hf]
      exact ⟨_, rfl, fun h ha => accounted_push_empty _ _ p (h1 h ha),
        balanced_of_log_empty _ _ n (hlogE rd rfl), fun _ => ⟨hf, h5, rfl, rfl, rfl⟩, by simp⟩
    · have hdf : ¬d.failed = true := by rw [← h3]; exact hf
      rw [if_neg hf]
      by_cases hr : (!rd.ready) = true
      · rw [if_pos hr]
        rcases hfmt : plugin.video_format with _ | _ | v
        · by_cases hi : env.init_ok = true
          · simp only [hi, if_true]
            exact ⟨_, rfl,
              fun h ha => accounted_push_ready _ _ p (init_accounted rd true _ (h1 h ha)),
              balanced_of_log_ready _ _ n (hlogR _ (init_log rd true)),
              fun hc => absurd hc hdf, by simp⟩
          · simp only [hi, if_false]
            exact ⟨_, rfl,
              fun h ha => accounted_push_empty _ _ p (init_accounted rd false _ (h1 h ha)),
              balanced_of_log_empty _ _ n (hlogE _ (init_log rd false)),
              fun hc => absurd hc hdf, by simp⟩
        · by_cases hi : env.init_ok = true
          · simp only [hi, if_true]
            exact ⟨_, rfl,
              fun h ha => accounted_push_ready _ _ p (init_accounted rd true _ (h1 h ha)),
              balanced_of_log_ready _ _ n (hlogR _ (init_log rd true)),
              fun hc => absurd hc hdf, by simp⟩
          · simp only [hi, if_false]
            exact ⟨_, rfl,
              fun h ha => accounted_push_empty _ _ p (init_accounted rd false _ (h1 h ha)),
              balanced_of_log_empty _ _ n (hlogE _ (init_log rd false)),
              fun hc => absurd hc hdf, by simp⟩
        · exact ⟨_, rfl, fun h ha => accounted_push_empty _ _ p (h1 h ha),
            balanced_of_log_empty _ _ n (hlogE _ rfl), fun hc => absurd hc hdf, by simp⟩
      · rw [if_neg hr]
        exact ⟨_, rfl, fun h ha => accounted_push_ready _ _ p (h1 h ha),
          balanced_of_log_ready _ _ n (hlogR rd rfl), fun hc => absurd hc hdf, by simp⟩

/-! ## `do_audio_frame` and the decode worker -/

theorem do_audio_frame_construct (NO_PTS : Nat) (env : Env) (plugin : Plugin) (sock : List Nat)
    (hn : plugin.audio_decoder = none) :
    do_audio_frame NO_PTS env plugin sock =
      do_audio_frame NO_PTS env { plugin with audio_decoder := some Decoder.fresh } sock := by
  unfold do_audio_frame
  simp only [hn]
  rfl

/-- The post-state of `do_audio_frame` on an existing decoder `d`. -/
theorem do_audio_frame_post (NO_PTS : Nat) (env : Env) (plugin : Plugin) (sock : List Nat)
    (d : Decoder) (hd : plugin.audio_decoder = some d) :
    ∃ d', (do_audio_frame NO_PTS env plugin sock).2.1.audio_decoder = some d' ∧
      (∀ h, accounted d h → accounted d' h) ∧ balanced_calls (pool_calls d d') = true := by
  unfold do_audio_frame
  simp only [hd]
  cases hp : (read_frame NO_PTS d sock 0).packet with
  | none =>
    exact ⟨_, rfl, fun h ha => read_frame_none_accounted NO_PTS d sock 0 h ha hp,
      read_frame_none_balanced NO_PTS d sock 0 hp⟩
  | some p =>
    obtain ⟨n, h2⟩ := read_frame_some_log NO_PTS d sock 0 p hp
    have h1 := fun h ha => read_frame_some_accounted NO_PTS d sock 0 h ha p hp
    simp only []
    generalize (read_frame NO_PTS d sock 0).decoder = rd at *
    generalize (read_frame NO_PTS d sock 0).sock = rs at *
    generalize (read_frame NO_PTS d sock 0).has_config = rc at *
    have hlogE : ∀ x : Decoder, x.log = rd.log →
        (x.push_empty_packet p).log = d.log ++ [PoolOp.pull_empty n, PoolOp.push_empty] := by
      intro x hx
      rw [push_empty_packet_log, hx, h2, List.append_assoc]
      rfl
    split_ifs
    · exact ⟨_, rfl, fun h ha => accounted_push_empty _ _ p (h1 h ha), balanced_of_log_empty _ _ n (hlogE rd rfl)⟩
    · exact ⟨_, rfl, fun h ha => accounted_push_empty _ _ p (h1 h ha), balanced_of_log_empty _ _ n (hlogE _ rfl)⟩
    · exact ⟨_, rfl, fun h ha => accounted_push_empty _ _ p (init_accounted rd false _ (h1 h ha)),
        balanced_of_log_empty _ _ n (hlogE _ (init_log rd false))⟩
    · exact ⟨_, rfl, fun h ha => accounted_push_empty _ _ p (init_accounted rd true _ (h1 h ha)),
        balanced_of_log_empty _ _ n (hlogE _ (init_log rd true))⟩
    · exact ⟨_, rfl, fun h ha => accounted_push_empty _ _ p (h1 h ha), balanced_of_log_empty _ _ n (hlogE _ rfl)⟩
    · exact ⟨_, rfl, fun h ha => accounted_push_empty _ _ p (h1 h ha), balanced_of_log_empty _ _ n (hlogE rd rfl)⟩
    · exact ⟨_, rfl, fun h ha => accounted_push_empty _ _ p (h1 h ha), balanced_of_log_empty _ _ n (hlogE rd rfl)⟩

/-- What the worker does with a pulled packet: it goes back to the empty queue,
and a failed decoder stays failed. -/
theorem video_decode_packet_post (env : Env) (d : Decoder) (p : DataPacket) :
    (video_decode_packet env d p).1.recieveQueue = d.recieveQueue ++ [p] ∧
    (video_decode_packet env d p).1.decodeQueue = d.decodeQueue ∧
    (video_decode_packet env d p).1.alloc_count = d.alloc_count ∧
    (video_decode_packet env d p).1.log = d.log ++ [PoolOp.push_empty] ∧
    (d.failed = true → (video_decode_packet env d p).1.failed = true) := by
  unfold video_decode_packet
  split_ifs <;> simp_all [Decoder.push_empty_packet]

/-- The post-state of one decode-worker iteration on an existing decoder `d`. -/
theorem video_decode_thread_iter_post (env : Env) (plugin : Plugin) (d : Decoder)
    (hd : plugin.video_decoder = some d) :
    ∃ d', (video_decode_thread_iter env plugin).video_decoder = some d' ∧
      (∀ h, accounted d h → accounted d' h) ∧ balanced_calls (pool_calls d d') = true ∧
      (d.failed = true → d'.failed = true) := by
  unfold video_decode_thread_iter
  simp only [hd]
  unfold Decoder.pull_ready_packet
  cases hq : d.decodeQueue with
  | nil =>
    refine ⟨_, rfl, fun h ha => ?_, ?_, fun hf => hf⟩
    · unfold accounted at *
      simpa [hq] using ha
    · rw [pool_calls_of_log d _ [PoolOp.pull_ready false] rfl]
      rfl
  | cons p rest =>
    simp only []
    obtain ⟨h1, h2, h3, h4, h5⟩ := video_decode_packet_post env
      { d with decodeQueue := rest, log := d.log ++ [PoolOp.pull_ready true] } p
    refine ⟨_, rfl, fun h ha => ?_, ?_, fun hf => h5 hf⟩
    · unfold accounted at *
      rw [h1, h2, h3]
      simp only [List.length_append, List.length_singleton]
      rw [hq] at ha
      simp only [List.length_cons] at ha
      omega
    · rw [pool_calls_of_log d _ [PoolOp.pull_ready true, PoolOp.push_empty]]
      · rfl
      · rw [h4, List.append_assoc]
        rfl

/-- A frame read on a decoder that is failed, or whose initialisation fails, is
discarded: result true, the decoder failed, the packet appended to the empty
queue and the ready queue untouched. -/
theorem recv_video_frame_discard (NO_PTS : Nat) (env : Env) (plugin : Plugin) (sock : List Nat)
    (d : Decoder) (p : DataPacket) (hd : plugin.video_decoder = some d)
    (hp : (read_frame NO_PTS d sock 0).packet = some p)
    (hbad : d.failed = true ∨
      (d.ready = false ∧ (env.init_ok = false ∨ ∃ v, plugin.video_format = VideoFormat.unexpected v))) :
    (recv_video_frame NO_PTS env plugin sock).1 = true ∧
    ∃ d', (recv_video_frame NO_PTS env plugin sock).2.1.video_decoder = some d' ∧
      d'.failed = true ∧
      d'.recieveQueue = (read_frame NO_PTS d sock 0).decoder.recieveQueue ++ [p] ∧
      d'.decodeQueue = d.decodeQueue ∧
      pool_calls (read_frame NO_PTS d sock 0).decoder d' = [PoolOp.push_empty] := by
  obtain ⟨h3, h4, h5⟩ := read_frame_fields NO_PTS d sock 0
  unfold recv_video_frame
  simp only [hd, hp]
  generalize (read_frame NO_PTS d sock 0).decoder = rd at *
  generalize (read_frame NO_PTS d sock 0).sock = rs at *
  by_cases hf : rd.failed = true
  · rw [if_pos hf]
    exact ⟨rfl, _, rfl, hf, rfl, h5, pool_calls_of_log _ _ _ rfl⟩
  · rw [if_neg hf]
    have hdf : ¬d.failed = true := by rw [← h3]; exact hf
    rcases hbad with hbad | ⟨hr, hbad⟩
    · exact absurd hbad hdf
    · have hr' : (!rd.ready) = true := by rw [h4, hr]; rfl
      rw [if_pos hr']
      rcases hfmt : plugin.video_format with _ | _ | v
      · rcases hbad with hi | ⟨v, hv⟩
        · have hi' : ¬env.init_ok = true := by rw [hi]; decide
          rw [if_neg hi']
          exact ⟨rfl, _, rfl, rfl, rfl, h5, pool_calls_of_log _ _ _ rfl⟩
        · rw [hfmt] at hv; cases hv
      · rcases hbad with hi | ⟨v, hv⟩
        · have hi' : ¬env.init_ok = true := by rw [hi]; decide
          rw [if_neg hi']
          exact ⟨rfl, _, rfl, rfl, rfl, h5, pool_calls_of_log _ _ _ rfl⟩
        · rw [hfmt] at hv; cases hv
      · exact ⟨rfl, _, rfl, rfl, rfl, h5, pool_calls_of_log _ _ _ rfl⟩

theorem connect_video_decoder (env : Env) (plugin : Plugin) :
    (connect env plugin).2.video_decoder = plugin.video_decoder := by
  unfold connect
  simp only [Plugin.emit]
  split
  · rfl
  · split <;> rfl
  · split
    · split
      · rfl
      · split
        · split_ifs <;> rfl
        · split <;> split_ifs <;> rfl
    · rfl
  · split <;> rfl
  · rfl

theorem stays_failed_refl (o : Option Decoder) : stays_failed o o := by
  intro d hd hf
  exact Or.inr ⟨d, hd, hf⟩

theorem recv_video_frame_stays_failed (NO_PTS : Nat) (env : Env) (plugin : Plugin)
    (sock : List Nat) :
    stays_failed plugin.video_decoder (recv_video_frame NO_PTS env plugin sock).2.1.video_decoder := by
  intro d hd hf
  obtain ⟨d', h1, _, _, h4, _⟩ := recv_video_frame_post NO_PTS env plugin sock d hd
  exact Or.inr ⟨d', h1, (h4 hf).1⟩

theorem video_decode_thread_iter_stays_failed (env : Env) (plugin : Plugin) :
    stays_failed plugin.video_decoder (video_decode_thread_iter env plugin).video_decoder := by
  intro d hd hf
  obtain ⟨d', h1, _, _, h4⟩ := video_decode_thread_iter_post env plugin d hd
  exact Or.inr ⟨d', h1, h4 hf⟩

theorem video_decode_thread_step_stays_failed (env : Env) (plugin : Plugin)
    (w : Option DataPacket) :
    stays_failed plugin.video_decoder (video_decode_thread_step env plugin w).1.video_decoder := by
  intro d hd hf
  unfold video_decode_thread_step
  simp only [hd]
  cases w with
  | none =>
    simp only []
    split
    · unfold Decoder.pull_ready_packet
      cases hq : d.decodeQueue with
      | nil => exact Or.inr ⟨_, rfl, hf⟩
      | cons p rest => exact Or.inr ⟨_, rfl, hf⟩
    · exact Or.inr ⟨d, hd, hf⟩
  | some p =>
    exact Or.inr ⟨_, rfl, (video_decode_packet_post env d p).2.2.2.2 hf⟩

theorem video_thread_head_stays_failed (NO_PTS : Nat) (env : Env) (plugin : Plugin)
    (sock : Option (List Nat)) :
    stays_failed plugin.video_decoder
      (video_thread_head NO_PTS env plugin sock).2.1.video_decoder := by
  unfold video_thread_head
  split
  · split
    · simp only []
      by_cases hreset : plugin.reset_signal = true
      · simp only [hreset, Bool.not_true, Bool.false_and, Bool.false_eq_true, if_false, if_true]
        exact stays_failed_refl _
      · simp only [hreset, if_false]
        split
        · exact recv_video_frame_stays_failed NO_PTS env plugin _
        · exact recv_video_frame_stays_failed NO_PTS env plugin _
    · have hc := connect_video_decoder env plugin
      split
      · rename_i heq
        rw [heq] at hc
        simp only [Plugin.emit]
        rw [hc]
        exact stays_failed_refl _
      · rename_i heq
        rw [heq] at hc
        simp only [Plugin.emit]
        split_ifs <;> (simp only [Plugin.emit]; rw [hc]; exact stays_failed_refl _)
  · exact stays_failed_refl _

/-! ## Fields the decode worker and the wait loop leave alone -/

theorem video_decode_thread_step_video_running (env : Env) (plugin : Plugin)
    (data_packet : Option DataPacket) :
    (video_decode_thread_step env plugin data_packet).1.video_running = plugin.video_running := by
  unfold video_decode_thread_step
  split
  · split
    · split
      · rfl
      · split <;> rfl
    · rfl
  · split <;> rfl

theorem video_decode_thread_run_video_running (envs : List Env) (plugin : Plugin)
    (data_packet : Option DataPacket) :
    (video_decode_thread_run plugin data_packet envs).1.video_running = plugin.video_running := by
  induction envs generalizing plugin data_packet with
  | nil => rfl
  | cons env envs ih =>
    unfold video_decode_thread_run
    rw [ih, video_decode_thread_step_video_running]

theorem video_thread_wait_video_running (sched : List EnvAct) (plugin : Plugin)
    (data_packet : Option DataPacket) (r : Plugin × Option DataPacket)
    (h : video_thread_wait plugin data_packet sched = some r) :
    r.1.video_running = plugin.video_running := by
  induction sched generalizing plugin data_packet with
  | nil =>
    unfold video_thread_wait at h
    split at h
    · cases h
    · cases h; rfl
  | cons a rest ih =>
    unfold video_thread_wait at h
    split at h
    · rw [ih _ _ h]
      simp [EnvAct.apply, video_decode_thread_run_video_running, Plugin.emit]
    · cases h; rfl

/-- After the `LOOP` part of a `video_thread` iteration the stream is closed
and no decoder is left. -/
theorem video_thread_LOOP_closed (sched : List EnvAct) (plugin : Plugin)
    (sock : Option (List Nat)) (data_packet : Option DataPacket)
    (r : Plugin × Option (List Nat) × Option DataPacket)
    (h : video_thread_LOOP sched plugin sock data_packet = some r) :
    r.1.video_running = false ∧ r.2.1 = none ∧ r.1.video_decoder = none := by
  unfold video_thread_LOOP at h
  simp only [Option.map_eq_some'] at h
  obtain ⟨p1, hw, hp⟩ := h
  subst hp
  have hvr : ∀ q : Plugin, q.video_running = false →
      (if sock.isSome = true then q.emit [Event.net_close] else q).video_running = false := by
    intro q hq
    split <;> simpa [Plugin.emit] using hq
  have h1 : (if plugin.video_running = true then { plugin with video_running := false }
      else plugin).video_running = false := by
    split
    · rfl
    · simpa using ‹¬plugin.video_running = true›
  refine ⟨?_, rfl, ?_⟩
  · split at hw
    · rename_i decoder hd
      simp only [Option.map_eq_some'] at hw
      obtain ⟨p2, hw2, hp2⟩ := hw
      subst hp2
      have := video_thread_wait_video_running _ _ _ _ hw2
      simp only [Plugin.emit] at this ⊢
      rw [this]
      split
      · simpa [Plugin.emit] using hvr _ h1
      · exact hvr _ h1
    · cases hw
      simpa [Plugin.emit] using hvr _ h1
  · split at hw
    · simp only [Option.map_eq_some'] at hw
      obtain ⟨p2, _, hp2⟩ := hw
      subst hp2
      rfl
    · rename_i hn
      cases hw
      simpa [Plugin.emit] using hn

/-- The wait loop ends only when every allocated packet is back in the empty
queue or the stop signal has been raised. -/
theorem video_thread_wait_exit (sched : List EnvAct) (plugin : Plugin) (w : Option DataPacket)
    (r : Plugin × Option DataPacket) (h : video_thread_wait plugin w sched = some r) :
    video_thread_waiting r.1 = false := by
  induction sched generalizing plugin w with
  | nil =>
    unfold video_thread_wait at h
    split at h
    · cases h
    · cases h
      simpa using ‹¬video_thread_waiting plugin = true›
  | cons a rest ih =>
    unfold video_thread_wait at h
    split at h
    · exact ih _ _ h
    · cases h
      simpa using ‹¬video_thread_waiting plugin = true›

/-- Once the stop signal is raised the wait loop ends at its next test. -/
theorem video_thread_wait_stop (sched : List EnvAct) (plugin : Plugin) (w : Option DataPacket)
    (h : plugin.stop_signal = true) : video_thread_wait plugin w sched = some (plugin, w) := by
  have hw : video_thread_waiting plugin = false := by
    unfold video_thread_waiting SOURCE_EXISTS
    split <;> simp [h]
  cases sched <;> simp [video_thread_wait, hw]

/-! ## Drain before destroy -/

theorem video_decode_thread_step_accounted (env : Env) (plugin : Plugin)
    (w : Option DataPacket) (d : Decoder) (hd : plugin.video_decoder = some d)
    (ha : accounted d (if w.isSome = true then 1 else 0)) :
    ∃ d', (video_decode_thread_step env plugin w).1.video_decoder = some d' ∧
      accounted d' (if (video_decode_thread_step env plugin w).2.isSome = true then 1 else 0) := by
  unfold video_decode_thread_step
  simp only [hd]
  cases w with
  | none =>
    simp only []
    split
    · have hp := accounted_pull_ready d 0 (by simpa using ha)
      unfold Decoder.pull_ready_packet at hp ⊢
      cases hq : d.decodeQueue with
      | nil =>
        simp only [hq] at hp
        exact ⟨_, rfl, by simpa using hp⟩
      | cons p rest =>
        simp only [hq] at hp
        exact ⟨_, rfl, by simpa using hp⟩
    · exact ⟨d, hd, ha⟩
  | some p =>
    obtain ⟨h1, h2, h3, _⟩ := video_decode_packet_post env d p
    refine ⟨_, rfl, ?_⟩
    unfold accounted at *
    simp only [Option.isSome_some, if_true, Option.isSome_none, Bool.false_eq_true, if_false,
      Plugin.emit] at ha ⊢
    rw [h1, h2, h3]
    simp only [List.length_append, List.length_singleton]
    omega

theorem video_decode_thread_run_accounted (envs : List Env) (plugin : Plugin)
    (w : Option DataPacket) (d : Decoder) (hd : plugin.video_decoder = some d)
    (ha : accounted d (if w.isSome = true then 1 else 0)) :
    ∃ d', (video_decode_thread_run plugin w envs).1.video_decoder = some d' ∧
      accounted d' (if (video_decode_thread_run plugin w envs).2.isSome = true then 1 else 0) := by
  induction envs generalizing plugin w d with
  | nil => exact ⟨d, hd, ha⟩
  | cons env envs ih =>
    obtain ⟨d1, h1, h2⟩ := video_decode_thread_step_accounted env plugin w d hd ha
    unfold video_decode_thread_run
    exact ih _ _ d1 h1 h2

/-- When the wait loop ends without the stop signal, the decode worker has
nothing in its hands and the ready queue is empty: the decoder is drained. -/
theorem video_thread_wait_drained (sched : List EnvAct) (plugin : Plugin)
    (w : Option DataPacket) (d : Decoder) (r : Plugin × Option DataPacket)
    (hd : plugin.video_decoder = some d)
    (ha : accounted d (if w.isSome = true then 1 else 0))
    (h : video_thread_wait plugin w sched = some r) (hstop : r.1.stop_signal = false) :
    r.2 = none ∧ ∃ d', r.1.video_decoder = some d' ∧ d'.decodeQueue = [] := by
  have hinv : ∃ d', r.1.video_decoder = some d' ∧
      accounted d' (if r.2.isSome = true then 1 else 0) := by
    induction sched generalizing plugin w d with
    | nil =>
      unfold video_thread_wait at h
      split at h
      · cases h
      · cases h
        exact ⟨d, hd, ha⟩
    | cons a rest ih =>
      unfold video_thread_wait at h
      split at h
      · obtain ⟨d1, h1, h2⟩ := video_decode_thread_run_accounted a.worker
          (plugin.emit [Event.os_sleep_ms (MILLI_SEC / FPS)]) w d hd ha
        exact ih (a.apply (plugin.emit [Event.os_sleep_ms (MILLI_SEC / FPS)]) w).1
          (a.apply (plugin.emit [Event.os_sleep_ms (MILLI_SEC / FPS)]) w).2 d1 h1 h2 h
      · cases h
        exact ⟨d, hd, ha⟩
  obtain ⟨d', h1, h2⟩ := hinv
  have hex := video_thread_wait_exit sched plugin w r h
  unfold video_thread_waiting SOURCE_EXISTS at hex
  simp only [h1, hstop, Bool.not_false, Bool.and_true, decide_eq_false_iff_not, not_lt] at hex
  unfold accounted at h2
  cases hr : r.2 with
  | none =>
    refine ⟨rfl, d', h1, ?_⟩
    rw [hr] at h2
    simp only [Option.isSome_none, Bool.false_eq_true, if_false] at h2
    exact List.eq_nil_of_length_eq_zero (by omega)
  | some p =>
    rw [hr] at h2
    simp only [Option.isSome_some, if_true] at h2
    omega

/-! ## Short reads and the callers of `read_frame` -/

theorem short_read_packet (NO_PTS : Nat) (sock : List Nat) (h : short_read NO_PTS sock = true)
    (d : Decoder) (hc : Int) : (read_frame NO_PTS d sock hc).packet = none := by
  unfold short_read at h
  simp only [List.any_eq_true, decide_eq_true_eq] at h
  obtain ⟨q, hq, hlt⟩ := h
  apply read_frame_AGAIN_short
  refine ⟨q, ?_, by omega⟩
  rw [read_frame, read_frame_AGAIN_recvs NO_PTS _ d _ _ [] 0 0 hc] at hq
  exact hq

theorem recv_video_frame_of_none (NO_PTS : Nat) (env : Env) (plugin : Plugin) (sock : List Nat)
    (h : ∀ d hc, (read_frame NO_PTS d sock hc).packet = none) :
    (recv_video_frame NO_PTS env plugin sock).1 = false ∧
    (recv_video_frame NO_PTS env plugin sock).2.1.trace = plugin.trace ∧
    (recv_video_frame NO_PTS env plugin sock).2.1.video_running = plugin.video_running := by
  unfold recv_video_frame
  simp [h]

theorem do_audio_frame_of_none (NO_PTS : Nat) (env : Env) (plugin : Plugin) (sock : List Nat)
    (h : ∀ d hc, (read_frame NO_PTS d sock hc).packet = none) :
    do_audio_frame NO_PTS env plugin sock =
      (false,
       { plugin with audio_decoder := some (read_frame NO_PTS
           (match plugin.audio_decoder with
            | some d => d
            | none => Decoder.fresh) sock 0).decoder },
       (read_frame NO_PTS
           (match plugin.audio_decoder with
            | some d => d
            | none => Decoder.fresh) sock 0).sock) := by
  unfold do_audio_frame
  simp only [h]

/-- Any number of `recv_video_frame` calls on a failed decoder leave it failed,
add nothing to the ready queue and make no call to the outside. -/
theorem recv_video_frames_failed (NO_PTS : Nat) (calls : List (Env × List Nat)) (plugin : Plugin)
    (d : Decoder) (hd : plugin.video_decoder = some d) (hf : d.failed = true) :
    ∃ d', (recv_video_frames NO_PTS plugin calls).video_decoder = some d' ∧
      d'.failed = true ∧ d'.decodeQueue = d.decodeQueue ∧
      (recv_video_frames NO_PTS plugin calls).trace = plugin.trace ∧
      (recv_video_frames NO_PTS plugin calls).comms_queue = plugin.comms_queue ∧
      (recv_video_frames NO_PTS plugin calls).comms_signal = plugin.comms_signal := by
  induction calls generalizing plugin d with
  | nil => exact ⟨d, hd, hf, rfl, rfl, rfl, rfl⟩
  | cons c calls ih =>
    obtain ⟨env, sock⟩ := c
    obtain ⟨d1, h1, _, _, h4, _⟩ := recv_video_frame_post NO_PTS env plugin sock d hd
    obtain ⟨hf1, hq1, ht1, hc1, hs1⟩ := h4 hf
    obtain ⟨d', h1', h2', h3', h4', h5', h6'⟩ := ih _ d1 h1 hf1
    unfold recv_video_frames
    exact ⟨d', h1', h2', h3'.trans hq1, h4'.trans ht1, h5'.trans hc1, h6'.trans hs1⟩

/-! ## `connect` through the debug bridge -/

/-- The local port at which `connect` requests the forward: the tracked port if
it lies in the window `[base, base + 8]`, else `base`. -/
theorem adb_port_in_window (u base : Int) :
    base ≤ (if u < base ∨ u > base + 8 then base else u) ∧
    (if u < base ∨ u > base + 8 then base else u) ≤ base + 8 := by
  split_ifs with h
  · omega
  · omega

/-- The whole of a `connect` attempt to an online debug-bridge device with
target port `p`, iteration `k`, tracked port `u` and `base = p + 10 * k`. -/
theorem connect_adb_online (env : Env) (plugin : Plugin) (dev : Device) (p k u base : Int)
    (ht : plugin.device_info.type = DeviceType.ADB) (hdev : env.adb_device = some dev)
    (hon : env.adb_offline = false) (hp : plugin.device_info.port = p) (hk : env.adb_iter = k)
    (hu : plugin.usb_port = u) (hbase : base = p + 10 * k) :
    (connect env plugin).1 = (if env.adb_forward_ok then env.net_connect else none) ∧
    (connect env plugin).2.usb_port =
      (if u < base ∨ u > base + 8 then base else u) + (if env.adb_forward_ok then 0 else 1) ∧
    (connect env plugin).2.trace =
      plugin.trace ++
        (Event.connect_device :: (if u > base + 8 then [Event.adb_clear_forwards] else [])) ++
        [Event.adb_add_forward (if u < base ∨ u > base + 8 then base else u) p] ++
        (if env.adb_forward_ok then
          Event.net_connect localhost_ip (if u < base ∨ u > base + 8 then base else u) ::
            (if env.net_connect.isSome then [] else [Event.adb_clear_forwards])
         else []) ∧
    (connect env plugin).2.device_info = plugin.device_info := by
  have hmul : p + k * 10 = base := by rw [hbase]; ring
  unfold connect
  simp only [Plugin.emit, ht, hdev, hon, Bool.false_eq_true, if_false, hp, hk, hu, hmul]
  by_cases h1 : u < base
  · have h2 : ¬u > base + 8 := by omega
    cases hf : env.adb_forward_ok <;> cases hn : env.net_connect <;> simp [h1, h2]
  · by_cases h2 : u > base + 8
    · cases hf : env.adb_forward_ok <;> cases hn : env.net_connect <;> simp [h1, h2]
    · cases hf : env.adb_forward_ok <;> cases hn : env.net_connect <;> simp [h1, h2]

/-! ## `connect` changes only the forward port and the trace -/

theorem connect_fields (env : Env) (plugin : Plugin) :
    (connect env plugin).2 =
      { plugin with
        usb_port := (connect env plugin).2.usb_port, trace := (connect env plugin).2.trace } := by
  unfold connect
  simp only [Plugin.emit]
  split
  · rfl
  · split <;> rfl
  · split
    · split
      · rfl
      · split
        · split_ifs <;> rfl
        · split <;> split_ifs <;> rfl
    · rfl
  · split <;> rfl
  · rfl

theorem connect_connect_attempts (env : Env) (plugin : Plugin) :
    connect_attempts (connect env plugin).2.trace = connect_attempts plugin.trace + 1 := by
  unfold connect
  simp only [Plugin.emit, connect_attempts]
  split
  · simp
  · split <;> simp
  · split
    · split
      · simp
      · split
        · split_ifs <;> simp
        · split <;> split_ifs <;> simp
    · simp
  · split <;> simp
  · simp

theorem connect_tally_requests (env : Env) (plugin : Plugin) :
    tally_requests (connect env plugin).2.trace = tally_requests plugin.trace := by
  unfold connect
  simp only [Plugin.emit, tally_requests]
  split
  · simp
  · split <;> simp
  · split
    · split
      · simp
      · split
        · split_ifs <;> simp
        · split <;> split_ifs <;> simp
    · simp
  · split <;> simp
  · simp

theorem connect_audio_running (env : Env) (plugin : Plugin) :
    (connect env plugin).2.audio_running = plugin.audio_running := by
  unfold connect
  simp only [Plugin.emit]
  split
  · rfl
  · split <;> rfl
  · split
    · split
      · rfl
      · split
        · split_ifs <;> rfl
        · split <;> split_ifs <;> rfl
    · rfl
  · split <;> rfl
  · rfl

/-! ## The control loop -/

theorem comms_drain_tally (plugin plugin1 : Plugin) (h : plugin1.tally = plugin.tally)
    (tally : Option String) (queue : List CommsTask) :
    comms_drain plugin1 tally queue = comms_drain plugin tally queue := by
  induction queue generalizing tally with
  | nil => rfl
  | cons t queue ih =>
    cases t with
    | NONE => rfl
    | TALLY => simp only [comms_drain, h, ih]

theorem comms_drain_replicate (plugin : Plugin) (tally : Option String) (n : Nat) :
    comms_drain plugin tally (List.replicate n CommsTask.TALLY) =
      (if n = 0 then tally else some (tally_string plugin.tally), []) := by
  induction n generalizing tally with
  | zero => rfl
  | succ n ih =>
    rw [List.replicate_succ, comms_drain, ih]
    by_cases hn : n = 0 <;> simp [hn]

theorem comms_drain_nil (plugin : Plugin) :
    comms_drain plugin none [] = (none, []) := rfl

/-- The drain and the tally request, by the outcome of the drain and of the
request. -/
theorem comms_thread_tally_eq (env : CommsEnv) (plugin : Plugin) (sock : List Nat)
    (prevBattery : Int) :
    comms_thread_tally env plugin sock prevBattery =
      match (comms_drain plugin none plugin.comms_queue).1 with
      | none =>
        ({ plugin with comms_queue := (comms_drain plugin none plugin.comms_queue).2 },
         some sock, prevBattery)
      | some tally =>
        if env.tally_http > 0 then
          ({ plugin with
             comms_queue := (comms_drain plugin none plugin.comms_queue).2,
             trace := plugin.trace ++ [Event.http_tally tally] }, some sock, prevBattery)
        else if env.errno ≠ 0 then
          ({ plugin with
             comms_queue := (comms_drain plugin none plugin.comms_queue).2 ++ [CommsTask.TALLY],
             comms_signal := true,
             trace := plugin.trace ++ [Event.http_tally tally] ++
               [Event.os_sleep_ms (MILLI_SEC * 5)] ++ [Event.comms_task CommsTask.TALLY] ++
               [Event.net_close] }, none, prevBattery)
        else
          ({ plugin with
             comms_queue := (comms_drain plugin none plugin.comms_queue).2,
             trace := plugin.trace ++ [Event.http_tally tally] ++ [Event.net_close] },
           none, prevBattery) := by
  unfold comms_thread_tally
  simp only [Plugin.emit, comms_task]
  split
  · rfl
  · split_ifs <;> rfl

theorem comms_thread_poll_reaches_drain (DROIDCAM_OVERRIDE : Bool) (env : CommsEnv)
    (plugin : Plugin) (sock : List Nat) (prevBattery : Int)
    (hpoll : (env.timed_out && DROIDCAM_OVERRIDE) = true → env.batt_http > 0) :
    ∃ (plugin1 : Plugin) (prevBattery1 : Int),
      comms_thread_poll DROIDCAM_OVERRIDE env plugin sock prevBattery =
        comms_thread_tally env plugin1 sock prevBattery1 ∧
      plugin1.tally = plugin.tally ∧ plugin1.comms_queue = plugin.comms_queue ∧
      plugin1.comms_signal = plugin.comms_signal ∧
      tally_requests plugin1.trace = tally_requests plugin.trace := by
  unfold comms_thread_poll
  by_cases ht : (env.timed_out && DROIDCAM_OVERRIDE) = true
  · rw [if_pos ht, if_pos (hpoll ht)]
    cases env.batt_level with
    | none => exact ⟨_, _, rfl, rfl, rfl, rfl, by simp [Plugin.emit, tally_requests]⟩
    | some level => exact ⟨_, _, rfl, rfl, rfl, rfl, by simp [Plugin.emit, tally_requests]⟩
  · rw [if_neg ht]
    exact ⟨_, _, rfl, rfl, rfl, rfl, rfl⟩

theorem comms_thread_iter_reaches_drain (DROIDCAM_OVERRIDE : Bool) (env : CommsEnv)
    (plugin : Plugin) (sock : Option (List Nat)) (prevBattery : Int) (s : List Nat)
    (hact : plugin.activated = true) (hrun : plugin.video_running = true)
    (hsock : sock = some s ∨
      (sock = none ∧ (connect env.connect { plugin with comms_signal := false }).1 = some s))
    (hpoll : (env.timed_out && DROIDCAM_OVERRIDE) = true → env.batt_http > 0) :
    ∃ (plugin1 : Plugin) (prevBattery1 : Int),
      comms_thread_iter DROIDCAM_OVERRIDE env plugin sock prevBattery =
        comms_thread_tally env plugin1 s prevBattery1 ∧
      plugin1.tally = plugin.tally ∧ plugin1.comms_queue = plugin.comms_queue ∧
      plugin1.comms_signal = false ∧
      tally_requests plugin1.trace = tally_requests plugin.trace := by
  have hg : (plugin.activated && plugin.video_running) = true := by rw [hact, hrun]; rfl
  unfold comms_thread_iter
  simp only []
  rw [if_pos hg]
  rcases hsock with hs | ⟨hs, hc⟩
  · subst hs
    simp only []
    obtain ⟨p1, pb1, h1, h2, h3, h4, h5⟩ := comms_thread_poll_reaches_drain DROIDCAM_OVERRIDE env
      { plugin with comms_signal := false } s prevBattery hpoll
    exact ⟨p1, pb1, h1, h2, h3, h4, h5⟩
  · subst hs
    simp only []
    have hf := connect_fields env.connect { plugin with comms_signal := false }
    have htr := connect_tally_requests env.connect { plugin with comms_signal := false }
    cases hcc : connect env.connect { plugin with comms_signal := false } with
    | mk s1 p0 =>
      rw [hcc] at hc hf htr
      simp only [] at hc hf htr
      subst hc
      simp only []
      obtain ⟨p1, pb1, h1, h2, h3, h4, h5⟩ := comms_thread_poll_reaches_drain DROIDCAM_OVERRIDE
        env (p0.emit [Event.set_recv_timeout]) s prevBattery hpoll
      refine ⟨p1, pb1, h1, ?_, ?_, ?_, ?_⟩
      · rw [h2, hf]; rfl
      · rw [h3, hf]; rfl
      · rw [h4, hf]; rfl
      · rw [h5]
        simp only [Plugin.emit, tally_requests, List.filterMap_append] at htr ⊢
        rw [htr]
        simp

theorem comms_thread_tally_idle (env : CommsEnv) (plugin : Plugin) (sock : List Nat)
    (prevBattery : Int) (hq : plugin.comms_queue = []) :
    (comms_thread_tally env plugin sock prevBattery).1.comms_queue = [] ∧
    tally_requests (comms_thread_tally env plugin sock prevBattery).1.trace =
      tally_requests plugin.trace := by
  rw [comms_thread_tally_eq, hq, comms_drain_nil]
  exact ⟨rfl, rfl⟩

theorem comms_thread_poll_idle (DROIDCAM_OVERRIDE : Bool) (env : CommsEnv) (plugin : Plugin)
    (sock : List Nat) (prevBattery : Int) (hq : plugin.comms_queue = []) :
    (comms_thread_poll DROIDCAM_OVERRIDE env plugin sock prevBattery).1.comms_queue = [] ∧
    tally_requests (comms_thread_poll DROIDCAM_OVERRIDE env plugin sock prevBattery).1.trace =
      tally_requests plugin.trace := by
  unfold comms_thread_poll
  split_ifs
  · cases env.batt_level with
    | none =>
      have h := comms_thread_tally_idle env (plugin.emit [Event.http_battery]) sock prevBattery hq
      exact ⟨h.1, h.2.trans (by simp [Plugin.emit, tally_requests])⟩
    | some level =>
      have h := comms_thread_tally_idle env
        ((plugin.emit [Event.http_battery]).emit
          [Event.signal_source_update (some level) (decide (prevBattery > 15 ∧ level ≤ 15))])
        sock level hq
      exact ⟨h.1, h.2.trans (by simp [Plugin.emit, tally_requests])⟩
  · exact ⟨hq, by simp [Plugin.emit, tally_requests]⟩
  · exact comms_thread_tally_idle env plugin sock prevBattery hq

/-- A wake on an empty queue leaves it empty and sends no tally request. -/
theorem comms_thread_iter_idle (DROIDCAM_OVERRIDE : Bool) (env : CommsEnv) (plugin : Plugin)
    (sock : Option (List Nat)) (prevBattery : Int) (hq : plugin.comms_queue = []) :
    (comms_thread_iter DROIDCAM_OVERRIDE env plugin sock prevBattery).1.comms_queue = [] ∧
    tally_requests (comms_thread_iter DROIDCAM_OVERRIDE env plugin sock prevBattery).1.trace =
      tally_requests plugin.trace := by
  unfold comms_thread_iter
  simp only []
  by_cases hg : (plugin.activated && plugin.video_running) = true
  · rw [if_pos hg]
    cases sock with
    | some s =>
      exact comms_thread_poll_idle DROIDCAM_OVERRIDE env { plugin with comms_signal := false } s
        prevBattery hq
    | none =>
      simp only []
      have hf := connect_fields env.connect { plugin with comms_signal := false }
      have htr := connect_tally_requests env.connect { plugin with comms_signal := false }
      cases hcc : connect env.connect { plugin with comms_signal := false } with
      | mk s1 p0 =>
        rw [hcc] at hf htr
        simp only [] at hf htr
        have hq0 : p0.comms_queue = [] := by rw [hf]; exact hq
        cases s1 with
        | none => exact ⟨hq0, htr⟩
        | some s =>
          have h := comms_thread_poll_idle DROIDCAM_OVERRIDE env
            (p0.emit [Event.set_recv_timeout]) s prevBattery hq0
          refine ⟨h.1, h.2.trans ?_⟩
          rw [← htr]
          simp [Plugin.emit, tally_requests]
  · rw [if_neg hg]
    cases sock with
    | some s =>
      cases DROIDCAM_OVERRIDE with
      | true => exact ⟨hq, by simp [Plugin.emit, tally_requests]⟩
      | false => exact ⟨hq, by simp [Plugin.emit, tally_requests]⟩
    | none => exact ⟨hq, rfl⟩

/-- Wakes on an empty queue, with no trigger in between, send no tally
request. -/
theorem comms_thread_wakes_idle (DROIDCAM_OVERRIDE : Bool) (envs : List CommsEnv)
    (st : Plugin × Option (List Nat) × Int) (hq : st.1.comms_queue = []) :
    (comms_thread_wakes DROIDCAM_OVERRIDE envs st).1.comms_queue = [] ∧
    tally_requests (comms_thread_wakes DROIDCAM_OVERRIDE envs st).1.trace =
      tally_requests st.1.trace := by
  induction envs generalizing st with
  | nil => exact ⟨hq, rfl⟩
  | cons env envs ih =>
    have h := comms_thread_iter_idle DROIDCAM_OVERRIDE env st.1 st.2.1 st.2.2 hq
    have h2 := ih (comms_thread_iter DROIDCAM_OVERRIDE env st.1 st.2.1 st.2.2) h.1
    exact ⟨h2.1, h2.2.trans h.2⟩

/-! ## The audio ingest loop -/

/-- An `audio_thread` iteration written with `audio_thread_LOOP`. -/
theorem audio_thread_iter_eq (NO_PTS : Nat) (env : Env) (plugin : Plugin)
    (sock : Option (List Nat)) :
    audio_thread_iter NO_PTS env plugin sock =
      if plugin.activated && plugin.is_showing && plugin.enable_audio then
        if plugin.audio_running then
          if (do_audio_frame NO_PTS env plugin (sock_bytes sock)).1 then
            ((do_audio_frame NO_PTS env plugin (sock_bytes sock)).2.1,
             sock.map (fun _ => (do_audio_frame NO_PTS env plugin (sock_bytes sock)).2.2))
          else
            audio_thread_LOOP
              ({ (do_audio_frame NO_PTS env plugin (sock_bytes sock)).2.1 with
                 audio_running := false }.emit
                [Event.net_close, Event.os_sleep_ms (MILLI_SEC * 2)]) none
        else if !plugin.video_running then
          audio_thread_LOOP plugin sock
        else
          match connect env (plugin.emit [Event.os_sleep_ms MILLI_SEC]) with
          | (none, plugin1) =>
            audio_thread_LOOP (plugin1.emit [Event.os_sleep_ms (MILLI_SEC * 2)]) none
          | (some s, plugin1) =>
            if !env.send_ok then
              audio_thread_LOOP
                ((plugin1.emit [Event.net_send_audio_req]).emit
                  [Event.net_close, Event.os_sleep_ms (MILLI_SEC * 2)]) none
            else
              ({ plugin1.emit [Event.net_send_audio_req] with audio_running := true }, some s)
      else
        audio_thread_LOOP
          (if plugin.audio_running then { plugin with audio_running := false } else plugin)
          sock := by
  rfl

theorem audio_thread_LOOP_facts (plugin : Plugin) (sock : Option (List Nat)) :
    (audio_thread_LOOP plugin sock).1.audio_running = plugin.audio_running ∧
    connect_attempts (audio_thread_LOOP plugin sock).1.trace = connect_attempts plugin.trace ∧
    (audio_thread_LOOP plugin sock).2 = none := by
  unfold audio_thread_LOOP
  simp only [Plugin.emit, connect_attempts]
  split_ifs <;> simp

/-! ## The decode worker on one packet -/

/-- The calls the decode worker makes on a pulled packet, and the failed flag it
leaves. -/
theorem video_decode_packet_events (env : Env) (d : Decoder) (p : DataPacket) :
    (video_decode_packet env d p).2 =
      (if d.failed then []
       else if env.decode_ok then
         (if env.got_output then
            [Event.decode_video, Event.output_video (some (p.pts * 1000 % 2 ^ 64))]
          else [Event.decode_video])
       else [Event.decode_video]) ∧
    (video_decode_packet env d p).1.failed = (d.failed || !env.decode_ok) := by
  unfold video_decode_packet
  cases hf : d.failed <;> cases hok : env.decode_ok <;> cases hout : env.got_output <;>
    simp [Decoder.push_empty_packet, hf]

theorem comms_thread_tally_connection (env : CommsEnv) (plugin : Plugin) (sock : List Nat)
    (prevBattery : Int) :
    connect_attempts (comms_thread_tally env plugin sock prevBattery).1.trace =
      connect_attempts plugin.trace ∧
    ((comms_thread_tally env plugin sock prevBattery).2.1 = some sock ∨
      (comms_thread_tally env plugin sock prevBattery).2.1 = none) ∧
    (env.tally_http > 0 → (comms_thread_tally env plugin sock prevBattery).2.1 = some sock) := by
  rw [comms_thread_tally_eq]
  split
  · exact ⟨rfl, Or.inl rfl, fun _ => rfl⟩
  · by_cases hh : env.tally_http > 0
    · rw [if_pos hh]
      exact ⟨by simp [connect_attempts], Or.inl rfl, fun _ => rfl⟩
    · rw [if_neg hh]
      by_cases he : env.errno ≠ 0
      · rw [if_pos he]
        exact ⟨by simp [connect_attempts], Or.inr rfl, fun h => absurd h hh⟩
      · rw [if_neg he]
        exact ⟨by simp [connect_attempts], Or.inr rfl, fun h => absurd h hh⟩

theorem comms_thread_poll_connection (DROIDCAM_OVERRIDE : Bool) (env : CommsEnv)
    (plugin : Plugin) (sock : List Nat) (prevBattery : Int) :
    connect_attempts (comms_thread_poll DROIDCAM_OVERRIDE env plugin sock prevBattery).1.trace =
      connect_attempts plugin.trace ∧
    ((comms_thread_poll DROIDCAM_OVERRIDE env plugin sock prevBattery).2.1 = some sock ∨
      (comms_thread_poll DROIDCAM_OVERRIDE env plugin sock prevBattery).2.1 = none) ∧
    (env.batt_http > 0 → env.tally_http > 0 →
      (comms_thread_poll DROIDCAM_OVERRIDE env plugin sock prevBattery).2.1 = some sock) := by
  unfold comms_thread_poll
  by_cases ht : (env.timed_out && DROIDCAM_OVERRIDE) = true
  · rw [if_pos ht]
    simp only []
    by_cases hb : env.batt_http > 0
    · rw [if_pos hb]
      cases env.batt_level with
      | none =>
        obtain ⟨h1, h2, h3⟩ := comms_thread_tally_connection env
          (plugin.emit [Event.http_battery]) sock prevBattery
        exact ⟨h1.trans (by simp [Plugin.emit, connect_attempts]), h2, fun _ h => h3 h⟩
      | some level =>
        obtain ⟨h1, h2, h3⟩ := comms_thread_tally_connection env
          ((plugin.emit [Event.http_battery]).emit
            [Event.signal_source_update (some level) (decide (prevBattery > 15 ∧ level ≤ 15))])
          sock level
        exact ⟨h1.trans (by simp [Plugin.emit, connect_attempts]), h2, fun _ h => h3 h⟩
    · rw [if_neg hb]
      exact ⟨by simp [Plugin.emit, connect_attempts], Or.inr rfl, fun h => absurd h hb⟩
  · rw [if_neg ht]
    obtain ⟨h1, h2, h3⟩ := comms_thread_tally_connection env plugin sock prevBattery
    exact ⟨h1, h2, fun _ h => h3 h⟩

theorem comms_thread_iter_on_some (DROIDCAM_OVERRIDE : Bool) (env : CommsEnv)
    (plugin : Plugin) (s : List Nat) (prevBattery : Int)
    (hg : (plugin.activated && plugin.video_running) = true) :
    comms_thread_iter DROIDCAM_OVERRIDE env plugin (some s) prevBattery =
      comms_thread_poll DROIDCAM_OVERRIDE env { plugin with comms_signal := false } s
        prevBattery := by
  unfold comms_thread_iter
  simp only []
  rw [if_pos hg]

theorem comms_thread_iter_on_none (DROIDCAM_OVERRIDE : Bool) (env : CommsEnv)
    (plugin : Plugin) (prevBattery : Int)
    (hg : (plugin.activated && plugin.video_running) = true) :
    comms_thread_iter DROIDCAM_OVERRIDE env plugin none prevBattery =
      match (connect env.connect { plugin with comms_signal := false }).1 with
      | none => ((connect env.connect { plugin with comms_signal := false }).2, none, prevBattery)
      | some s =>
        comms_thread_poll DROIDCAM_OVERRIDE env
          ((connect env.connect { plugin with comms_signal := false }).2.emit
            [Event.set_recv_timeout]) s prevBattery := by
  unfold comms_thread_iter
  simp only []
  rw [if_pos hg]
  cases hcc : connect env.connect { plugin with comms_signal := false } with
  | mk s1 p0 => cases s1 <;> rfl

theorem comms_thread_iter_off_some (DROIDCAM_OVERRIDE : Bool) (env : CommsEnv)
    (plugin : Plugin) (s : List Nat) (prevBattery : Int)
    (hg : ¬(plugin.activated && plugin.video_running) = true) :
    comms_thread_iter DROIDCAM_OVERRIDE env plugin (some s) prevBattery =
      ({ plugin with
         comms_signal := false,
         trace := plugin.trace ++
           (if DROIDCAM_OVERRIDE then [Event.signal_source_update none false, Event.net_close]
            else [Event.net_close]) },
       none, if DROIDCAM_OVERRIDE then 100 else prevBattery) := by
  unfold comms_thread_iter
  simp only []
  rw [if_neg hg]
  cases DROIDCAM_OVERRIDE <;> rfl

theorem comms_thread_iter_off_none (DROIDCAM_OVERRIDE : Bool) (env : CommsEnv)
    (plugin : Plugin) (prevBattery : Int)
    (hg : ¬(plugin.activated && plugin.video_running) = true) :
    comms_thread_iter DROIDCAM_OVERRIDE env plugin none prevBattery =
      ({ plugin with comms_signal := false }, none, prevBattery) := by
  unfold comms_thread_iter
  simp only []
  rw [if_neg hg]

/-! ## The reset signal -/

theorem recv_video_frame_reset_signal (NO_PTS : Nat) (env : Env) (plugin : Plugin)
    (sock : List Nat) :
    (recv_video_frame NO_PTS env plugin sock).2.1.reset_signal = plugin.reset_signal := by
  unfold recv_video_frame
  simp only []
  split
  · rfl
  · split_ifs <;> first | rfl | (split <;> rfl)

theorem video_decode_thread_step_reset_signal (env : Env) (plugin : Plugin)
    (data_packet : Option DataPacket) :
    (video_decode_thread_step env plugin data_packet).1.reset_signal = plugin.reset_signal := by
  unfold video_decode_thread_step
  split
  · split
    · split
      · rfl
      · split <;> rfl
    · rfl
  · split <;> rfl

theorem video_decode_thread_run_reset_signal (envs : List Env) (plugin : Plugin)
    (data_packet : Option DataPacket) :
    (video_decode_thread_run plugin data_packet envs).1.reset_signal = plugin.reset_signal := by
  induction envs generalizing plugin data_packet with
  | nil => rfl
  | cons env envs ih =>
    unfold video_decode_thread_run
    rw [ih, video_decode_thread_step_reset_signal]

theorem video_thread_wait_reset_signal (sched : List EnvAct) (plugin : Plugin)
    (data_packet : Option DataPacket) (r : Plugin × Option DataPacket)
    (h : video_thread_wait plugin data_packet sched = some r) :
    r.1.reset_signal = plugin.reset_signal := by
  induction sched generalizing plugin data_packet with
  | nil =>
    unfold video_thread_wait at h
    split at h
    · cases h
    · cases h; rfl
  | cons a rest ih =>
    unfold video_thread_wait at h
    split at h
    · rw [ih _ _ h]
      simp [EnvAct.apply, video_decode_thread_run_reset_signal, Plugin.emit]
    · cases h; rfl

/-- The `LOOP` part of a `video_thread` iteration leaves the reset signal as it
is. -/
theorem video_thread_LOOP_reset_signal (sched : List EnvAct) (plugin : Plugin)
    (sock : Option (List Nat)) (data_packet : Option DataPacket)
    (r : Plugin × Option (List Nat) × Option DataPacket)
    (h : video_thread_LOOP sched plugin sock data_packet = some r) :
    r.1.reset_signal = plugin.reset_signal := by
  unfold video_thread_LOOP at h
  simp only [Option.map_eq_some'] at h
  obtain ⟨p1, hw, hp⟩ := h
  subst hp
  have h2 : ∀ q : Plugin, q.reset_signal = plugin.reset_signal →
      (if sock.isSome then q.emit [Event.net_close] else q).reset_signal =
        plugin.reset_signal := by
    intro q hq
    split_ifs
    · exact hq
    · exact hq
  have h1 : (if plugin.video_running then { plugin with video_running := false }
      else plugin).reset_signal = plugin.reset_signal := by
    split_ifs <;> rfl
  have h12 := h2 _ h1
  generalize (if sock.isSome then
      (if plugin.video_running then { plugin with video_running := false }
        else plugin).emit [Event.net_close]
      else (if plugin.video_running then { plugin with video_running := false }
        else plugin)) = q2 at hw h12
  simp only [Plugin.emit]
  cases hd : q2.video_decoder with
  | none =>
    rw [hd] at hw
    simp only [Option.some.injEq] at hw
    subst hw
    exact h12
  | some decoder =>
    rw [hd] at hw
    simp only [Option.map_eq_some'] at hw
    obtain ⟨w, hw1, hw2⟩ := hw
    subst hw2
    have := video_thread_wait_reset_signal _ _ _ w hw1
    simp only [Plugin.emit]
    rw [this]
    split_ifs
    · exact h12
    · exact h12

/-- The head of a `video_thread` iteration when the stream is running and the
reset signal is set. -/
theorem video_thread_head_reset (NO_PTS : Nat) (env : Env) (plugin : Plugin)
    (sock : Option (List Nat)) (hact : plugin.activated = true)
    (hshow : plugin.is_showing = true) (hrun : plugin.video_running = true)
    (hreset : plugin.reset_signal = true) :
    video_thread_head NO_PTS env plugin sock =
      (false,
       { plugin with
         video_running := false,
         trace := plugin.trace ++ [Event.net_close, Event.os_sleep_ms 2000] },
       none) := by
  have hg : (plugin.activated && plugin.is_showing) = true := by rw [hact, hshow]; rfl
  have hn : ¬((!plugin.reset_signal &&
      (recv_video_frame NO_PTS env plugin (sock_bytes sock)).1) = true) := by
    rw [hreset]; simp
  unfold video_thread_head
  simp only []
  rw [if_pos hg, if_pos hrun, if_neg hn, if_pos hreset]
  rfl

/-- The head of a `video_thread` iteration when the stream is not running. -/
theorem video_thread_head_connect (NO_PTS : Nat) (env : Env) (plugin : Plugin)
    (sock : Option (List Nat)) (hact : plugin.activated = true)
    (hshow : plugin.is_showing = true) (hrun : plugin.video_running = false) :
    video_thread_head NO_PTS env plugin sock =
      match (connect env plugin).1 with
      | none => (false, (connect env plugin).2.emit [Event.os_sleep_ms (MILLI_SEC * 2)], none)
      | some s =>
        if !env.send_ok then
          (false,
           (connect env plugin).2.emit
             [Event.net_send_video_req plugin.video_format plugin.video_resolution
                (connect env plugin).2.usb_port,
              Event.net_close, Event.os_sleep_ms (MILLI_SEC * 2)],
           none)
        else
          (true,
           { (connect env plugin).2 with
             video_running := true, reset_signal := false,
             trace := (connect env plugin).2.trace ++
               [Event.net_send_video_req plugin.video_format plugin.video_resolution
                  (connect env plugin).2.usb_port, Event.set_recv_buf_len] ++
               (if (if plugin.device_info.type = DeviceType.ADB ∨
                      plugin.device_info.type = DeviceType.IOS
                    then (connect env plugin).2.usb_port else plugin.device_info.port) > 0
                then
                  [Event.set_remote_url
                    (if plugin.device_info.type = DeviceType.ADB ∨
                      plugin.device_info.type = DeviceType.IOS
                    then (connect env plugin).2.usb_port else plugin.device_info.port)]
                else []) },
           some s) := by
  have hg : (plugin.activated && plugin.is_showing) = true := by rw [hact, hshow]; rfl
  have hnr : ¬plugin.video_running = true := by rw [hrun]; decide
  have hf := connect_fields env plugin
  unfold video_thread_head
  simp only []
  rw [if_pos hg, if_neg hnr]
  cases hcc : connect env plugin with
  | mk s1 p0 =>
    rw [hcc] at hf
    simp only [] at hf
    have h1 : p0.video_format = plugin.video_format := by rw [hf]
    have h2 : p0.video_resolution = plugin.video_resolution := by rw [hf]
    have h3 : p0.device_info = plugin.device_info := by rw [hf]
    cases s1 with
    | none => rfl
    | some s =>
      simp only [Plugin.emit]
      rw [h1, h2, h3]
      by_cases hs : (!env.send_ok) = true
      · rw [if_pos hs, if_pos hs]
        simp
      · rw [if_neg hs, if_neg hs]
        split_ifs <;> simp

/-- The `LOOP` part of an `audio_thread` iteration, call by call. -/
theorem audio_thread_LOOP_eq (plugin : Plugin) (sock : Option (List Nat)) :
    audio_thread_LOOP plugin sock =
      ({ plugin with
         audio_decoder := none,
         trace := plugin.trace ++ (if sock.isSome then [Event.net_close] else []) ++
           (if plugin.audio_decoder.isSome then [Event.delete_audio_decoder] else []) ++
           (if plugin.enable_audio then [Event.output_audio none] else []) ++
           [Event.os_sleep_ms 40] }, none) := by
  unfold audio_thread_LOOP
  simp only [Plugin.emit]
  by_cases hs : sock.isSome = true <;> by_cases hd : plugin.audio_decoder.isSome = true <;>
    by_cases he : plugin.enable_audio = true <;>
    simp only [hs, hd, he, if_true, if_false, Bool.false_eq_true, List.append_nil,
      List.append_assoc, MILLI_SEC, FPS, Nat.reduceDiv] <;>
    first
    | rfl
    | (have hn : plugin.audio_decoder = none := by simpa using hd
       simp [hn, he])

/-! ## The sleeps of the video ingest loop -/

/-- The head of a `video_thread` iteration whose frame read fails. -/
theorem video_thread_head_read_fails (NO_PTS : Nat) (env : Env) (plugin : Plugin)
    (sock : Option (List Nat)) (hact : plugin.activated = true)
    (hshow : plugin.is_showing = true) (hrun : plugin.video_running = true)
    (hreset : plugin.reset_signal = false)
    (hread : (recv_video_frame NO_PTS env plugin (sock_bytes sock)).1 = false) :
    video_thread_head NO_PTS env plugin sock =
      (false,
       { (recv_video_frame NO_PTS env plugin (sock_bytes sock)).2.1 with
         video_running := false,
         trace := (recv_video_frame NO_PTS env plugin (sock_bytes sock)).2.1.trace ++
           [Event.net_close, Event.os_sleep_ms 2000] },
       none) := by
  have hg : (plugin.activated && plugin.is_showing) = true := by rw [hact, hshow]; rfl
  have hn : ¬((!plugin.reset_signal &&
      (recv_video_frame NO_PTS env plugin (sock_bytes sock)).1) = true) := by
    rw [hread]; simp
  have hr : ¬plugin.reset_signal = true := by rw [hreset]; decide
  unfold video_thread_head
  simp only []
  rw [if_pos hg, if_pos hrun, if_neg hn, if_neg hr]
  rfl

/-- The head of a `video_thread` iteration of a session that is not activated
and visible. -/
theorem video_thread_head_idle (NO_PTS : Nat) (env : Env) (plugin : Plugin)
    (sock : Option (List Nat)) (hoff : (plugin.activated && plugin.is_showing) = false) :
    video_thread_head NO_PTS env plugin sock = (false, plugin, sock) := by
  have hg : ¬(plugin.activated && plugin.is_showing) = true := by rw [hoff]; decide
  unfold video_thread_head
  rw [if_neg hg]

/-- The `LOOP` part of a `video_thread` iteration ends with the null frame and
the idle sleep. -/
theorem video_thread_LOOP_sleep (sched : List EnvAct) (plugin : Plugin)
    (sock : Option (List Nat)) (data_packet : Option DataPacket)
    (r : Plugin × Option (List Nat) × Option DataPacket)
    (h : video_thread_LOOP sched plugin sock data_packet = some r) :
    [Event.output_video none, Event.os_sleep_ms 40] <:+ r.1.trace := by
  unfold video_thread_LOOP at h
  simp only [Option.map_eq_some'] at h
  obtain ⟨p1, -, hp⟩ := h
  subst hp
  exact ⟨p1.1.trace, rfl⟩

/-! ## Activation and the device descriptor -/

theorem resolve_device_type_fields (env : Env) (device_info : active_device_info) :
    (resolve_device_type env device_info).id = device_info.id ∧
    (resolve_device_type env device_info).port = device_info.port ∧
    (resolve_device_type env device_info).type ≠ DeviceType.WIFI := by
  unfold resolve_device_type
  split
  · exact ⟨rfl, rfl, by simp⟩
  · split
    · split_ifs
      · exact ⟨rfl, rfl, by simp⟩
      · exact ⟨rfl, rfl, by simp⟩
    · split
      · exact ⟨rfl, rfl, by simp⟩
      · exact ⟨rfl, rfl, by simp⟩

/-- The last step of `connect_clicked` activates only on a descriptor whose kind
is not `NONE`, and then stores that descriptor. -/
theorem connect_clicked_activate_post (settings : Settings) (plugin : Plugin)
    (device_info : active_device_info) (hoff : plugin.activated = false)
    (h : (connect_clicked_activate settings plugin device_info).1.activated = true) :
    device_info.type ≠ DeviceType.NONE ∧
    (connect_clicked_activate settings plugin device_info).1.device_info = device_info ∧
    (connect_clicked_activate settings plugin device_info).2.OPT_IS_ACTIVATED = true := by
  unfold connect_clicked_activate at h ⊢
  by_cases ht : device_info.type = DeviceType.NONE
  · rw [if_pos ht] at h
    rw [hoff] at h
    cases h
  · rw [if_neg ht]
    exact ⟨ht, rfl, rfl⟩

/-- What `source_create` returns for a source that is not a dummy. -/
theorem source_create_eq (DROIDCAM_OVERRIDE : Bool) (settings : Settings) (threads_ok : Bool)
    (hd : settings.OPT_DUMMY_SOURCE = false) (p : Plugin)
    (h : (source_create DROIDCAM_OVERRIDE settings threads_ok).1 = some p) :
    threads_ok = true ∧
    (settings.OPT_IS_ACTIVATED = true → p.device_info = active_device settings) ∧
    p.activated =
      (settings.OPT_IS_ACTIVATED &&
        !decide ((active_device settings).type = DeviceType.NONE
          ∨ (active_device settings).port ≤ 0 ∨ (active_device settings).port > 65535
          ∨ (active_device settings).id = "") &&
        !decide ((active_device settings).type = DeviceType.WIFI ∧
          (active_device settings).ip = "")) := by
  unfold source_create at h
  simp only [hd, Bool.false_eq_true, if_false] at h
  cases ht : threads_ok with
  | false =>
    rw [ht] at h
    simp at h
  | true =>
    rw [ht] at h
    simp only [if_true, Option.some.injEq] at h
    subst h
    generalize active_device settings = info
    refine ⟨rfl, ?_, ?_⟩
    · intro hf
      simp only [hf, if_true]
      split_ifs <;> rfl
    · cases hf : settings.OPT_IS_ACTIVATED
      · simp
      · simp only [if_true, Bool.true_and]
        by_cases h1 : info.type = DeviceType.NONE ∨ info.port ≤ 0 ∨ info.port > 65535
            ∨ info.id = ""
        · rw [if_pos h1]
          simp only [h1, decide_True, Bool.not_true, Bool.false_and]
          split_ifs <;> rfl
        · rw [if_neg h1]
          simp only [h1, decide_False, Bool.not_false, Bool.true_and]
          by_cases h2 : info.type = DeviceType.WIFI ∧ info.ip = ""
          · rw [if_pos h2]
            simp [h2]
          · rw [if_neg h2]
            simp [h2, hf]

/-- A click that finds the session deactivated leaves it activated only with a
checked descriptor, and then sets the persisted flag. -/
theorem connect_clicked_activated_valid (DROIDCAM_OVERRIDE ENABLE_GUI : Bool)
    (RESOLUTION_1080 : Int) (opt_use_wifi : String) (env : Env) (settings : Settings)
    (plugin : Plugin) (hoff : plugin.activated = false)
    (h : (connect_clicked DROIDCAM_OVERRIDE ENABLE_GUI RESOLUTION_1080 opt_use_wifi env settings
      plugin).1.activated = true) :
    (connect_clicked DROIDCAM_OVERRIDE ENABLE_GUI RESOLUTION_1080 opt_use_wifi env settings
      plugin).1.device_info.type ≠ DeviceType.NONE ∧
    1 ≤ (connect_clicked DROIDCAM_OVERRIDE ENABLE_GUI RESOLUTION_1080 opt_use_wifi env settings
      plugin).1.device_info.port ∧
    (connect_clicked DROIDCAM_OVERRIDE ENABLE_GUI RESOLUTION_1080 opt_use_wifi env settings
      plugin).1.device_info.port ≤ 65535 ∧
    (connect_clicked DROIDCAM_OVERRIDE ENABLE_GUI RESOLUTION_1080 opt_use_wifi env settings
      plugin).1.device_info.id ≠ "" ∧
    ((connect_clicked DROIDCAM_OVERRIDE ENABLE_GUI RESOLUTION_1080 opt_use_wifi env settings
      plugin).1.device_info.type = DeviceType.WIFI →
      (connect_clicked DROIDCAM_OVERRIDE ENABLE_GUI RESOLUTION_1080 opt_use_wifi env settings
        plugin).1.device_info.ip ≠ "") ∧
    (connect_clicked DROIDCAM_OVERRIDE ENABLE_GUI RESOLUTION_1080 opt_use_wifi env settings
      plugin).2.OPT_IS_ACTIVATED = true := by
  unfold connect_clicked at h ⊢
  simp only [] at h ⊢
  by_cases hflag : settings.OPT_IS_ACTIVATED = true
  · rw [if_pos hflag] at h
    cases h
  rw [if_neg hflag] at h ⊢
  by_cases hgui : (ENABLE_GUI || DROIDCAM_OVERRIDE) = true ∧
      settings.OPT_VIDEO_FORMAT = VideoFormat.FORMAT_MJPG ∧
      to_int settings.OPT_RESOLUTION > RESOLUTION_1080
  · rw [if_pos hgui] at h
    rw [hoff] at h
    cases h
  rw [if_neg hgui] at h ⊢
  by_cases hid : c_str settings.OPT_DEVICE_LIST = ""
  · rw [if_pos hid] at h
    rw [hoff] at h
    cases h
  rw [if_neg hid] at h ⊢
  by_cases hport : to_int settings.OPT_APP_PORT ≤ 0 ∨ to_int settings.OPT_APP_PORT > 65535
  · rw [if_pos hport] at h
    rw [hoff] at h
    cases h
  rw [if_neg hport] at h ⊢
  have hp1 : 1 ≤ to_int settings.OPT_APP_PORT := by omega
  have hp2 : to_int settings.OPT_APP_PORT ≤ 65535 := by omega
  by_cases hw : opt_use_wifi.toList.isPrefixOf (c_str settings.OPT_DEVICE_LIST).toList = true
  · rw [if_pos hw] at h ⊢
    by_cases hip : c_str settings.OPT_WIFI_IP = ""
    · rw [if_pos hip] at h
      rw [hoff] at h
      cases h
    rw [if_neg hip] at h ⊢
    by_cases h4k : DROIDCAM_OVERRIDE = false ∧
        (c_str settings.OPT_WIFI_IP = "4k" ∨ c_str settings.OPT_WIFI_IP = "4K")
    · rw [if_pos h4k] at h
      rw [hoff] at h
      cases h
    rw [if_neg h4k] at h ⊢
    obtain ⟨h1, h2, h3⟩ := connect_clicked_activate_post settings plugin _ hoff h
    rw [h2]
    exact ⟨h1, hp1, hp2, hid, fun _ => hip, h3⟩
  · rw [if_neg hw] at h ⊢
    obtain ⟨h1, h2, h3⟩ := connect_clicked_activate_post settings plugin _ hoff h
    obtain ⟨r1, r2, r3⟩ := resolve_device_type_fields env
      { id := c_str settings.OPT_DEVICE_LIST, ip := plugin.device_info.ip,
        port := to_int settings.OPT_APP_PORT, type := DeviceType.NONE }
    rw [h2]
    refine ⟨h1, ?_, ?_, ?_, fun hwifi => absurd hwifi r3, h3⟩
    · rw [r2]; exact hp1
    · rw [r2]; exact hp2
    · rw [r1]; exact hid

/-- A click with the persisted activation flag set deactivates. -/
theorem connect_clicked_deactivates_eq (DROIDCAM_OVERRIDE ENABLE_GUI : Bool)
    (RESOLUTION_1080 : Int) (opt_use_wifi : String) (env : Env) (settings : Settings)
    (plugin : Plugin) (hflag : settings.OPT_IS_ACTIVATED = true) :
    connect_clicked DROIDCAM_OVERRIDE ENABLE_GUI RESOLUTION_1080 opt_use_wifi env settings
        plugin =
      ({ plugin with usb_port := 0, activated := false },
       { settings with OPT_IS_ACTIVATED := false }) := by
  unfold connect_clicked
  simp only []
  rw [if_pos hflag]

/-- The session `Plugin.created` is what `source_create` returns for settings in
which every option is off. -/
theorem source_create_none_set :
    source_create false Settings.none_set true = (some Plugin.created, Settings.none_set) := by
  rfl

/-! # The claims -/

/-- C1: a configuration blob `c` followed by a sample `s` with timestamp `ts`
yields one packet holding `c` then `s`, in one pool buffer requested with
size `|c| + |s|`, with `has_config` set to 1; a sample alone yields a packet
holding `s`, with `has_config` unchanged. -/
theorem read_frame_config_then_sample (NO_PTS ts : Nat) (c s rest : List Nat) (d : Decoder)
    (hc : Int) (hN : NO_PTS < 2 ^ 64) (hts : ts < 2 ^ 64) (hne : ts ≠ NO_PTS)
    (hc1 : 1 ≤ c.length) (hc2 : c.length ≤ 1024)
    (hs1 : 1 ≤ s.length) (hs2 : s.length ≤ 16777216) :
    (∃ pkt,
      read_frame NO_PTS d
          (header NO_PTS c.length ++ c ++ header ts s.length ++ s ++ rest) hc =
        ⟨some pkt, (d.pull_empty_packet (c.length + s.length)).2, rest, 1,
          [(12, 12), (c.length, c.length), (12, 12), (s.length, s.length)]⟩ ∧
      (d.pull_empty_packet (c.length + s.length)).2.log =
        d.log ++ [PoolOp.pull_empty (c.length + s.length)] ∧
      pkt.used = c.length + s.length ∧ pkt.data.take c.length = c ∧
      (pkt.data.drop c.length).take s.length = s ∧ pkt.pts = ts) ∧
    (∃ pkt,
      read_frame NO_PTS d (header ts s.length ++ s ++ rest) hc =
        ⟨some pkt, (d.pull_empty_packet s.length).2, rest, hc, [(12, 12), (s.length, s.length)]⟩ ∧
      (d.pull_empty_packet s.length).2.log = d.log ++ [PoolOp.pull_empty s.length] ∧
      pkt.used = s.length ∧ pkt.data.take pkt.used = s ∧ pkt.pts = ts) := by
  have hcl : c.length < 2 ^ 32 := by omega
  have hsl : s.length < 2 ^ 32 := by omega
  have hc0 : c.length ≠ 0 := by omega
  have hs0 : s.length ≠ 0 := by omega
  have hcap := pull_empty_packet_capacity d (c.length + s.length)
  have hcap0 := pull_empty_packet_capacity d (0 + s.length)
  constructor
  · refine ⟨⟨write_at (write_at (d.pull_empty_packet (c.length + s.length)).1.data 0 c)
      c.length s, c.length + s.length, ts⟩, ?_, pull_empty_packet_log d _, ?_⟩
    · simp only [List.append_assoc]
      rw [read_frame, read_frame_AGAIN_header NO_PTS d NO_PTS c.length _ _ _ _ hN hcl]
      simp only [if_true, ne_eq, not_true_eq_false, if_false, take_append_self, drop_append_self,
        MAXCONFIG]
      rw [if_neg (by omega), if_neg (by omega),
        read_frame_AGAIN_header NO_PTS d ts s.length _ _ _ _ hts hsl]
      simp only [if_neg hne, ne_eq, take_append_self, drop_append_self, not_true_eq_false,
        if_false, MAXPACKET, if_neg hc0, List.take_length]
      rw [if_neg (by omega)]
      have hcne : c ≠ [] := fun h => hc0 (by simp [h])
      simp [hcne]
    · have h1 : (write_at (d.pull_empty_packet (c.length + s.length)).1.data 0 c).length =
          (d.pull_empty_packet (c.length + s.length)).1.data.length :=
        write_at_length _ _ _ (by omega)
      refine ⟨rfl, ?_, ?_, rfl⟩
      · show (write_at _ c.length s).take c.length = c
        rw [write_at_take _ _ _ (by omega)]
        have := write_at_drop_take (d.pull_empty_packet (c.length + s.length)).1.data 0 c
          (by omega)
        simpa using this
      · exact write_at_drop_take _ _ _ (by omega)
  · refine ⟨⟨write_at (d.pull_empty_packet (0 + s.length)).1.data 0 s, 0 + s.length, ts⟩, ?_,
      pull_empty_packet_log d _, ?_⟩
    · simp only [List.append_assoc]
      rw [read_frame, read_frame_AGAIN_header NO_PTS d ts s.length _ _ _ _ hts hsl]
      simp only [if_neg hne, ne_eq, take_append_self, drop_append_self, not_true_eq_false,
        if_false, MAXPACKET, if_true]
      rw [if_neg (by omega)]
      simp
    · refine ⟨by simp, ?_, rfl⟩
      have := write_at_drop_take (d.pull_empty_packet (0 + s.length)).1.data 0 s (by omega)
      simpa using this

/-- Witness for C1: a 500-byte configuration blob and a 2000-byte sample with
timestamp 1000 give one packet with used length 2500. -/
theorem read_frame_config_then_sample_witness :
    (List.replicate 500 7).length = 500 ∧ (List.replicate 2000 9).length = 2000 ∧
    (read_frame (2 ^ 64 - 1) Decoder.fresh
      (header (2 ^ 64 - 1) 500 ++ List.replicate 500 7 ++ header 1000 2000 ++
        List.replicate 2000 9 ++ []) 0).packet.map (fun p => (p.used, p.pts)) =
      some (2500, 1000) := by
  have h := (read_frame_config_then_sample (2 ^ 64 - 1) 1000 (List.replicate 500 7)
    (List.replicate 2000 9) [] Decoder.fresh 0 (by norm_num) (by norm_num) (by norm_num)
    (by rw [List.length_replicate]; norm_num) (by rw [List.length_replicate]; norm_num)
    (by rw [List.length_replicate]; norm_num) (by rw [List.length_replicate]; norm_num)).1
  obtain ⟨pkt, h1, _, h3, _, _, h6⟩ := h
  simp only [List.length_replicate] at h1 h3
  refine ⟨List.length_replicate _ _, List.length_replicate _ _, ?_⟩
  rw [h1]
  simp only [Option.map_some', h3, h6]

/-- C2: a sentinel-timestamp header with 32-bit length `L`, read while no
configuration is pending and with `L` further bytes available, is accepted
exactly when `0 < L ≤ 1024`: then `has_config` is set, the `L` bytes become
the pending configuration and parsing continues at the next header;
otherwise no packet is returned and nothing more is read. -/
theorem read_frame_config_accepted_iff (NO_PTS L : Nat) (rest : List Nat) (d : Decoder)
    (hN : NO_PTS < 2 ^ 64) (hL : L < 2 ^ 32) (havail : L ≤ rest.length) :
    ((read_frame NO_PTS d (header NO_PTS L ++ rest) 0).has_config = 1 ↔ 0 < L ∧ L ≤ 1024) ∧
    (0 < L ∧ L ≤ 1024 →
      read_frame NO_PTS d (header NO_PTS L ++ rest) 0 =
        { read_frame_AGAIN NO_PTS d (rest.drop L) (rest.take L) L 1 with
          recvs := [(12, 12), (L, L)] ++
            (read_frame_AGAIN NO_PTS d (rest.drop L) (rest.take L) L 1).recvs }) ∧
    (¬(0 < L ∧ L ≤ 1024) →
      read_frame NO_PTS d (header NO_PTS L ++ rest) 0 = ⟨none, d, rest, 0, [(12, 12)]⟩) := by
  have hin : 0 < L ∧ L ≤ 1024 →
      read_frame NO_PTS d (header NO_PTS L ++ rest) 0 =
        { read_frame_AGAIN NO_PTS d (rest.drop L) (rest.take L) L 1 with
          recvs := [(12, 12), (L, L)] ++
            (read_frame_AGAIN NO_PTS d (rest.drop L) (rest.take L) L 1).recvs } := by
    intro h
    have htake : (rest.take L).length = L := by simp; omega
    rw [read_frame, read_frame_AGAIN_header NO_PTS d NO_PTS L rest [] 0 0 hN hL]
    simp only [if_true, ne_eq, not_true_eq_false, if_false, MAXCONFIG, htake]
    rw [if_neg (by omega), if_neg (by omega)]
  have hout : ¬(0 < L ∧ L ≤ 1024) →
      read_frame NO_PTS d (header NO_PTS L ++ rest) 0 = ⟨none, d, rest, 0, [(12, 12)]⟩ := by
    intro h
    rw [read_frame, read_frame_AGAIN_header NO_PTS d NO_PTS L rest [] 0 0 hN hL]
    simp only [if_true, ne_eq, not_true_eq_false, if_false, MAXCONFIG]
    by_cases h1 : L = 2 ^ 32 - 1
    · rw [if_pos h1]
    · rw [if_neg h1, if_pos (by omega)]
  refine ⟨⟨fun h => ?_, fun h => ?_⟩, hin, hout⟩
  · by_contra hn
    rw [hout hn] at h
    simp at h
  · rw [hin h]
    exact read_frame_AGAIN_pending_has_config NO_PTS d _ _ L 1 (by omega)

end DroidCam

namespace DroidCam

/-- Witness for C2 at `L = 3`. -/
theorem read_frame_config_accepted_iff_witness :
    ((read_frame (2 ^ 64 - 1) Decoder.fresh (header (2 ^ 64 - 1) 3 ++ [1, 2, 3]) 0).has_config = 1
      ↔ 0 < 3 ∧ 3 ≤ 1024) :=
  (read_frame_config_accepted_iff (2 ^ 64 - 1) 3 [1, 2, 3] Decoder.fresh (by norm_num)
    (by norm_num) (by decide)).1

/-- C3: a media-sample header with 32-bit length `L`, with `L` further bytes
available and any pending configuration, yields a packet exactly when
`0 < L ≤ 16777216`; otherwise no packet is returned, the pool is untouched
and nothing more is read. -/
theorem read_frame_sample_accepted_iff (NO_PTS pts L : Nat) (rest config : List Nat)
    (config_len : Nat) (d : Decoder) (hc : Int)
    (hpts : pts < 2 ^ 64) (hne : pts ≠ NO_PTS) (hL : L < 2 ^ 32) (havail : L ≤ rest.length) :
    ((read_frame_AGAIN NO_PTS d (header pts L ++ rest) config config_len hc).packet.isSome = true
      ↔ 0 < L ∧ L ≤ 16777216) ∧
    (¬(0 < L ∧ L ≤ 16777216) →
      read_frame_AGAIN NO_PTS d (header pts L ++ rest) config config_len hc =
        ⟨none, d, rest, hc, [(12, 12)]⟩) := by
  have htake : (rest.take L).length = L := by simp; omega
  have hout : ¬(0 < L ∧ L ≤ 16777216) →
      read_frame_AGAIN NO_PTS d (header pts L ++ rest) config config_len hc =
        ⟨none, d, rest, hc, [(12, 12)]⟩ := by
    intro h
    rw [read_frame_AGAIN_header NO_PTS d pts L rest config config_len hc hpts hL, if_neg hne,
      if_pos (by simp only [MAXPACKET]; omega)]
  refine ⟨⟨fun h => ?_, fun h => ?_⟩, hout⟩
  · by_contra hn
    rw [hout hn] at h
    simp at h
  · rw [read_frame_AGAIN_header NO_PTS d pts L rest config config_len hc hpts hL, if_neg hne,
      if_neg (by simp only [MAXPACKET]; omega), if_neg (by simp [htake])]
    rfl

/-- Witness for C3 at `L = 2`, timestamp 1000. -/
theorem read_frame_sample_accepted_iff_witness :
    ((read_frame_AGAIN (2 ^ 64 - 1) Decoder.fresh (header 1000 2 ++ [7, 8]) [] 0 0).packet.isSome
      = true ↔ 0 < 2 ∧ 2 ≤ 16777216) :=
  (read_frame_sample_accepted_iff (2 ^ 64 - 1) 1000 2 [7, 8] [] 0 Decoder.fresh 0 (by norm_num)
    (by norm_num) (by norm_num) (by decide)).1

/-- C4: a sentinel-timestamp header whose length field is `0xFFFFFFFF` aborts
the read at any point of the loop: no packet, the pool untouched, and no
byte read after the header. -/
theorem read_frame_peer_stop (NO_PTS : Nat) (rest config : List Nat) (config_len : Nat)
    (d : Decoder) (hc : Int) (hN : NO_PTS < 2 ^ 64) :
    read_frame_AGAIN NO_PTS d (header NO_PTS (2 ^ 32 - 1) ++ rest) config config_len hc =
      ⟨none, d, rest, hc, [(12, 12)]⟩ := by
  rw [read_frame_AGAIN_header NO_PTS d NO_PTS (2 ^ 32 - 1) rest config config_len hc hN
    (by norm_num)]
  simp only [if_true]
  split_ifs <;> rfl

/-- Witness for C4 with the all-ones sentinel. -/
theorem read_frame_peer_stop_witness :
    read_frame_AGAIN (2 ^ 64 - 1) Decoder.fresh (header (2 ^ 64 - 1) (2 ^ 32 - 1) ++ [1, 2]) [] 0 0
      = ⟨none, Decoder.fresh, [1, 2], 0, [(12, 12)]⟩ :=
  read_frame_peer_stop (2 ^ 64 - 1) [1, 2] [] 0 Decoder.fresh 0 (by norm_num)

/-- C5: a valid configuration blob immediately followed by a second
sentinel-timestamp header aborts the read: no packet, the pool untouched,
and nothing read after the second header. -/
theorem read_frame_double_config (NO_PTS L2 : Nat) (c rest : List Nat) (d : Decoder) (hc : Int)
    (hN : NO_PTS < 2 ^ 64) (hc1 : 0 < c.length) (hc2 : c.length ≤ 1024) (hL2 : L2 < 2 ^ 32) :
    read_frame NO_PTS d (header NO_PTS c.length ++ c ++ header NO_PTS L2 ++ rest) hc =
      ⟨none, d, rest, 1, [(12, 12), (c.length, c.length), (12, 12)]⟩ := by
  have hcl : c.length < 2 ^ 32 := by omega
  simp only [List.append_assoc]
  rw [read_frame, read_frame_AGAIN_header NO_PTS d NO_PTS c.length _ _ _ _ hN hcl]
  simp only [if_true, ne_eq, not_true_eq_false, if_false, take_append_self, drop_append_self,
    MAXCONFIG]
  rw [if_neg (by omega), if_neg (by omega),
    read_frame_AGAIN_header NO_PTS d NO_PTS L2 _ _ _ _ hN hL2]
  simp only [if_true]
  rw [if_pos (by omega)]
  simp

/-- Witness for C5: a 2-byte configuration, then a second sentinel header. -/
theorem read_frame_double_config_witness :
    read_frame (2 ^ 64 - 1) Decoder.fresh
        (header (2 ^ 64 - 1) [5, 6].length ++ [5, 6] ++ header (2 ^ 64 - 1) 4 ++ [1, 2, 3, 4]) 0 =
      ⟨none, Decoder.fresh, [1, 2, 3, 4], 1, [(12, 12), ([5, 6].length, [5, 6].length), (12, 12)]⟩ :=
  read_frame_double_config (2 ^ 64 - 1) 4 [5, 6] [1, 2, 3, 4] Decoder.fresh 0 (by norm_num)
    (by decide) (by decide) (by norm_num)

/-- C6: on a stream where a receive of `read_frame` comes up short, `read_frame`
returns no packet, `recv_video_frame` and `do_audio_frame` return false, and
the iteration of the owning ingest loop clears the running flag and closes
the socket. -/
theorem short_read_closes_stream (NO_PTS : Nat) (sock : List Nat)
    (h : short_read NO_PTS sock = true) :
    (∀ d hc, (read_frame NO_PTS d sock hc).packet = none) ∧
    (∀ env plugin, (recv_video_frame NO_PTS env plugin sock).1 = false) ∧
    (∀ env plugin, (do_audio_frame NO_PTS env plugin sock).1 = false) ∧
    (∀ env plugin, plugin.activated = true → plugin.is_showing = true →
      plugin.video_running = true →
      (video_thread_head NO_PTS env plugin (some sock)).1 = false ∧
      (video_thread_head NO_PTS env plugin (some sock)).2.1.video_running = false ∧
      (video_thread_head NO_PTS env plugin (some sock)).2.2 = none ∧
      (video_thread_head NO_PTS env plugin (some sock)).2.1.trace =
        plugin.trace ++ [Event.net_close, Event.os_sleep_ms 2000] ∧
      ∀ sched w r, video_thread_iter NO_PTS env sched plugin (some sock) w = some r →
        r.1.video_running = false ∧ r.2.1 = none) ∧
    (∀ env plugin, plugin.activated = true → plugin.is_showing = true →
      plugin.enable_audio = true → plugin.audio_running = true →
      (audio_thread_iter NO_PTS env plugin (some sock)).1.audio_running = false ∧
      (audio_thread_iter NO_PTS env plugin (some sock)).2 = none ∧
      (audio_thread_iter NO_PTS env plugin (some sock)).1.trace =
        plugin.trace ++ [Event.net_close, Event.os_sleep_ms 2000, Event.delete_audio_decoder,
          Event.output_audio none, Event.os_sleep_ms 40]) := by
  have hnone := short_read_packet NO_PTS sock h
  have hhead : ∀ env plugin, plugin.activated = true → plugin.is_showing = true →
      plugin.video_running = true →
      (video_thread_head NO_PTS env plugin (some sock)).1 = false ∧
      (video_thread_head NO_PTS env plugin (some sock)).2.1.video_running = false ∧
      (video_thread_head NO_PTS env plugin (some sock)).2.2 = none ∧
      (video_thread_head NO_PTS env plugin (some sock)).2.1.trace =
        plugin.trace ++ [Event.net_close, Event.os_sleep_ms 2000] := by
    intro env plugin ha hs hr
    obtain ⟨h1, h2, _⟩ := recv_video_frame_of_none NO_PTS env plugin sock hnone
    unfold video_thread_head
    simp only [ha, hs, hr, Bool.and_self, if_true, sock_bytes, Option.getD_some, h1,
      Bool.and_false, Bool.false_eq_true, if_false, Plugin.emit, MILLI_SEC]
    refine ⟨trivial, trivial, trivial, ?_⟩
    split <;> simp [h2]
  refine ⟨hnone, fun env plugin => (recv_video_frame_of_none NO_PTS env plugin sock hnone).1,
    fun env plugin => by rw [do_audio_frame_of_none NO_PTS env plugin sock hnone], ?_, ?_⟩
  · intro env plugin ha hs hr
    obtain ⟨h1, h2, h3, h4⟩ := hhead env plugin ha hs hr
    refine ⟨h1, h2, h3, h4, ?_⟩
    intro sched w r hit
    unfold video_thread_iter at hit
    split at hit
    · rename_i heq
      rw [heq] at h1
      cases h1
    · obtain ⟨hv, hs', _⟩ := video_thread_LOOP_closed _ _ _ _ _ hit
      exact ⟨hv, hs'⟩
  · intro env plugin ha hs he hr
    unfold audio_thread_iter
    simp only [ha, hs, he, hr, Bool.and_self, if_true, sock_bytes, Option.getD_some,
      do_audio_frame_of_none NO_PTS env plugin sock hnone, Bool.false_eq_true, if_false,
      Plugin.emit, MILLI_SEC, FPS, Option.isSome_none, Option.isSome_some, List.append_assoc]
    simp

/-- Witness for C6: a sample header announcing 2 bytes followed by a single
byte is a short read, and `read_frame` returns no packet on it. -/
theorem short_read_closes_stream_witness :
    short_read (2 ^ 64 - 1) (header 1000 2 ++ [7]) = true ∧
    (read_frame (2 ^ 64 - 1) Decoder.fresh (header 1000 2 ++ [7]) 0).packet = none := by
  have h : short_read (2 ^ 64 - 1) (header 1000 2 ++ [7]) = true := by
    unfold short_read
    rw [read_frame, read_frame_AGAIN_header (2 ^ 64 - 1) Decoder.fresh 1000 2 [7] [] 0 0
      (by norm_num) (by norm_num)]
    simp [MAXPACKET]
  exact ⟨h, (short_read_closes_stream (2 ^ 64 - 1) (header 1000 2 ++ [7]) h).1 Decoder.fresh 0⟩

/-- C7: with `held` packets in the hands of other threads, every step of
`read_frame`, `recv_video_frame`, `do_audio_frame` and the video decode
worker keeps `|empty| + |ready| + |held|` equal to the allocated count;
`read_frame` hands at most one pulled packet to its caller, and the other
three push back exactly once whatever they pulled. -/
theorem pool_accounting_preserved (NO_PTS : Nat) (d : Decoder) (held : Nat)
    (ha : accounted d held) :
    (∀ sock config config_len hc,
      accounted (read_frame_AGAIN NO_PTS d sock config config_len hc).decoder
        (held +
          if (read_frame_AGAIN NO_PTS d sock config config_len hc).packet.isSome then 1 else 0) ∧
      (((read_frame_AGAIN NO_PTS d sock config config_len hc).packet = none ∧
          (pool_calls d (read_frame_AGAIN NO_PTS d sock config config_len hc).decoder = [] ∨
           ∃ n, pool_calls d (read_frame_AGAIN NO_PTS d sock config config_len hc).decoder =
             [PoolOp.pull_empty n, PoolOp.push_empty])) ∨
       ((read_frame_AGAIN NO_PTS d sock config config_len hc).packet.isSome = true ∧
          ∃ n, pool_calls d (read_frame_AGAIN NO_PTS d sock config config_len hc).decoder =
            [PoolOp.pull_empty n]))) ∧
    (∀ env plugin sock,
      (plugin.video_decoder = some d ∨
        (plugin.video_decoder = none ∧ d = new_video_decoder plugin.video_format)) →
      ∃ d', (recv_video_frame NO_PTS env plugin sock).2.1.video_decoder = some d' ∧
        accounted d' held ∧ balanced_calls (pool_calls d d') = true) ∧
    (∀ env plugin sock,
      (plugin.audio_decoder = some d ∨ (plugin.audio_decoder = none ∧ d = Decoder.fresh)) →
      ∃ d', (do_audio_frame NO_PTS env plugin sock).2.1.audio_decoder = some d' ∧
        accounted d' held ∧ balanced_calls (pool_calls d d') = true) ∧
    (∀ env plugin, plugin.video_decoder = some d →
      ∃ d', (video_decode_thread_iter env plugin).video_decoder = some d' ∧
        accounted d' held ∧ balanced_calls (pool_calls d d') = true) := by
  refine ⟨fun sock config config_len hc =>
    read_frame_AGAIN_accounting NO_PTS d sock config config_len hc held ha, ?_, ?_, ?_⟩
  · intro env plugin sock hd
    rcases hd with hd | ⟨hn, hd⟩
    · obtain ⟨d', h1, h2, h3, _⟩ := recv_video_frame_post NO_PTS env plugin sock d hd
      exact ⟨d', h1, h2 held ha, h3⟩
    · rw [recv_video_frame_construct NO_PTS env plugin sock hn]
      obtain ⟨d', h1, h2, h3, _⟩ := recv_video_frame_post NO_PTS env
        { plugin with video_decoder := some (new_video_decoder plugin.video_format) } sock d
        (by rw [hd])
      exact ⟨d', h1, h2 held ha, h3⟩
  · intro env plugin sock hd
    rcases hd with hd | ⟨hn, hd⟩
    · obtain ⟨d', h1, h2, h3⟩ := do_audio_frame_post NO_PTS env plugin sock d hd
      exact ⟨d', h1, h2 held ha, h3⟩
    · rw [do_audio_frame_construct NO_PTS env plugin sock hn]
      obtain ⟨d', h1, h2, h3⟩ := do_audio_frame_post NO_PTS env
        { plugin with audio_decoder := some Decoder.fresh } sock d (by rw [hd])
      exact ⟨d', h1, h2 held ha, h3⟩
  · intro env plugin hd
    obtain ⟨d', h1, h2, h3, _⟩ := video_decode_thread_iter_post env plugin d hd
    exact ⟨d', h1, h2 held ha, h3⟩

/-- Witness for C7: a fresh decoder with nothing held; after `recv_video_frame`
constructs it and reads, the pool is still accounted for. -/
theorem pool_accounting_preserved_witness :
    accounted Decoder.fresh 0 ∧
    ∃ d', (recv_video_frame (2 ^ 64 - 1) Env.all_ok Plugin.created
        (header 1000 2 ++ [7, 8])).2.1.video_decoder = some d' ∧
      accounted d' 0 ∧ balanced_calls (pool_calls Decoder.fresh d') = true :=
  ⟨rfl, (pool_accounting_preserved (2 ^ 64 - 1) Decoder.fresh 0 rfl).2.1 Env.all_ok
    Plugin.created (header 1000 2 ++ [7, 8]) (Or.inr ⟨rfl, rfl⟩)⟩

/-- C8, at the failing schedule: the session has been deactivated while
streaming, one packet sits in the ready queue; while `video_thread` sleeps
in its wait loop the decode worker pulls that packet and the host raises
the stop signal.  The wait loop ends, the decoder is deleted with the
packet still in the worker's hands, and the worker's next step is made on
the deleted decoder. -/
theorem decoder_deleted_under_worker :
    ∃ r, video_thread_iter (2 ^ 64 - 1) Env.all_ok [⟨[Env.all_ok], true⟩]
        { Plugin.created with
          video_running := true,
          video_decoder := some { Decoder.fresh with
            decodeQueue := [⟨[1], 1, 0⟩], alloc_count := 1, ready := true } }
        (some []) none = some r ∧
      r.1.video_decoder = none ∧ r.1.stop_signal = true ∧ r.2.2 = some ⟨[1], 1, 0⟩ ∧
      Event.delete_video_decoder ∈ r.1.trace ∧
      (video_decode_thread_step Env.all_ok r.1 r.2.2).1.trace =
        r.1.trace ++ [Event.use_deleted_video_decoder] := by
  refine ⟨_, rfl, rfl, rfl, rfl, ?_, rfl⟩
  decide

/-- C9: `recv_video_frame` returns false exactly when `read_frame` returned no
packet.  A frame read on a decoder that is failed, or whose initialisation
fails, gives result true, leaves the decoder failed and pushes the packet
to the empty queue only.  No step of the ingest or decode loops turns the
failed flag of an existing decoder back to false. -/
theorem recv_video_frame_false_iff (NO_PTS : Nat) (env : Env) (plugin : Plugin) (sock : List Nat)
    (d : Decoder)
    (hd : plugin.video_decoder = some d ∨
      (plugin.video_decoder = none ∧ d = new_video_decoder plugin.video_format)) :
    ((recv_video_frame NO_PTS env plugin sock).1 = false ↔
      (read_frame NO_PTS d sock 0).packet = none) ∧
    (∀ p, (read_frame NO_PTS d sock 0).packet = some p →
      (d.failed = true ∨ (d.ready = false ∧
        (env.init_ok = false ∨ ∃ v, plugin.video_format = VideoFormat.unexpected v))) →
      (recv_video_frame NO_PTS env plugin sock).1 = true ∧
      ∃ d', (recv_video_frame NO_PTS env plugin sock).2.1.video_decoder = some d' ∧
        d'.failed = true ∧
        d'.recieveQueue = (read_frame NO_PTS d sock 0).decoder.recieveQueue ++ [p] ∧
        d'.decodeQueue = d.decodeQueue ∧
        pool_calls (read_frame NO_PTS d sock 0).decoder d' = [PoolOp.push_empty]) ∧
    stays_failed plugin.video_decoder
      (recv_video_frame NO_PTS env plugin sock).2.1.video_decoder ∧
    stays_failed plugin.video_decoder (video_decode_thread_iter env plugin).video_decoder ∧
    (∀ w, stays_failed plugin.video_decoder
      (video_decode_thread_step env plugin w).1.video_decoder) ∧
    (∀ s, stays_failed plugin.video_decoder
      (video_thread_head NO_PTS env plugin s).2.1.video_decoder) ∧
    (∀ sched s w r, video_thread_iter NO_PTS env sched plugin s w = some r →
      stays_failed plugin.video_decoder r.1.video_decoder) := by
  have hiter : ∀ sched s w r, video_thread_iter NO_PTS env sched plugin s w = some r →
      stays_failed plugin.video_decoder r.1.video_decoder := by
    intro sched s w r hit
    unfold video_thread_iter at hit
    split at hit
    · rename_i p1 s1 heq
      cases hit
      have := video_thread_head_stays_failed NO_PTS env plugin s
      rw [heq] at this
      exact this
    · intro d0 _ _
      exact Or.inl (video_thread_LOOP_closed _ _ _ _ _ hit).2.2
  refine ⟨?_, ?_, recv_video_frame_stays_failed NO_PTS env plugin sock,
    video_decode_thread_iter_stays_failed env plugin,
    fun w => video_decode_thread_step_stays_failed env plugin w,
    fun s => video_thread_head_stays_failed NO_PTS env plugin s, hiter⟩
  · rcases hd with hd | ⟨hn, hd⟩
    · obtain ⟨_, _, _, _, _, h5⟩ := recv_video_frame_post NO_PTS env plugin sock d hd
      exact h5
    · rw [recv_video_frame_construct NO_PTS env plugin sock hn]
      obtain ⟨_, _, _, _, _, h5⟩ := recv_video_frame_post NO_PTS env
        { plugin with video_decoder := some (new_video_decoder plugin.video_format) } sock d
        (by rw [hd])
      exact h5
  · intro p hp hbad
    rcases hd with hd | ⟨hn, hd⟩
    · exact recv_video_frame_discard NO_PTS env plugin sock d p hd hp hbad
    · rw [recv_video_frame_construct NO_PTS env plugin sock hn]
      exact recv_video_frame_discard NO_PTS env
        { plugin with video_decoder := some (new_video_decoder plugin.video_format) } sock d p
        (by rw [hd]) hp hbad

/-- Witness for C9: a first call on a stream holding one complete 2-byte sample
returns true. -/
theorem recv_video_frame_false_iff_witness :
    (recv_video_frame (2 ^ 64 - 1) Env.all_ok Plugin.created (header 1000 2 ++ [7, 8])).1 = true := by
  have h := (recv_video_frame_false_iff (2 ^ 64 - 1) Env.all_ok Plugin.created
    (header 1000 2 ++ [7, 8]) Decoder.fresh (Or.inr ⟨rfl, rfl⟩)).1
  have hs : (read_frame (2 ^ 64 - 1) Decoder.fresh (header 1000 2 ++ [7, 8]) 0).packet ≠ none := by
    rw [read_frame, read_frame_AGAIN_header (2 ^ 64 - 1) Decoder.fresh 1000 2 [7, 8] [] 0 0
      (by norm_num) (by norm_num)]
    simp [MAXPACKET]
  cases hr : (recv_video_frame (2 ^ 64 - 1) Env.all_ok Plugin.created (header 1000 2 ++ [7, 8])).1
  · exact absurd (h.mp hr) hs
  · rfl

/-- C10: with a requested format other than `FORMAT_AVC` and `FORMAT_MJPG` and
no decoder yet, the decoder `recv_video_frame` constructs is failed before
any frame is read; over any sequence of calls it stays failed, nothing is
initialised, pushed to the ready queue, notified or enqueued as a tally
task, and every frame read is discarded with result true. -/
theorem unexpected_format_decoder_failed (NO_PTS : Nat) (plugin : Plugin) (v : Int)
    (hfmt : plugin.video_format = VideoFormat.unexpected v)
    (hn : plugin.video_decoder = none) :
    (new_video_decoder plugin.video_format).failed = true ∧
    (new_video_decoder plugin.video_format).decodeQueue = [] ∧
    (∀ env sock calls,
      ∃ d', (recv_video_frames NO_PTS plugin ((env, sock) :: calls)).video_decoder = some d' ∧
        d'.failed = true ∧ d'.decodeQueue = [] ∧
        (recv_video_frames NO_PTS plugin ((env, sock) :: calls)).trace = plugin.trace ∧
        (recv_video_frames NO_PTS plugin ((env, sock) :: calls)).comms_queue =
          plugin.comms_queue ∧
        (recv_video_frames NO_PTS plugin ((env, sock) :: calls)).comms_signal =
          plugin.comms_signal ∧
        ∀ env2 sock2 p, (read_frame NO_PTS d' sock2 0).packet = some p →
          (recv_video_frame NO_PTS env2
            (recv_video_frames NO_PTS plugin ((env, sock) :: calls)) sock2).1 = true) ∧
    (∀ env sock p,
      (read_frame NO_PTS (new_video_decoder plugin.video_format) sock 0).packet = some p →
      (recv_video_frame NO_PTS env plugin sock).1 = true ∧
      ∃ d', (recv_video_frame NO_PTS env plugin sock).2.1.video_decoder = some d' ∧
        d'.recieveQueue =
          (read_frame NO_PTS (new_video_decoder plugin.video_format) sock 0).decoder.recieveQueue
            ++ [p]) := by
  have hnf : (new_video_decoder plugin.video_format).failed = true := by rw [hfmt]; rfl
  have hnq : (new_video_decoder plugin.video_format).decodeQueue = [] := by rw [hfmt]; rfl
  refine ⟨hnf, hnq, ?_, ?_⟩
  · intro env sock calls
    have hc := recv_video_frame_construct NO_PTS env plugin sock hn
    obtain ⟨d1, h1, _, _, h4, _⟩ := recv_video_frame_post NO_PTS env
      { plugin with video_decoder := some (new_video_decoder plugin.video_format) } sock
      (new_video_decoder plugin.video_format) rfl
    obtain ⟨hf1, hq1, ht1, hc1, hs1⟩ := h4 hnf
    rw [← hc] at h1 ht1 hc1 hs1
    obtain ⟨d', h1', h2', h3', h4', h5', h6'⟩ :=
      recv_video_frames_failed NO_PTS calls _ d1 h1 hf1
    refine ⟨d', h1', h2', by rw [h3', hq1, hnq], h4'.trans ht1, h5'.trans hc1, h6'.trans hs1, ?_⟩
    intro env2 sock2 p hp
    exact (recv_video_frame_discard NO_PTS env2 _ sock2 d' p h1' hp (Or.inl h2')).1
  · intro env sock p hp
    rw [recv_video_frame_construct NO_PTS env plugin sock hn]
    obtain ⟨h1, d', h2, _, h4, _⟩ := recv_video_frame_discard NO_PTS env
      { plugin with video_decoder := some (new_video_decoder plugin.video_format) } sock
      (new_video_decoder plugin.video_format) p rfl hp (Or.inl hnf)
    exact ⟨h1, d', h2, h4⟩

/-- Witness for C10: format value 7 on the freshly created session. -/
theorem unexpected_format_decoder_failed_witness :
    (new_video_decoder (VideoFormat.unexpected 7)).failed = true :=
  (unexpected_format_decoder_failed (2 ^ 64 - 1)
    { Plugin.created with video_format := VideoFormat.unexpected 7 } 7 rfl rfl).1

/-- C11: a wake of the control loop that reaches the drain with the connection
open (held from before or just opened, the status poll not failed), on a queue
of `n` tally-changed commands, sends exactly one tally request if `n ≥ 1`,
carrying "program" if `tally.on_program`, else "preview" if `tally.on_preview`,
else "idle", and none if `n = 0`; the drain leaves the queue empty, and after
the wake the queue holds at most the one retry of a failed send. -/
theorem comms_thread_coalesces_tally (DROIDCAM_OVERRIDE : Bool) (env : CommsEnv)
    (plugin : Plugin) (sock : Option (List Nat)) (prevBattery : Int) (s : List Nat) (n : Nat)
    (hact : plugin.activated = true) (hrun : plugin.video_running = true)
    (hsock : sock = some s ∨
      (sock = none ∧ (connect env.connect { plugin with comms_signal := false }).1 = some s))
    (hpoll : (env.timed_out && DROIDCAM_OVERRIDE) = true → env.batt_http > 0)
    (hq : plugin.comms_queue = List.replicate n CommsTask.TALLY) :
    tally_requests (comms_thread_iter DROIDCAM_OVERRIDE env plugin sock prevBattery).1.trace =
      tally_requests plugin.trace ++
        (if n = 0 then []
         else [if plugin.tally.on_program then "program"
               else if plugin.tally.on_preview then "preview" else "idle"]) ∧
    (∀ (plugin1 : Plugin) (tally : Option String),
      (comms_drain plugin1 tally plugin.comms_queue).2 = []) ∧
    (comms_thread_iter DROIDCAM_OVERRIDE env plugin sock prevBattery).1.comms_queue =
      (if n ≠ 0 ∧ env.tally_http ≤ 0 ∧ env.errno ≠ 0 then [CommsTask.TALLY] else []) := by
  obtain ⟨p1, pb1, h1, h2, h3, -, h5⟩ := comms_thread_iter_reaches_drain DROIDCAM_OVERRIDE env
    plugin sock prevBattery s hact hrun hsock hpoll
  have hd : comms_drain p1 none p1.comms_queue =
      (if n = 0 then none else some (tally_string plugin.tally), []) := by
    rw [h3, hq, comms_drain_replicate, h2]
  have hts : (if plugin.tally.on_program then "program"
      else if plugin.tally.on_preview then "preview" else "idle") =
      tally_string plugin.tally := rfl
  rw [hts]
  generalize tally_string plugin.tally = t at hd ⊢
  refine ⟨?_, ?_, ?_⟩
  · rw [h1, comms_thread_tally_eq, hd]
    by_cases hn : n = 0
    · simp only [hn, if_true]
      rw [h5]
      simp
    · simp only [hn, if_false]
      rw [← h5]
      split_ifs <;> simp [tally_requests, List.filterMap_append]
  · intro plugin1 tally
    rw [hq, comms_drain_replicate]
  · rw [h1, comms_thread_tally_eq, hd]
    by_cases hn : n = 0
    · simp [hn]
    · simp only [hn, if_false]
      by_cases hh : env.tally_http > 0
      · rw [if_pos hh, if_neg (by omega)]
      · rw [if_neg hh]
        by_cases he : env.errno = 0
        · rw [if_neg (not_not.mpr he), if_neg (by tauto)]
        · rw [if_pos he, if_pos ⟨hn, by omega, he⟩]
          rfl

/-- Witness for C11: shown in preview, hidden from preview, shown on program,
all before the wake: one request, carrying "program". -/
theorem comms_thread_coalesces_tally_witness :
    tally_requests
      (comms_thread_iter false CommsEnv.all_ok
        (source_show_main (source_hide (source_show
          { Plugin.created with activated := true, video_running := true })))
        (some []) 100).1.trace = ["program"] ∧
    (comms_thread_iter false CommsEnv.all_ok
        (source_show_main (source_hide (source_show
          { Plugin.created with activated := true, video_running := true })))
        (some []) 100).1.comms_queue = [] :=
  ⟨(comms_thread_coalesces_tally false CommsEnv.all_ok
      (source_show_main (source_hide (source_show
        { Plugin.created with activated := true, video_running := true })))
      (some []) 100 [] 3 rfl rfl (Or.inl rfl) (by decide) rfl).1.trans (by decide),
   rfl⟩

/-- C12: when the tally request of a wake fails (`basic_http` returns 0 or
less), the control connection is closed; with `errno` non-zero the loop sleeps
5000 ms, then enqueues exactly one tally-changed command and raises the wake
signal; with `errno` zero nothing is enqueued, the signal stays reset, and (the
queue holding nothing else) no later wake sends a tally request unless a
trigger enqueues one. -/
theorem comms_thread_tally_send_fails (DROIDCAM_OVERRIDE : Bool) (env : CommsEnv)
    (plugin : Plugin) (sock : Option (List Nat)) (prevBattery : Int) (s : List Nat)
    (tally : String)
    (hact : plugin.activated = true) (hrun : plugin.video_running = true)
    (hsock : sock = some s ∨
      (sock = none ∧ (connect env.connect { plugin with comms_signal := false }).1 = some s))
    (hpoll : (env.timed_out && DROIDCAM_OVERRIDE) = true → env.batt_http > 0)
    (hd : (comms_drain plugin none plugin.comms_queue).1 = some tally)
    (hfail : env.tally_http ≤ 0) :
    (comms_thread_iter DROIDCAM_OVERRIDE env plugin sock prevBattery).2.1 = none ∧
    (env.errno ≠ 0 →
      (comms_thread_iter DROIDCAM_OVERRIDE env plugin sock prevBattery).1.comms_queue =
        (comms_drain plugin none plugin.comms_queue).2 ++ [CommsTask.TALLY] ∧
      (comms_thread_iter DROIDCAM_OVERRIDE env plugin sock prevBattery).1.comms_signal = true ∧
      [Event.http_tally tally, Event.os_sleep_ms 5000, Event.comms_task CommsTask.TALLY,
        Event.net_close] <:+
        (comms_thread_iter DROIDCAM_OVERRIDE env plugin sock prevBattery).1.trace) ∧
    (env.errno = 0 →
      (comms_thread_iter DROIDCAM_OVERRIDE env plugin sock prevBattery).1.comms_queue =
        (comms_drain plugin none plugin.comms_queue).2 ∧
      (comms_thread_iter DROIDCAM_OVERRIDE env plugin sock prevBattery).1.comms_signal = false ∧
      [Event.http_tally tally, Event.net_close] <:+
        (comms_thread_iter DROIDCAM_OVERRIDE env plugin sock prevBattery).1.trace ∧
      ((comms_drain plugin none plugin.comms_queue).2 = [] →
        ∀ (override : Bool) (envs : List CommsEnv),
          tally_requests
            (comms_thread_wakes override envs
              (comms_thread_iter DROIDCAM_OVERRIDE env plugin sock prevBattery)).1.trace =
          tally_requests
            (comms_thread_iter DROIDCAM_OVERRIDE env plugin sock prevBattery).1.trace)) := by
  obtain ⟨p1, pb1, h1, h2, h3, h4, -⟩ := comms_thread_iter_reaches_drain DROIDCAM_OVERRIDE env
    plugin sock prevBattery s hact hrun hsock hpoll
  have hdr : comms_drain p1 none p1.comms_queue = comms_drain plugin none plugin.comms_queue := by
    rw [h3, comms_drain_tally plugin p1 h2]
  have hnot : ¬ env.tally_http > 0 := by omega
  have heq := comms_thread_tally_eq env p1 s pb1
  rw [hdr, hd] at heq
  simp only [] at heq
  rw [if_neg hnot] at heq
  refine ⟨?_, ?_, ?_⟩
  · rw [h1, heq]
    split_ifs <;> rfl
  · intro he
    rw [if_pos he] at heq
    rw [h1, heq]
    exact ⟨rfl, rfl, ⟨p1.trace, by simp [MILLI_SEC]⟩⟩
  · intro he
    rw [if_neg (not_not.mpr he)] at heq
    rw [h1, heq]
    refine ⟨rfl, h4, ⟨p1.trace, by simp⟩, ?_⟩
    intro hempty override envs
    exact (comms_thread_wakes_idle override envs _ hempty).2

/-- Witness for C12: the tally request of a wake fails with `errno` set. -/
theorem comms_thread_tally_send_fails_witness :
    (comms_thread_iter false { CommsEnv.all_ok with tally_http := 0, errno := 104 }
      (source_show { Plugin.created with activated := true, video_running := true })
      (some []) 100).1.comms_queue = [CommsTask.TALLY] ∧
    (comms_thread_iter false { CommsEnv.all_ok with tally_http := 0, errno := 104 }
      (source_show { Plugin.created with activated := true, video_running := true })
      (some []) 100).1.comms_signal = true :=
  have h := (comms_thread_tally_send_fails false
    { CommsEnv.all_ok with tally_http := 0, errno := 104 }
    (source_show { Plugin.created with activated := true, video_running := true })
    (some []) 100 [] "preview" rfl rfl (Or.inl rfl) (by decide) (by decide) (by decide)).2.1
    (by decide)
  ⟨h.1, h.2.1⟩

/-- C13: on a connect attempt to an online debug-bridge device with target port
`p`, iteration `k`, tracked local port `u` and `base = p + 10 * k`: up to and
including the forward request the calls are the entry of `connect`, a
clear-forwards exactly when `u > base + 8`, and the forward request to `p`
from `base` when `u` is outside `[base, base + 8]` and from `u` otherwise;
the requested local port always lies in `[base, base + 8]` and is the
tracked port (one more after a failed request). -/
theorem connect_adb_window (env : Env) (plugin : Plugin) (dev : Device) (p k u base : Int)
    (ht : plugin.device_info.type = DeviceType.ADB) (hdev : env.adb_device = some dev)
    (hon : env.adb_offline = false) (hp : plugin.device_info.port = p) (hk : env.adb_iter = k)
    (hu : plugin.usb_port = u) (hbase : base = p + 10 * k) :
    (u < base →
      plugin.trace ++ [Event.connect_device, Event.adb_add_forward base p] <+:
        (connect env plugin).2.trace ∧
      (connect env plugin).2.usb_port = base + (if env.adb_forward_ok then 0 else 1)) ∧
    (u > base + 8 →
      plugin.trace ++
          [Event.connect_device, Event.adb_clear_forwards, Event.adb_add_forward base p] <+:
        (connect env plugin).2.trace ∧
      (connect env plugin).2.usb_port = base + (if env.adb_forward_ok then 0 else 1)) ∧
    (base ≤ u ∧ u ≤ base + 8 →
      plugin.trace ++ [Event.connect_device, Event.adb_add_forward u p] <+:
        (connect env plugin).2.trace ∧
      (connect env plugin).2.usb_port = u + (if env.adb_forward_ok then 0 else 1)) ∧
    (∃ l pre rest, base ≤ l ∧ l ≤ base + 8 ∧
      (connect env plugin).2.trace = plugin.trace ++ pre ++ [Event.adb_add_forward l p] ++ rest ∧
      (∀ a b, Event.adb_add_forward a b ∉ pre ++ rest)) := by
  obtain ⟨_, hport, htrace, _⟩ := connect_adb_online env plugin dev p k u base ht hdev hon hp hk
    hu hbase
  rw [hport, htrace]
  refine ⟨fun h => ?_, fun h => ?_, fun h => ?_, ?_⟩
  · have h2 : ¬u > base + 8 := by omega
    exact ⟨⟨_, by simp [h, h2]; rfl⟩, by simp [h]⟩
  · have h1 : ¬u < base := by omega
    exact ⟨⟨_, by simp [h, h1]; rfl⟩, by simp [h]⟩
  · have h1 : ¬u < base := by omega
    have h2 : ¬u > base + 8 := by omega
    exact ⟨⟨_, by simp [h1, h2]; rfl⟩, by simp [h1, h2]⟩
  · refine ⟨_, _, _, (adb_port_in_window u base).1, (adb_port_in_window u base).2, rfl, ?_⟩
    intro a b hm
    simp only [List.mem_append, List.mem_cons] at hm
    rcases hm with (hm | hm) | hm
    · cases hm
    · split_ifs at hm <;> simp at hm
    · split_ifs at hm <;> simp at hm

/-- Witness for C13: `p = 5555`, `k = 2`, `u = 5575`: the forward is requested at
5575 without a clear-forwards call before it. -/
theorem connect_adb_window_witness :
    [Event.connect_device, Event.adb_add_forward 5575 5555] <+:
      (connect { Env.all_ok with adb_device := some ⟨""⟩, adb_iter := 2 }
        { Plugin.created with
          device_info := ⟨"", "", 5555, DeviceType.ADB⟩, usb_port := 5575 }).2.trace :=
  ((connect_adb_window { Env.all_ok with adb_device := some ⟨""⟩, adb_iter := 2 }
    { Plugin.created with device_info := ⟨"", "", 5555, DeviceType.ADB⟩, usb_port := 5575 }
    ⟨""⟩ 5555 2 5575 5575 rfl rfl rfl rfl rfl rfl (by norm_num)).2.2.1
    ⟨by norm_num, by norm_num⟩).1

/-- C14, as stated, fails when the failed forward request was made at the last
port of the window: with `p = 5555`, `k = 0` and `u = 5563 = base + 8` the
failed attempt leaves the tracked port at 5564, and the next attempt clears
the forwards and requests the forward at 5555, not at 5564. -/
theorem connect_adb_retry_counterexample :
    (connect { Env.all_ok with adb_device := some ⟨""⟩, adb_forward_ok := false }
      { Plugin.created with
        device_info := ⟨"", "", 5555, DeviceType.ADB⟩, usb_port := 5563 }).1 = none ∧
    (connect { Env.all_ok with adb_device := some ⟨""⟩, adb_forward_ok := false }
      { Plugin.created with
        device_info := ⟨"", "", 5555, DeviceType.ADB⟩, usb_port := 5563 }).2.usb_port = 5564 ∧
    (connect { Env.all_ok with adb_device := some ⟨""⟩, adb_forward_ok := false }
      (connect { Env.all_ok with adb_device := some ⟨""⟩, adb_forward_ok := false }
        { Plugin.created with
          device_info := ⟨"", "", 5555, DeviceType.ADB⟩, usb_port := 5563 }).2).2.trace =
      [Event.connect_device, Event.adb_add_forward 5563 5555,
       Event.connect_device, Event.adb_clear_forwards, Event.adb_add_forward 5555 5555] :=
  ⟨rfl, rfl, rfl⟩

/-- C14, amended: when the forward request of a connect attempt to an online
debug-bridge device fails, `connect` returns failure without dialing and
the tracked local port is the requested port plus one; the next attempt with
the same target port and iteration requests the forward at that incremented
port if it is still at most `base + 8`, and otherwise (the failed request
was at `base + 8`) clears the forwards and requests it at `base`. -/
theorem connect_adb_forward_fails (env env2 : Env) (plugin : Plugin) (dev dev2 : Device)
    (p k u base : Int)
    (ht : plugin.device_info.type = DeviceType.ADB) (hdev : env.adb_device = some dev)
    (hon : env.adb_offline = false) (hp : plugin.device_info.port = p) (hk : env.adb_iter = k)
    (hu : plugin.usb_port = u) (hbase : base = p + 10 * k)
    (hfail : env.adb_forward_ok = false)
    (hdev2 : env2.adb_device = some dev2) (hon2 : env2.adb_offline = false)
    (hk2 : env2.adb_iter = k) :
    ∃ l, base ≤ l ∧ l ≤ base + 8 ∧
      (connect env plugin).1 = none ∧
      (connect env plugin).2.trace =
        plugin.trace ++
          (Event.connect_device :: (if u > base + 8 then [Event.adb_clear_forwards] else [])) ++
          [Event.adb_add_forward l p] ∧
      (connect env plugin).2.usb_port = l + 1 ∧
      (l + 1 ≤ base + 8 →
        (connect env plugin).2.trace ++ [Event.connect_device, Event.adb_add_forward (l + 1) p]
          <+: (connect env2 (connect env plugin).2).2.trace) ∧
      (l = base + 8 →
        (connect env plugin).2.trace ++
            [Event.connect_device, Event.adb_clear_forwards, Event.adb_add_forward base p]
          <+: (connect env2 (connect env plugin).2).2.trace) := by
  obtain ⟨hres, hport, htrace, hinfo⟩ := connect_adb_online env plugin dev p k u base ht hdev
    hon hp hk hu hbase
  obtain ⟨hl1, hl2⟩ := adb_port_in_window u base
  simp only [hfail, Bool.false_eq_true, if_false, List.append_nil] at hres hport htrace
  obtain ⟨_, _, htrace2, _⟩ := connect_adb_online env2 (connect env plugin).2 dev2 p k
    ((if u < base ∨ u > base + 8 then base else u) + 1) base (by rw [hinfo, ht]) hdev2 hon2
    (by rw [hinfo, hp]) hk2 hport hbase
  refine ⟨_, hl1, hl2, hres, htrace, hport, fun h => ?_, fun h => ?_⟩
  · rw [htrace2]
    have h1 : ¬(if u < base ∨ u > base + 8 then base else u) + 1 < base := by omega
    have h2 : ¬(if u < base ∨ u > base + 8 then base else u) + 1 > base + 8 := by omega
    exact ⟨_, by simp [h1, h2]; rfl⟩
  · rw [htrace2]
    have h2 : (if u < base ∨ u > base + 8 then base else u) + 1 > base + 8 := by omega
    exact ⟨_, by simp [h2]; rfl⟩

/-- Witness for the amended C14: the failed request at 5563 with `p = 5555`,
`k = 0`. -/
theorem connect_adb_forward_fails_witness :
    ∃ l : Int, 5555 ≤ l ∧ l ≤ 5555 + 8 ∧
      (connect { Env.all_ok with adb_device := some ⟨""⟩, adb_forward_ok := false }
        { Plugin.created with
          device_info := ⟨"", "", 5555, DeviceType.ADB⟩, usb_port := 5563 }).2.usb_port = l + 1 := by
  obtain ⟨l, h1, h2, _, _, h5, _⟩ := connect_adb_forward_fails
    { Env.all_ok with adb_device := some ⟨""⟩, adb_forward_ok := false }
    { Env.all_ok with adb_device := some ⟨""⟩, adb_forward_ok := false }
    { Plugin.created with device_info := ⟨"", "", 5555, DeviceType.ADB⟩, usb_port := 5563 }
    ⟨""⟩ ⟨""⟩ 5555 0 5563 5555 rfl rfl rfl rfl rfl rfl (by norm_num) rfl rfl rfl rfl
  exact ⟨l, h1, h2, h5⟩

/-- C15: when `read_frame` returns a packet with `has_config` set while the
audio decoder is initialised and not failed, `do_audio_frame` marks the
decoder failed, pushes the packet to the empty queue, makes no init or
decode call, delivers nothing to the sink and returns true. -/
theorem do_audio_frame_config_while_ready (NO_PTS : Nat) (env : Env) (plugin : Plugin)
    (sock : List Nat) (d : Decoder) (p : DataPacket)
    (hd : plugin.audio_decoder = some d) (hready : d.ready = true) (hnf : d.failed = false)
    (hp : (read_frame NO_PTS d sock 0).packet = some p)
    (hc : (read_frame NO_PTS d sock 0).has_config ≠ 0) :
    do_audio_frame NO_PTS env plugin sock =
      (true,
       { plugin with
         audio_decoder := some
           ({ (read_frame NO_PTS d sock 0).decoder with failed := true }.push_empty_packet p) },
       (read_frame NO_PTS d sock 0).sock) ∧
    (do_audio_frame NO_PTS env plugin sock).2.1.trace = plugin.trace ∧
    ∃ d', (do_audio_frame NO_PTS env plugin sock).2.1.audio_decoder = some d' ∧
      d'.failed = true ∧
      d'.recieveQueue = (read_frame NO_PTS d sock 0).decoder.recieveQueue ++ [p] ∧
      d'.decodeQueue = d.decodeQueue ∧
      pool_calls (read_frame NO_PTS d sock 0).decoder d' = [PoolOp.push_empty] := by
  obtain ⟨h3, h4, h5⟩ := read_frame_fields NO_PTS d sock 0
  have heq : do_audio_frame NO_PTS env plugin sock =
      (true,
       { plugin with
         audio_decoder := some
           ({ (read_frame NO_PTS d sock 0).decoder with failed := true }.push_empty_packet p) },
       (read_frame NO_PTS d sock 0).sock) := by
    unfold do_audio_frame
    simp only [hd, hp]
    have hf : ¬(read_frame NO_PTS d sock 0).decoder.failed = true := by rw [h3, hnf]; decide
    have hr : (read_frame NO_PTS d sock 0).decoder.ready = true := by rw [h4, hready]
    rw [if_neg hf, if_pos (Or.inl hc), if_pos hr]
  rw [heq]
  exact ⟨rfl, rfl, _, rfl, rfl, rfl, h5, pool_calls_of_log _ _ _ rfl⟩

/-- Witness for C15: a 2-byte configuration followed by a 2-byte sample arrives
at a decoder that is initialised. -/
theorem do_audio_frame_config_while_ready_witness :
    (do_audio_frame (2 ^ 64 - 1) Env.all_ok
      { Plugin.created with audio_decoder := some { Decoder.fresh with ready := true } }
      (header (2 ^ 64 - 1) 2 ++ ([5, 6] ++ (header 1000 2 ++ [7, 8])))).1 = true := by
  have hrun : ∀ N : Nat, N < 2 ^ 64 → 1000 ≠ N →
      (read_frame N { Decoder.fresh with ready := true }
        (header N 2 ++ ([5, 6] ++ (header 1000 2 ++ [7, 8]))) 0).packet =
        some ⟨[5, 6, 7, 8], 4, 1000⟩ ∧
      (read_frame N { Decoder.fresh with ready := true }
        (header N 2 ++ ([5, 6] ++ (header 1000 2 ++ [7, 8]))) 0).has_config = 1 := by
    intro N hN hne
    rw [read_frame, read_frame_AGAIN_header N _ N 2 _ [] 0 0 hN (by norm_num)]
    simp only [if_true, ne_eq, not_true_eq_false, if_false, MAXCONFIG]
    norm_num
    rw [read_frame_AGAIN_header N _ 1000 2 _ _ _ _ (by norm_num) (by norm_num)]
    simp [MAXPACKET, write_at, Decoder.pull_empty_packet, Decoder.fresh, hne]
  obtain ⟨h1, h2⟩ := hrun (2 ^ 64 - 1) (by norm_num) (by norm_num)
  have h := (do_audio_frame_config_while_ready (2 ^ 64 - 1) Env.all_ok
    { Plugin.created with audio_decoder := some { Decoder.fresh with ready := true } }
    (header (2 ^ 64 - 1) 2 ++ ([5, 6] ++ (header 1000 2 ++ [7, 8])))
    { Decoder.fresh with ready := true } ⟨[5, 6, 7, 8], 4, 1000⟩ rfl rfl rfl
    h1 (by rw [h2]; decide)).1
  rw [h]

/-- C16: in an iteration of the audio ingest loop `audio_running` goes from
false to true only if `activated`, `is_showing`, `enable_audio` and
`video_running` were all true and both the connect and the stream-start send
succeeded; and with `video_running` false the iteration makes no connect
attempt. -/
theorem audio_thread_start_gate (NO_PTS : Nat) (env : Env) (plugin : Plugin)
    (sock : Option (List Nat)) (hfalse : plugin.audio_running = false) :
    ((audio_thread_iter NO_PTS env plugin sock).1.audio_running = true →
      plugin.activated = true ∧ plugin.is_showing = true ∧ plugin.enable_audio = true ∧
      plugin.video_running = true ∧
      (connect env (plugin.emit [Event.os_sleep_ms MILLI_SEC])).1.isSome = true ∧
      env.send_ok = true) ∧
    (plugin.video_running = false →
      connect_attempts (audio_thread_iter NO_PTS env plugin sock).1.trace =
        connect_attempts plugin.trace ∧
      (audio_thread_iter NO_PTS env plugin sock).1.usb_port = plugin.usb_port) := by
  rw [audio_thread_iter_eq]
  simp only [hfalse, Bool.false_eq_true, if_false]
  constructor
  · intro h
    by_cases hg : (plugin.activated && plugin.is_showing && plugin.enable_audio) = true
    · rw [if_pos hg] at h
      simp only [Bool.and_eq_true] at hg
      by_cases hv : (!plugin.video_running) = true
      · rw [if_pos hv] at h
        rw [(audio_thread_LOOP_facts plugin sock).1, hfalse] at h
        cases h
      · rw [if_neg hv] at h
        have hv' : plugin.video_running = true := by simpa using hv
        have hca := connect_audio_running env (plugin.emit [Event.os_sleep_ms MILLI_SEC])
        cases hc : connect env (plugin.emit [Event.os_sleep_ms MILLI_SEC]) with
        | mk s p1 =>
          rw [hc] at h hca
          cases s with
          | none =>
            simp only [] at h
            rw [(audio_thread_LOOP_facts _ none).1] at h
            simp only [Plugin.emit] at h hca
            rw [hca, hfalse] at h
            cases h
          | some s =>
            simp only [] at h
            by_cases hs : (!env.send_ok) = true
            · rw [if_pos hs] at h
              rw [(audio_thread_LOOP_facts _ none).1] at h
              simp only [Plugin.emit] at h hca
              rw [hca, hfalse] at h
              cases h
            · exact ⟨hg.1.1, hg.1.2, hg.2, hv', rfl, by simpa using hs⟩
    · rw [if_neg hg] at h
      rw [(audio_thread_LOOP_facts plugin sock).1, hfalse] at h
      cases h
  · intro hv
    simp only [hv, Bool.not_false, if_true]
    split
    · exact ⟨(audio_thread_LOOP_facts plugin sock).2.1, by
        unfold audio_thread_LOOP
        simp only [Plugin.emit]
        split_ifs <;> rfl⟩
    · exact ⟨(audio_thread_LOOP_facts plugin sock).2.1, by
        unfold audio_thread_LOOP
        simp only [Plugin.emit]
        split_ifs <;> rfl⟩

/-- Witness for C16: the freshly created session, where the audio loop does not
start. -/
theorem audio_thread_start_gate_witness :
    connect_attempts (audio_thread_iter (2 ^ 64 - 1) Env.all_ok Plugin.created none).1.trace =
      connect_attempts Plugin.created.trace :=
  ((audio_thread_start_gate (2 ^ 64 - 1) Env.all_ok Plugin.created none rfl).2 rfl).1

/-- C17: a wake of the control loop makes a connect attempt exactly when it
holds no connection and `activated ∧ video_running` holds, and never replaces
a connection it holds; a wake in which `activated ∧ video_running` is false
ends with the socket invalid, a held connection having been closed; if the
connect (when made) succeeds and neither request fails, the connection is
open after the wake if and only if `activated ∧ video_running` held. -/
theorem comms_thread_one_connection (DROIDCAM_OVERRIDE : Bool) (env : CommsEnv)
    (plugin : Plugin) (sock : Option (List Nat)) (prevBattery : Int) :
    connect_attempts (comms_thread_iter DROIDCAM_OVERRIDE env plugin sock prevBattery).1.trace =
      connect_attempts plugin.trace +
        (if sock = none ∧ plugin.activated = true ∧ plugin.video_running = true then 1 else 0) ∧
    (∀ s, sock = some s →
      (comms_thread_iter DROIDCAM_OVERRIDE env plugin sock prevBattery).2.1 = some s ∨
      (comms_thread_iter DROIDCAM_OVERRIDE env plugin sock prevBattery).2.1 = none) ∧
    (¬(plugin.activated = true ∧ plugin.video_running = true) →
      (comms_thread_iter DROIDCAM_OVERRIDE env plugin sock prevBattery).2.1 = none ∧
      (sock ≠ none →
        [Event.net_close] <:+
          (comms_thread_iter DROIDCAM_OVERRIDE env plugin sock prevBattery).1.trace)) ∧
    ((sock = none → (connect env.connect { plugin with comms_signal := false }).1 ≠ none) →
      env.batt_http > 0 → env.tally_http > 0 →
      ((comms_thread_iter DROIDCAM_OVERRIDE env plugin sock prevBattery).2.1 ≠ none ↔
        plugin.activated = true ∧ plugin.video_running = true)) := by
  by_cases hg : (plugin.activated && plugin.video_running) = true
  · have hg' : plugin.activated = true ∧ plugin.video_running = true := by
      simpa [Bool.and_eq_true] using hg
    cases sock with
    | some s =>
      rw [comms_thread_iter_on_some DROIDCAM_OVERRIDE env plugin s prevBattery hg]
      obtain ⟨h1, h2, h3⟩ := comms_thread_poll_connection DROIDCAM_OVERRIDE env
        { plugin with comms_signal := false } s prevBattery
      refine ⟨?_, ?_, fun hn => absurd hg' hn, ?_⟩
      · have hif : ¬((some s : Option (List Nat)) = none ∧ plugin.activated = true ∧
            plugin.video_running = true) := fun h => Option.noConfusion h.1
        rw [h1, if_neg hif]
        rfl
      · intro s1 hs1
        cases hs1
        exact h2
      · intro _ hb ht
        rw [h3 hb ht]
        exact ⟨fun _ => hg', fun _ h => Option.noConfusion h⟩
    | none =>
      rw [comms_thread_iter_on_none DROIDCAM_OVERRIDE env plugin prevBattery hg]
      have hca := connect_connect_attempts env.connect { plugin with comms_signal := false }
      cases hcc : (connect env.connect { plugin with comms_signal := false }).1 with
      | none =>
        refine ⟨?_, ?_, fun hn => absurd hg' hn, ?_⟩
        · rw [if_pos ⟨rfl, hg'⟩]
          exact hca
        · intro s1 hs1
          cases hs1
        · intro hc
          exact absurd rfl (hc rfl)
      | some s =>
        obtain ⟨h1, h2, h3⟩ := comms_thread_poll_connection DROIDCAM_OVERRIDE env
          ((connect env.connect { plugin with comms_signal := false }).2.emit
            [Event.set_recv_timeout]) s prevBattery
        refine ⟨?_, ?_, fun hn => absurd hg' hn, ?_⟩
        · rw [if_pos ⟨rfl, hg'⟩]
          refine h1.trans ?_
          rw [← hca]
          simp [Plugin.emit, connect_attempts]
        · intro s1 hs1
          cases hs1
        · intro _ hb ht
          have h3' := h3 hb ht
          refine ⟨fun _ => hg', fun _ h => ?_⟩
          rw [h3'] at h
          exact Option.noConfusion h
  · have hg' : ¬(plugin.activated = true ∧ plugin.video_running = true) := by
      simpa [Bool.and_eq_true] using hg
    cases sock with
    | some s =>
      rw [comms_thread_iter_off_some DROIDCAM_OVERRIDE env plugin s prevBattery hg]
      refine ⟨?_, fun _ _ => Or.inr rfl, fun _ => ⟨rfl, fun _ => ?_⟩, ?_⟩
      · have hif : ¬((some s : Option (List Nat)) = none ∧ plugin.activated = true ∧
            plugin.video_running = true) := fun h => Option.noConfusion h.1
        rw [if_neg hif]
        cases DROIDCAM_OVERRIDE <;> simp [connect_attempts]
      · cases DROIDCAM_OVERRIDE
        · exact ⟨plugin.trace, rfl⟩
        · exact ⟨plugin.trace ++ [Event.signal_source_update none false], by simp⟩
      · intro _ _ _
        exact ⟨fun h => absurd rfl h, fun h => absurd h hg'⟩
    | none =>
      rw [comms_thread_iter_off_none DROIDCAM_OVERRIDE env plugin prevBattery hg]
      refine ⟨?_, fun _ h => Option.noConfusion h, fun _ => ⟨rfl, fun h => absurd rfl h⟩, ?_⟩
      · rw [if_neg (fun h => hg' h.2)]
        rfl
      · intro _ _ _
        exact ⟨fun h => absurd rfl h, fun h => absurd h hg'⟩

/-- Witness for C17: a wake of a deactivated session that holds a connection
closes it. -/
theorem comms_thread_one_connection_witness :
    (comms_thread_iter false CommsEnv.all_ok Plugin.created (some []) 100).2.1 = none ∧
    [Event.net_close] <:+
      (comms_thread_iter false CommsEnv.all_ok Plugin.created (some []) 100).1.trace :=
  have h := (comms_thread_one_connection false CommsEnv.all_ok Plugin.created (some []) 100).2.2.1
    (by decide)
  ⟨h.1, h.2 (by decide)⟩

/-- C18: in the iteration in which the decode worker pulls packet `p` from the
ready queue, `p` is pushed to the empty queue exactly once; `decode_video`
is called exactly when the decoder is not failed; a decode error sets
`failed`; and a frame is delivered to the sink exactly when the decoder was
not failed, the decode succeeded and produced output, with timestamp
`p.pts * 1000 mod 2 ^ 64`. -/
theorem video_decode_thread_iter_packet (env : Env) (plugin : Plugin) (d : Decoder)
    (p : DataPacket) (rest : List DataPacket)
    (hd : plugin.video_decoder = some d) (hq : d.decodeQueue = p :: rest) :
    ∃ d' events, (video_decode_thread_iter env plugin).video_decoder = some d' ∧
      (video_decode_thread_iter env plugin).trace = plugin.trace ++ events ∧
      d'.recieveQueue = d.recieveQueue ++ [p] ∧ d'.decodeQueue = rest ∧
      d'.alloc_count = d.alloc_count ∧
      pool_calls d d' = [PoolOp.pull_ready true, PoolOp.push_empty] ∧
      d'.failed = (d.failed || !env.decode_ok) ∧
      (Event.decode_video ∈ events ↔ d.failed = false) ∧
      (∀ ts, Event.output_video ts ∈ events ↔
        d.failed = false ∧ env.decode_ok = true ∧ env.got_output = true ∧
          ts = some (p.pts * 1000 % 2 ^ 64)) := by
  obtain ⟨h1, h2, h3, h4, _⟩ := video_decode_packet_post env
    { d with decodeQueue := rest, log := d.log ++ [PoolOp.pull_ready true] } p
  obtain ⟨h5, h6⟩ := video_decode_packet_events env
    { d with decodeQueue := rest, log := d.log ++ [PoolOp.pull_ready true] } p
  refine ⟨(video_decode_packet env
      { d with decodeQueue := rest, log := d.log ++ [PoolOp.pull_ready true] } p).1,
    (video_decode_packet env
      { d with decodeQueue := rest, log := d.log ++ [PoolOp.pull_ready true] } p).2,
    ?_, ?_, h1, h2, h3, ?_, h6, ?_, ?_⟩
  · unfold video_decode_thread_iter
    simp only [hd]
    unfold Decoder.pull_ready_packet
    simp only [hq]
    rfl
  · unfold video_decode_thread_iter
    simp only [hd]
    unfold Decoder.pull_ready_packet
    simp only [hq]
    rfl
  · apply pool_calls_of_log
    rw [h4, List.append_assoc]
    rfl
  · rw [h5]
    cases hf : d.failed <;> cases hok : env.decode_ok <;> cases hout : env.got_output <;> simp
  · intro ts
    rw [h5]
    cases hf : d.failed <;> cases hok : env.decode_ok <;> cases hout : env.got_output <;>
      simp [eq_comm]

/-- Witness for C18: a packet with `pts = 3` on a healthy decoder is decoded and
delivered with timestamp 3000. -/
theorem video_decode_thread_iter_packet_witness :
    ∃ (d' : Decoder) (events : List Event), (video_decode_thread_iter Env.all_ok
      { Plugin.created with
        video_decoder := some { Decoder.fresh with
          decodeQueue := [⟨[1], 1, 3⟩], alloc_count := 1, ready := true } }).video_decoder =
        some d' ∧
      (video_decode_thread_iter Env.all_ok
      { Plugin.created with
        video_decoder := some { Decoder.fresh with
          decodeQueue := [⟨[1], 1, 3⟩], alloc_count := 1, ready := true } }).trace = events ∧
      d'.recieveQueue = [⟨[1], 1, 3⟩] ∧
      Event.output_video (some 3000) ∈ events := by
  obtain ⟨d', events, h1, h2, h3, _, _, _, _, _, h9⟩ :=
    video_decode_thread_iter_packet Env.all_ok
      { Plugin.created with
        video_decoder := some { Decoder.fresh with
          decodeQueue := [⟨[1], 1, 3⟩], alloc_count := 1, ready := true } }
      { Decoder.fresh with decodeQueue := [⟨[1], 1, 3⟩], alloc_count := 1, ready := true }
      ⟨[1], 1, 3⟩ [] rfl rfl
  exact ⟨d', events, h1, h2.trans (List.nil_append _), h3, (h9 _).mpr ⟨rfl, rfl, rfl, rfl⟩⟩

/-- C19: on a connect attempt to an online debug-bridge device whose forward
request succeeds, `connect` dials localhost at the tracked local port and
returns what the dial returns; after the forward request the calls are the
dial and, only when the dial fails, one clear-forwards; the tracked port is
the one the forward was requested at.  On an offline device `connect`
returns failure having made no call and leaving the tracked port as it
was. -/
theorem connect_adb_dial (env : Env) (plugin : Plugin) (dev : Device)
    (ht : plugin.device_info.type = DeviceType.ADB) (hdev : env.adb_device = some dev) :
    (env.adb_offline = false → env.adb_forward_ok = true →
      ∃ l pre, (∀ ip port, Event.net_connect ip port ∉ pre) ∧
        (connect env plugin).1 = env.net_connect ∧
        (connect env plugin).2.usb_port = l ∧
        (connect env plugin).2.trace =
          plugin.trace ++ pre ++ [Event.adb_add_forward l plugin.device_info.port] ++
            [Event.net_connect localhost_ip l] ++
            (if env.net_connect.isSome then [] else [Event.adb_clear_forwards])) ∧
    (env.adb_offline = true →
      connect env plugin = (none, plugin.emit [Event.connect_device])) := by
  constructor
  · intro hon hok
    obtain ⟨hres, hport, htrace, _⟩ := connect_adb_online env plugin dev plugin.device_info.port
      env.adb_iter plugin.usb_port _ ht hdev hon rfl rfl rfl rfl
    simp only [hok, if_true, add_zero] at hres hport htrace
    refine ⟨_, Event.connect_device ::
      (if plugin.usb_port > plugin.device_info.port + 10 * env.adb_iter + 8
       then [Event.adb_clear_forwards] else []), ?_, hres, hport, ?_⟩
    · intro ip port hm
      simp only [List.mem_cons] at hm
      rcases hm with hm | hm
      · cases hm
      · split_ifs at hm <;> simp at hm
    · rw [htrace]
      simp
  · intro hoff
    unfold connect
    simp only [Plugin.emit, ht, hdev, hoff, if_true]

/-- Witness for C19: an offline device. -/
theorem connect_adb_dial_witness :
    connect { Env.all_ok with adb_device := some ⟨""⟩, adb_offline := true }
        { Plugin.created with device_info := ⟨"", "", 5555, DeviceType.ADB⟩ } =
      (none,
       { Plugin.created with device_info := ⟨"", "", 5555, DeviceType.ADB⟩ }.emit
         [Event.connect_device]) :=
  (connect_adb_dial { Env.all_ok with adb_device := some ⟨""⟩, adb_offline := true }
    { Plugin.created with device_info := ⟨"", "", 5555, DeviceType.ADB⟩ } ⟨""⟩ rfl rfl).2 rfl

/-- C20: a change of format or resolution sets the reset signal.  With the
reset signal set, an iteration of the video ingest loop with `activated`,
`is_showing` and `video_running` reads no frame, closes the stream and clears
`video_running`; an iteration clears the reset signal exactly when it is made
with `activated ∧ is_showing`, the stream not running, and its connect and its
stream-start send both succeed, and the request of that iteration carries the
format and resolution the session has then. -/
theorem video_thread_reset_reconnect (NO_PTS : Nat) (env : Env) (sched : List EnvAct)
    (plugin : Plugin) (sock : Option (List Nat)) (data_packet : Option DataPacket) :
    (∀ (video_resolution : Int) (video_format : VideoFormat),
      ¬(video_resolution = plugin.video_resolution ∧ video_format = plugin.video_format) →
      (video_parms_changed video_resolution video_format plugin).reset_signal = true ∧
      (video_parms_changed video_resolution video_format plugin).video_resolution =
        video_resolution ∧
      (video_parms_changed video_resolution video_format plugin).video_format = video_format) ∧
    (plugin.reset_signal = true →
      (plugin.activated = true → plugin.is_showing = true → plugin.video_running = true →
        video_thread_head NO_PTS env plugin sock =
          (false,
           { plugin with
             video_running := false,
             trace := plugin.trace ++ [Event.net_close, Event.os_sleep_ms 2000] },
           none) ∧
        ∀ r, video_thread_iter NO_PTS env sched plugin sock data_packet = some r →
          r.1.video_running = false ∧ r.2.1 = none ∧ r.1.reset_signal = true) ∧
      (∀ r, video_thread_iter NO_PTS env sched plugin sock data_packet = some r →
        (r.1.reset_signal = false ↔
          plugin.activated = true ∧ plugin.is_showing = true ∧ plugin.video_running = false ∧
          (connect env plugin).1 ≠ none ∧ env.send_ok = true)) ∧
      (plugin.activated = true → plugin.is_showing = true → plugin.video_running = false →
        (connect env plugin).1 ≠ none → env.send_ok = true →
        ∃ (events : List Event) (r : Plugin × Option (List Nat) × Option DataPacket),
          video_thread_iter NO_PTS env sched plugin sock data_packet = some r ∧
          r.1.reset_signal = false ∧ r.1.video_running = true ∧
          r.2.1 = (connect env plugin).1 ∧
          r.1.trace = (connect env plugin).2.trace ++
            Event.net_send_video_req plugin.video_format plugin.video_resolution
              (connect env plugin).2.usb_port :: events)) := by
  refine ⟨?_, fun hreset => ⟨?_, ?_, ?_⟩⟩
  · intro res fmt hne
    unfold video_parms_changed
    rw [if_neg hne]
    exact ⟨rfl, rfl, rfl⟩
  · intro hact hshow hrun
    have hh := video_thread_head_reset NO_PTS env plugin sock hact hshow hrun hreset
    refine ⟨hh, ?_⟩
    intro r hr
    unfold video_thread_iter at hr
    rw [hh] at hr
    simp only [] at hr
    obtain ⟨h1, h2, -⟩ := video_thread_LOOP_closed _ _ _ _ r hr
    refine ⟨h1, h2, ?_⟩
    rw [video_thread_LOOP_reset_signal _ _ _ _ r hr]
    exact hreset
  · intro r hr
    unfold video_thread_iter at hr
    by_cases hg : plugin.activated = true ∧ plugin.is_showing = true
    · by_cases hrun : plugin.video_running = true
      · rw [video_thread_head_reset NO_PTS env plugin sock hg.1 hg.2 hrun hreset] at hr
        simp only [] at hr
        have := video_thread_LOOP_reset_signal _ _ _ _ r hr
        simp only [] at this
        rw [this, hreset, hrun]
        simp
      · have hrun' : plugin.video_running = false := by simpa using hrun
        have hf := connect_fields env plugin
        have hrs : (connect env plugin).2.reset_signal = true := by rw [hf]; exact hreset
        rw [video_thread_head_connect NO_PTS env plugin sock hg.1 hg.2 hrun'] at hr
        cases hc : (connect env plugin).1 with
        | none =>
          rw [hc] at hr
          simp only [] at hr
          have := video_thread_LOOP_reset_signal _ _ _ _ r hr
          simp only [Plugin.emit] at this
          rw [this, hrs]
          simp
        | some s =>
          rw [hc] at hr
          simp only [] at hr
          by_cases hs : (!env.send_ok) = true
          · rw [if_pos hs] at hr
            simp only [] at hr
            have := video_thread_LOOP_reset_signal _ _ _ _ r hr
            simp only [Plugin.emit] at this
            rw [this, hrs]
            simp only [Bool.not_eq_true', ] at hs
            simp [hs]
          · rw [if_neg hs] at hr
            simp only [Option.some.injEq] at hr
            subst hr
            simp only [Bool.not_eq_true', Bool.not_eq_false] at hs
            simp [hg.1, hg.2, hrun', hs]
    · have hg' : ¬((plugin.activated && plugin.is_showing) = true) := by
        simpa [Bool.and_eq_true] using hg
      have hh : video_thread_head NO_PTS env plugin sock = (false, plugin, sock) := by
        unfold video_thread_head
        rw [if_neg hg']
      rw [hh] at hr
      simp only [] at hr
      rw [video_thread_LOOP_reset_signal _ _ _ _ r hr, hreset]
      constructor
      · intro h; cases h
      · intro h; exact absurd ⟨h.1, h.2.1⟩ hg
  · intro hact hshow hrun hc hs
    have hh := video_thread_head_connect NO_PTS env plugin sock hact hshow hrun
    cases hcc : (connect env plugin).1 with
    | none => exact absurd hcc hc
    | some s =>
      rw [hcc] at hh
      simp only [] at hh
      have hs' : ¬((!env.send_ok) = true) := by rw [hs]; decide
      rw [if_neg hs'] at hh
      unfold video_thread_iter
      rw [hh]
      refine ⟨Event.set_recv_buf_len ::
        (if (if plugin.device_info.type = DeviceType.ADB ∨
               plugin.device_info.type = DeviceType.IOS
             then (connect env plugin).2.usb_port else plugin.device_info.port) > 0
         then
           [Event.set_remote_url
             (if plugin.device_info.type = DeviceType.ADB ∨
               plugin.device_info.type = DeviceType.IOS
             then (connect env plugin).2.usb_port else plugin.device_info.port)]
         else []), _, rfl, rfl, rfl, rfl, ?_⟩
      simp

/-- Witness for C20: the format is changed to MJPG and the resolution to 1 while
the stream runs; the next iteration drops the stream without reading. -/
theorem video_thread_reset_reconnect_witness :
    (video_parms_changed 1 VideoFormat.FORMAT_MJPG
      { Plugin.created with
        activated := true, is_showing := true, video_running := true }).reset_signal = true ∧
    video_thread_head (2 ^ 64 - 1) Env.all_ok
      (video_parms_changed 1 VideoFormat.FORMAT_MJPG
        { Plugin.created with activated := true, is_showing := true, video_running := true })
      (some [1, 2, 3]) =
      (false,
       { Plugin.created with
         activated := true, is_showing := true, video_running := false, reset_signal := true,
         video_resolution := 1, video_format := VideoFormat.FORMAT_MJPG,
         trace := [Event.net_close, Event.os_sleep_ms 2000] },
       none) :=
  ⟨by decide,
   (((video_thread_reset_reconnect (2 ^ 64 - 1) Env.all_ok []
      (video_parms_changed 1 VideoFormat.FORMAT_MJPG
        { Plugin.created with activated := true, is_showing := true, video_running := true })
      (some [1, 2, 3]) none).2 (by decide)).1 (by decide) (by decide) (by decide)).1⟩

/-- C21, as stated, fails when audio is disabled: with `enable_audio` false an
iteration of the audio ingest loop closes the socket and destroys the decoder
but publishes no null audio frame. -/
theorem audio_thread_disabled_counterexample :
    (audio_thread_iter (2 ^ 64 - 1) Env.all_ok
      { Plugin.created with
        activated := true, is_showing := true, enable_audio := false,
        audio_decoder := some Decoder.fresh }
      (some [])).1.trace =
      [Event.net_close, Event.delete_audio_decoder, Event.os_sleep_ms 40] ∧
    Event.output_audio none ∉
      (audio_thread_iter (2 ^ 64 - 1) Env.all_ok
        { Plugin.created with
          activated := true, is_showing := true, enable_audio := false,
          audio_decoder := some Decoder.fresh }
        (some [])).1.trace :=
  ⟨rfl, by decide⟩

/-- C21, amended: in an iteration of the audio ingest loop in which
`activated ∧ is_showing ∧ enable_audio` is false, the audio socket is closed,
`audio_running` is false, the audio decoder is destroyed (handle none), and
the null audio frame is published exactly when `enable_audio` is set; the
iteration then sleeps 40 ms. -/
theorem audio_thread_off (NO_PTS : Nat) (env : Env) (plugin : Plugin)
    (sock : Option (List Nat))
    (hoff : (plugin.activated && plugin.is_showing && plugin.enable_audio) = false) :
    audio_thread_iter NO_PTS env plugin sock =
      ({ plugin with
         audio_running := false, audio_decoder := none,
         trace := plugin.trace ++ (if sock.isSome then [Event.net_close] else []) ++
           (if plugin.audio_decoder.isSome then [Event.delete_audio_decoder] else []) ++
           (if plugin.enable_audio then [Event.output_audio none] else []) ++
           [Event.os_sleep_ms 40] }, none) ∧
    (Event.output_audio none ∈ (audio_thread_iter NO_PTS env plugin sock).1.trace ↔
      Event.output_audio none ∈ plugin.trace ∨ plugin.enable_audio = true) := by
  have hg : ¬(plugin.activated && plugin.is_showing && plugin.enable_audio) = true := by
    rw [hoff]; decide
  have heq : audio_thread_iter NO_PTS env plugin sock =
      ({ plugin with
         audio_running := false, audio_decoder := none,
         trace := plugin.trace ++ (if sock.isSome then [Event.net_close] else []) ++
           (if plugin.audio_decoder.isSome then [Event.delete_audio_decoder] else []) ++
           (if plugin.enable_audio then [Event.output_audio none] else []) ++
           [Event.os_sleep_ms 40] }, none) := by
    rw [audio_thread_iter_eq, if_neg hg, audio_thread_LOOP_eq]
    by_cases hr : plugin.audio_running = true
    · rw [if_pos hr]
    · rw [if_neg hr]
      have hr' : plugin.audio_running = false := by simpa using hr
      simp only [Prod.mk.injEq, and_true]
      rw [← hr']
  refine ⟨heq, ?_⟩
  rw [heq]
  simp only [List.mem_append, List.mem_singleton]
  constructor
  · rintro ((((h | h) | h) | h) | h)
    · exact Or.inl h
    · split_ifs at h <;> simp at h
    · split_ifs at h <;> simp at h
    · split_ifs at h with he
      · exact Or.inr he
      · simp at h
    · cases h
  · rintro (h | h)
    · exact Or.inl (Or.inl (Or.inl (Or.inl h)))
    · exact Or.inl (Or.inr (by rw [if_pos h]; simp))

/-- Witness for the amended C21: a hidden session with audio enabled and an open
audio socket. -/
theorem audio_thread_off_witness :
    audio_thread_iter (2 ^ 64 - 1) Env.all_ok
      { Plugin.created with activated := true, enable_audio := true, audio_running := true }
      (some [1, 2]) =
      ({ Plugin.created with
         activated := true, enable_audio := true,
         trace := [Event.net_close, Event.output_audio none, Event.os_sleep_ms 40] }, none) :=
  (audio_thread_off (2 ^ 64 - 1) Env.all_ok
    { Plugin.created with activated := true, enable_audio := true, audio_running := true }
    (some [1, 2]) rfl).1

/-- C22, as stated, fails: after a failed connect the video ingest loop sleeps
2000 ms, while the idle iteration of a session that is not activated sleeps
40 ms; 2000 is not twice 40. -/
theorem video_thread_slow_retry_counterexample :
    (video_thread_head (2 ^ 64 - 1) Env.all_ok
      { Plugin.created with activated := true, is_showing := true } none).2.1.trace =
      [Event.connect_device, Event.os_sleep_ms 2000] ∧
    (video_thread_iter (2 ^ 64 - 1) Env.all_ok [] Plugin.created none none).map
      (fun r => r.1.trace) = some [Event.output_video none, Event.os_sleep_ms 40] ∧
    MILLI_SEC * 2 ≠ 2 * (MILLI_SEC / FPS) :=
  ⟨rfl, rfl, by decide⟩

/-- C22, amended: the slow-retry sleep of the video ingest loop, taken after a
failed connect, a failed stream-start send or a failed frame read, lasts
`MILLI_SEC * 2 = 2000` ms, which is `2 * FPS = 50` times the idle-frame
period; the idle-frame period, the sleep that ends an iteration of a session
that is not activated and visible, is `MILLI_SEC / FPS = 40` ms. -/
theorem video_thread_slow_retry_sleep (NO_PTS : Nat) (env : Env) (sched : List EnvAct)
    (plugin : Plugin) (sock : Option (List Nat)) (data_packet : Option DataPacket)
    (hact : plugin.activated = true) (hshow : plugin.is_showing = true) :
    (plugin.video_running = false → (connect env plugin).1 = none →
      video_thread_head NO_PTS env plugin sock =
        (false, (connect env plugin).2.emit [Event.os_sleep_ms (MILLI_SEC * 2)], none)) ∧
    (plugin.video_running = false → (connect env plugin).1 ≠ none → env.send_ok = false →
      video_thread_head NO_PTS env plugin sock =
        (false,
         (connect env plugin).2.emit
           [Event.net_send_video_req plugin.video_format plugin.video_resolution
              (connect env plugin).2.usb_port,
            Event.net_close, Event.os_sleep_ms (MILLI_SEC * 2)],
         none)) ∧
    (plugin.video_running = true → plugin.reset_signal = false →
      (recv_video_frame NO_PTS env plugin (sock_bytes sock)).1 = false →
      video_thread_head NO_PTS env plugin sock =
        (false,
         { (recv_video_frame NO_PTS env plugin (sock_bytes sock)).2.1 with
           video_running := false }.emit [Event.net_close, Event.os_sleep_ms (MILLI_SEC * 2)],
         none)) ∧
    (∀ idle : Plugin, (idle.activated && idle.is_showing) = false →
      ∀ r, video_thread_iter NO_PTS env sched idle sock data_packet = some r →
        [Event.output_video none, Event.os_sleep_ms (MILLI_SEC / FPS)] <:+ r.1.trace) ∧
    MILLI_SEC * 2 = 2000 ∧ MILLI_SEC / FPS = 40 ∧
    MILLI_SEC * 2 = 2 * FPS * (MILLI_SEC / FPS) := by
  refine ⟨fun hrun hc => ?_, fun hrun hc hs => ?_, fun hrun hreset hread => ?_,
    fun idle hoff r hr => ?_, rfl, rfl, rfl⟩
  · rw [video_thread_head_connect NO_PTS env plugin sock hact hshow hrun, hc]
  · rw [video_thread_head_connect NO_PTS env plugin sock hact hshow hrun]
    cases hcc : (connect env plugin).1 with
    | none => exact absurd hcc hc
    | some s =>
      have hs' : (!env.send_ok) = true := by rw [hs]; rfl
      simp only []
      rw [if_pos hs']
  · rw [video_thread_head_read_fails NO_PTS env plugin sock hact hshow hrun hreset hread]
    rfl
  · unfold video_thread_iter at hr
    rw [video_thread_head_idle NO_PTS env idle sock hoff] at hr
    exact video_thread_LOOP_sleep sched idle sock data_packet r hr

/-- Witness for the amended C22: a failed connect of a session with no device. -/
theorem video_thread_slow_retry_sleep_witness :
    video_thread_head (2 ^ 64 - 1) Env.all_ok
      { Plugin.created with activated := true, is_showing := true } none =
      (false,
       { Plugin.created with
         activated := true, is_showing := true,
         trace := [Event.connect_device, Event.os_sleep_ms 2000] },
       none) :=
  (video_thread_slow_retry_sleep (2 ^ 64 - 1) Env.all_ok []
    { Plugin.created with activated := true, is_showing := true } none none rfl rfl).1 rfl rfl

/-- C23, as stated, fails: a click with the persisted activation flag set
deactivates the session and resets the tracked port, but leaves the device
descriptor as it was (here a direct-address device). -/
theorem connect_clicked_keeps_device_counterexample :
    (connect_clicked false false 3 "wifi" Env.all_ok
      { Settings.none_set with OPT_IS_ACTIVATED := true }
      { Plugin.created with
        activated := true, usb_port := 4747,
        device_info := ⟨"dev", "10.0.0.2", 4747, DeviceType.WIFI⟩ }).1 =
      { Plugin.created with
        activated := false, usb_port := 0,
        device_info := ⟨"dev", "10.0.0.2", 4747, DeviceType.WIFI⟩ } ∧
    (connect_clicked false false 3 "wifi" Env.all_ok
      { Settings.none_set with OPT_IS_ACTIVATED := true }
      { Plugin.created with
        activated := true, usb_port := 4747,
        device_info := ⟨"dev", "10.0.0.2", 4747, DeviceType.WIFI⟩ }).1.device_info.type ≠
      DeviceType.NONE :=
  ⟨rfl, by decide⟩

/-- C23, amended: when `connect_clicked` runs with the persisted activation flag
set, the session is deactivated (`activated` false, tracked local port 0),
the persisted flag is cleared, and the device descriptor and every other
field of the session are left as they were. -/
theorem connect_clicked_deactivates (DROIDCAM_OVERRIDE ENABLE_GUI : Bool)
    (RESOLUTION_1080 : Int) (opt_use_wifi : String) (env : Env) (settings : Settings)
    (plugin : Plugin) (hflag : settings.OPT_IS_ACTIVATED = true) :
    connect_clicked DROIDCAM_OVERRIDE ENABLE_GUI RESOLUTION_1080 opt_use_wifi env settings
        plugin =
      ({ plugin with usb_port := 0, activated := false },
       { settings with OPT_IS_ACTIVATED := false }) ∧
    (connect_clicked DROIDCAM_OVERRIDE ENABLE_GUI RESOLUTION_1080 opt_use_wifi env settings
        plugin).1.device_info = plugin.device_info := by
  have h := connect_clicked_deactivates_eq DROIDCAM_OVERRIDE ENABLE_GUI RESOLUTION_1080
    opt_use_wifi env settings plugin hflag
  exact ⟨h, by rw [h]⟩

/-- Witness for the amended C23: the click on a session activated on a
debug-bridge device. -/
theorem connect_clicked_deactivates_witness :
    (connect_clicked false false 3 "wifi" Env.all_ok
      { Settings.none_set with OPT_IS_ACTIVATED := true }
      { Plugin.created with
        activated := true, usb_port := 4750,
        device_info := ⟨"serial", "127.0.0.1", 4747, DeviceType.ADB⟩ }).1.device_info =
      ⟨"serial", "127.0.0.1", 4747, DeviceType.ADB⟩ :=
  (connect_clicked_deactivates false false 3 "wifi" Env.all_ok
    { Settings.none_set with OPT_IS_ACTIVATED := true }
    { Plugin.created with
      activated := true, usb_port := 4750,
      device_info := ⟨"serial", "127.0.0.1", 4747, DeviceType.ADB⟩ } rfl).2

/-- C24: a session that `source_create` (for a source that is not a dummy) or
`connect_clicked` leaves with `activated` true has a valid device descriptor:
kind not `NONE`, `1 ≤ port ≤ 65535`, id not empty, and address not empty if
the kind is `WIFI`.  With the persisted activation flag set, `source_create`
loads the descriptor from the settings and keeps `activated` exactly when
that descriptor is valid; the persisted flag itself is not rewritten.  For
`connect_clicked` the session is taken not to be activated behind a cleared
persisted flag, which `source_create` and `source_update` ensure. -/
theorem activated_descriptor_valid (DROIDCAM_OVERRIDE ENABLE_GUI : Bool)
    (RESOLUTION_1080 : Int) (opt_use_wifi : String) (env : Env) (settings : Settings)
    (plugin : Plugin) (threads_ok : Bool) :
    (settings.OPT_DUMMY_SOURCE = false →
      (threads_ok = true → (source_create DROIDCAM_OVERRIDE settings threads_ok).1 ≠ none) ∧
      ∀ p, (source_create DROIDCAM_OVERRIDE settings threads_ok).1 = some p →
        (p.activated = true →
          p.device_info.type ≠ DeviceType.NONE ∧ 1 ≤ p.device_info.port ∧
          p.device_info.port ≤ 65535 ∧ p.device_info.id ≠ "" ∧
          (p.device_info.type = DeviceType.WIFI → p.device_info.ip ≠ "")) ∧
        (p.activated = true → settings.OPT_IS_ACTIVATED = true) ∧
        (settings.OPT_IS_ACTIVATED = true →
          p.device_info = active_device settings ∧
          (p.activated = true ↔
            (active_device settings).type ≠ DeviceType.NONE ∧
            1 ≤ (active_device settings).port ∧ (active_device settings).port ≤ 65535 ∧
            (active_device settings).id ≠ "" ∧
            ((active_device settings).type = DeviceType.WIFI →
              (active_device settings).ip ≠ "")))) ∧
    (source_create DROIDCAM_OVERRIDE settings threads_ok).2.OPT_IS_ACTIVATED =
      settings.OPT_IS_ACTIVATED ∧
    (source_update settings plugin).activated = settings.OPT_IS_ACTIVATED ∧
    ((plugin.activated = true → settings.OPT_IS_ACTIVATED = true) →
      (connect_clicked DROIDCAM_OVERRIDE ENABLE_GUI RESOLUTION_1080 opt_use_wifi env settings
        plugin).1.activated = true →
      (connect_clicked DROIDCAM_OVERRIDE ENABLE_GUI RESOLUTION_1080 opt_use_wifi env settings
        plugin).1.device_info.type ≠ DeviceType.NONE ∧
      1 ≤ (connect_clicked DROIDCAM_OVERRIDE ENABLE_GUI RESOLUTION_1080 opt_use_wifi env
        settings plugin).1.device_info.port ∧
      (connect_clicked DROIDCAM_OVERRIDE ENABLE_GUI RESOLUTION_1080 opt_use_wifi env settings
        plugin).1.device_info.port ≤ 65535 ∧
      (connect_clicked DROIDCAM_OVERRIDE ENABLE_GUI RESOLUTION_1080 opt_use_wifi env settings
        plugin).1.device_info.id ≠ "" ∧
      ((connect_clicked DROIDCAM_OVERRIDE ENABLE_GUI RESOLUTION_1080 opt_use_wifi env settings
        plugin).1.device_info.type = DeviceType.WIFI →
        (connect_clicked DROIDCAM_OVERRIDE ENABLE_GUI RESOLUTION_1080 opt_use_wifi env settings
          plugin).1.device_info.ip ≠ "") ∧
      (connect_clicked DROIDCAM_OVERRIDE ENABLE_GUI RESOLUTION_1080 opt_use_wifi env settings
        plugin).2.OPT_IS_ACTIVATED = true) := by
  refine ⟨fun hd => ⟨fun ht => ?_, fun p hp => ?_⟩, ?_, ?_, fun hsync h => ?_⟩
  · unfold source_create
    simp only [hd, ht, Bool.false_eq_true, if_false, if_true]
    exact Option.some_ne_none _
  · obtain ⟨-, hinfo, hact⟩ := source_create_eq DROIDCAM_OVERRIDE settings threads_ok hd p hp
    have hiff : p.activated = true ↔
        settings.OPT_IS_ACTIVATED = true ∧
        ((active_device settings).type ≠ DeviceType.NONE ∧
          1 ≤ (active_device settings).port ∧ (active_device settings).port ≤ 65535 ∧
          (active_device settings).id ≠ "" ∧
          ((active_device settings).type = DeviceType.WIFI →
            (active_device settings).ip ≠ "")) := by
      rw [hact]
      simp only [Bool.and_eq_true, Bool.not_eq_true', decide_eq_false_iff_not, not_or, not_and,
        not_le, not_lt, ne_eq]
      constructor
      · rintro ⟨⟨hf, h1, h2, h3, h4⟩, h5⟩
        exact ⟨hf, h1, by omega, by omega, h4, h5⟩
      · rintro ⟨hf, h1, h2, h3, h4, h5⟩
        exact ⟨⟨hf, h1, by omega, by omega, h4⟩, h5⟩
    refine ⟨fun ha => ?_, fun ha => (hiff.mp ha).1, fun hf => ⟨hinfo hf, ?_⟩⟩
    · have h := hiff.mp ha
      rw [hinfo h.1]
      exact h.2
    · constructor
      · intro ha
        exact (hiff.mp ha).2
      · intro hv
        exact hiff.mpr ⟨hf, hv⟩
  · unfold source_create
    simp only []
    split_ifs <;> rfl
  · unfold source_update
    simp only []
    split_ifs with hne
    · rfl
    · exact (not_not.mp hne).symm
  · by_cases hflag : settings.OPT_IS_ACTIVATED = true
    · have hd := (connect_clicked_deactivates_eq DROIDCAM_OVERRIDE ENABLE_GUI RESOLUTION_1080
        opt_use_wifi env settings plugin hflag)
      rw [hd] at h
      cases h
    · have hoff : plugin.activated = false := by
        cases hp : plugin.activated
        · rfl
        · exact absurd (hsync hp) hflag
      exact connect_clicked_activated_valid DROIDCAM_OVERRIDE ENABLE_GUI RESOLUTION_1080
        opt_use_wifi env settings plugin hoff h

/-- Witness for C24: a click that selects the direct-address entry with an
address and a port activates the session on a valid descriptor. -/
theorem activated_descriptor_valid_witness :
    (connect_clicked false false 3 "wifi" Env.all_ok
      { Settings.none_set with OPT_DEVICE_LIST := some "wifi", OPT_WIFI_IP := some "10.0.0.2" }
      Plugin.created).1.device_info = ⟨"wifi", "10.0.0.2", 4747, DeviceType.WIFI⟩ ∧
    1 ≤ (connect_clicked false false 3 "wifi" Env.all_ok
      { Settings.none_set with OPT_DEVICE_LIST := some "wifi", OPT_WIFI_IP := some "10.0.0.2" }
      Plugin.created).1.device_info.port :=
  ⟨by decide,
   ((activated_descriptor_valid false false 3 "wifi" Env.all_ok
      { Settings.none_set with OPT_DEVICE_LIST := some "wifi", OPT_WIFI_IP := some "10.0.0.2" }
      Plugin.created true).2.2.2 (fun h => absurd h (by decide)) (by decide)).2.1⟩

end DroidCam
